import Mathlib

/-!
# vk_film: session manager and relational repositories

A shallow embedding of the Go packages `internal/usecase/auth`,
`internal/repository/session`, `internal/repository/user`,
`internal/repository/actor` and `internal/repository/film`.

Conventions of the embedding

* A Go `error` value is a `GoError`; a nil error is `none : Option GoError`.
* A Go function returning `(v, error)` returns a pair; a pointer result is an
  `Option`, `none` being the nil pointer.
* A method on an external handle (key-value client, SQL handle, repository
  interface) is a function on an explicit state, returning the new state.
* `uint64` identifiers are natural numbers, `int64` values are integers.
-/

set_option autoImplicit false

/-! ## Errors -/

/-- Package-level error values, compared by identity in Go.  `handlers text`
is the error value of package `handlers` made by `errors.New(text)`, its values
have different texts; `foreign n` stands for any other leaf error (driver,
network, test errors). -/
inductive Sentinel where
  | userNotFound
  | loginAlreadyExists
  | incorrectPassword
  | noSession
  | actorActorNotFound
  | filmFilmNotFound
  | filmActorNotFound
  | sqlErrNoRows
  | sqlErrTxDone
  | redisNil
  | bcryptMismatchedHashAndPassword
  | httpErrNoCookie
  | evjsonInvalidJson
  | handlers (text : String)
  | foreign (n : Nat)
deriving DecidableEq, Repr

/-- A Go error value: a leaf error, a PostgreSQL driver error `*pq.Error`
(with its `Code` and `Constraint` fields), or an error wrapped with a message
by `errors.Wrap` / `errors.Wrapf`. -/
inductive GoError where
  | sentinel (s : Sentinel)
  | pq (code : String) (constraint : String)
  | wrap (cause : GoError) (msg : String)
deriving DecidableEq, Repr

namespace errors

/-- Go `errors.Is(err, target)` for a leaf target: walks the chain of causes. -/
def Is : GoError → Sentinel → Bool
  | .sentinel s, t => decide (s = t)
  | .pq _ _, _ => false
  | .wrap c _, t => Is c t

/-- Go `errors.As(err, &e)` with `e` a `*pq.Error`: the first driver error in
the chain of causes, as its `(Code, Constraint)`. -/
def AsPq : GoError → Option (String × String)
  | .sentinel _ => none
  | .pq code constraint => some (code, constraint)
  | .wrap c _ => AsPq c

/-- Go `errors.Wrap(err, msg)` / `errors.Wrapf(err, format, ...)` on a non-nil error. -/
def Wrap (err : GoError) (msg : String) : GoError := .wrap err msg

/-- The chain `err, Unwrap(err), Unwrap(Unwrap(err)), ...` that `errors.Is` and
`errors.As` walk: an error wraps `e` when `e` is in its chain. -/
def chain : GoError → List GoError
  | .sentinel s => [.sentinel s]
  | .pq code constraint => [.pq code constraint]
  | .wrap c msg => .wrap c msg :: chain c

end errors

deriving instance DecidableEq for Except

/-- Runtime panics of the Go code. -/
inductive Panic where
  | nilPointerDereference
  | indexOutOfRange
  | logged (message : String)
deriving DecidableEq, Repr

/-! ## Basic types -/

namespace types

/-- Go `type Id uint64`. -/
abbrev Id := Nat

/-- Go `type Rating uint8`. -/
abbrev Rating := Nat

/-- Go `type Sexes string`. -/
abbrev Sexes := String

/-- Go `type Roles string`. -/
abbrev Roles := String

def ADMIN : Roles := "admin"

def USER : Roles := "user"

/-- Go `type Order string`. -/
abbrev Order := String

def ASC : Order := "ASC"

def DESC : Order := "DESC"

/-- Go `type OrderField string`. -/
abbrev OrderField := String

def RatingField : OrderField := "rating"

def NameField : OrderField := "name"

def DataPublishField : OrderField := "publish_date"

/-- Go `type SearchField string`. -/
abbrev SearchField := String

def ActorField : SearchField := "actor"

def FilmField : SearchField := "film"

end types

namespace time

/-- Go `time.Duration`, an `int64` count of nanoseconds. -/
abbrev Duration := Int

def Hour : Duration := 3600000000000

/-- Go `time.Time`, as an instant on an integer time line. -/
abbrev Time := Int

/-- The wrapper `FormattedTime` of `internal/pkg/time`: a `time.Time` with a
date layout for JSON. -/
structure FormattedTime where
  Time : Time
deriving DecidableEq, Repr

end time

/-- A Go slice: `none` is the nil slice, `some xs` a non-nil slice. -/
abbrev Slice (α : Type) := Option (List α)

namespace Slice

/-- Go `len(s)`. -/
def len {α : Type} (s : Slice α) : Nat :=
  match s with
  | none => 0
  | some xs => xs.length

/-- Go `append(s, x)`. -/
def append {α : Type} (s : Slice α) (x : α) : Slice α :=
  match s with
  | none => some [x]
  | some xs => some (xs ++ [x])

/-- The elements of a slice. -/
def toList {α : Type} (s : Slice α) : List α :=
  match s with
  | none => []
  | some xs => xs

/-- Go `append(s, x1, ..., xn)`: the elements of `l` appended one by one. -/
def appendAll {α : Type} (s : Slice α) (l : List α) : Slice α :=
  l.foldl append s

end Slice

/-- A Go `map[types.Id]uint64`, as the list of its writes, latest first. -/
abbrev IndexMap := List (types.Id × Nat)

namespace IndexMap

/-- Go `m[k]`: the value last written for `k`, zero for a key never written. -/
def get (m : IndexMap) (k : types.Id) : Nat :=
  match m.find? (fun p => p.1 = k) with
  | some p => p.2
  | none => 0

/-- Go `m[k] = v`. -/
def set (m : IndexMap) (k : types.Id) (v : Nat) : IndexMap := (k, v) :: m

end IndexMap

/-! ## Package `user`: model and repository interface -/

namespace user

structure User where
  ID : types.Id
  Login : String
  Password : String
  Role : types.Roles
deriving DecidableEq, Repr

structure LoginUser where
  ID : types.Id
  Password : String
deriving DecidableEq, Repr

def ErrorUserNotFound : GoError := .sentinel .userNotFound

def ErrorLoginAlreadyExists : GoError := .sentinel .loginAlreadyExists

/-- The methods of the interface `user.Repository` used by the session manager,
over a repository state `U`. -/
structure Repository (U : Type) where
  GetPasswordByLogin : String → U → (Option LoginUser × Option GoError) × U
  GetUserById : types.Id → U → (Option User × Option GoError) × U

/-- A call on a `user.Repository`. -/
inductive Call where
  | GetPasswordByLogin (login : String)
  | GetUserById (id : types.Id)
deriving DecidableEq, Repr

/-- The repository `r` with every call appended to a log. -/
def traced {U : Type} (r : Repository U) : Repository (U × List Call) where
  GetPasswordByLogin := fun login s =>
    let (res, u) := r.GetPasswordByLogin login s.1
    (res, (u, s.2 ++ [Call.GetPasswordByLogin login]))
  GetUserById := fun id s =>
    let (res, u) := r.GetUserById id s.1
    (res, (u, s.2 ++ [Call.GetUserById id]))

end user

/-! ## Package `session`: repository interface and the Redis implementation -/

namespace session

def ErrorNoSession : GoError := .sentinel .noSession

/-- The interface `session.Repository`, over a store state `S`. -/
structure Repository (S : Type) where
  Set : String → types.Id → time.Duration → S → Option GoError × S
  GetUserId : String → time.Duration → S → (types.Id × Option GoError) × S
  Del : String → S → Option GoError × S

/-- A call on a `session.Repository`. -/
inductive Call where
  | Set (sessionId : String) (userId : types.Id) (expiredTime : time.Duration)
  | GetUserId (sessionId : String) (updateExpiredTime : time.Duration)
  | Del (sessionId : String)
deriving DecidableEq, Repr

/-- The repository `r` with every call appended to a log. -/
def traced {S : Type} (r : Repository S) : Repository (S × List Call) where
  Set := fun sessionId userId expiredTime s =>
    let (err, st) := r.Set sessionId userId expiredTime s.1
    (err, (st, s.2 ++ [Call.Set sessionId userId expiredTime]))
  GetUserId := fun sessionId updateExpiredTime s =>
    let (res, st) := r.GetUserId sessionId updateExpiredTime s.1
    (res, (st, s.2 ++ [Call.GetUserId sessionId updateExpiredTime]))
  Del := fun sessionId s =>
    let (err, st) := r.Del sessionId s.1
    (err, (st, s.2 ++ [Call.Del sessionId]))

end session

namespace redis

/-- The error `redis.Nil` of the client library: the key does not exist. -/
def Nil : GoError := .sentinel .redisNil

/-- The commands of `*redis.Client` used by the session repository, over a
server state `R`.  `GetUint64` is `Get(ctx, key).Uint64()`; the other commands
are followed by `.Err()`. -/
structure Client (R : Type) where
  Set : String → Nat → time.Duration → R → Option GoError × R
  GetUint64 : String → R → (Nat × Option GoError) × R
  Expire : String → time.Duration → R → Option GoError × R
  Del : String → R → Option GoError × R

/-- A command sent to the key-value engine. -/
inductive Call where
  | Set (key : String) (value : Nat) (expiration : time.Duration)
  | Get (key : String)
  | Expire (key : String) (expiration : time.Duration)
  | Del (key : String)
deriving DecidableEq, Repr

/-- The client `c` with every command appended to a log. -/
def traced {R : Type} (c : Client R) : Client (R × List Call) where
  Set := fun key value ttl s =>
    ((c.Set key value ttl s.1).1, ((c.Set key value ttl s.1).2, s.2 ++ [Call.Set key value ttl]))
  GetUint64 := fun key s =>
    ((c.GetUint64 key s.1).1, ((c.GetUint64 key s.1).2, s.2 ++ [Call.Get key]))
  Expire := fun key ttl s =>
    ((c.Expire key ttl s.1).1, ((c.Expire key ttl s.1).2, s.2 ++ [Call.Expire key ttl]))
  Del := fun key s => ((c.Del key s.1).1, ((c.Del key s.1).2, s.2 ++ [Call.Del key]))

end redis

namespace session

/-- Go `RedisSession.Set`. -/
def RedisSession.Set {R : Type} (client : redis.Client R) (sessionId : String)
    (userId : types.Id) (expiredTime : time.Duration) (r : R) : Option GoError × R :=
  match client.Set sessionId userId expiredTime r with
  | (some err, r1) =>
    (some (errors.Wrap err ("error when try create session with uniqId: " ++ sessionId ++
      ", and userId: " ++ toString userId)), r1)
  | (none, r1) => (none, r1)

/-- Go `RedisSession.GetUserId`. -/
def RedisSession.GetUserId {R : Type} (client : redis.Client R) (sessionId : String)
    (updateExpiredTime : time.Duration) (r : R) : (types.Id × Option GoError) × R :=
  match client.GetUint64 sessionId r with
  | ((_, some err), r1) =>
    let err1 := if errors.Is err .redisNil then ErrorNoSession else err
    ((0, some (errors.Wrap err1 ("error when try found session with sessionId: " ++ sessionId))), r1)
  | ((userId, none), r1) =>
    match client.Expire sessionId updateExpiredTime r1 with
    | (some err, r2) =>
      ((0, some (errors.Wrap err
        ("error when try update expired time with sessionId: " ++ sessionId))), r2)
    | (none, r2) => ((userId, none), r2)

/-- Go `RedisSession.Del`. -/
def RedisSession.Del {R : Type} (client : redis.Client R) (sessionId : String) (r : R) :
    Option GoError × R :=
  match client.Del sessionId r with
  | (some err, r1) =>
    (some (errors.Wrap err ("error when try delete session with sessionId: " ++ sessionId)), r1)
  | (none, r1) => (none, r1)

/-- The type `RedisSession` as an implementation of `session.Repository`. -/
def RedisSession {R : Type} (client : redis.Client R) : Repository R where
  Set := RedisSession.Set client
  GetUserId := RedisSession.GetUserId client
  Del := RedisSession.Del client

end session

/-! ## Package `auth`: the session manager -/

namespace auth

def ErrorIncorrectPassword : GoError := .sentinel .incorrectPassword

/-- Go `ExpiredSessionTime = 48 * time.Hour`. -/
def ExpiredSessionTime : time.Duration := 48 * time.Hour

/-- Go `bcrypt.ErrMismatchedHashAndPassword`. -/
def bcryptErrMismatchedHashAndPassword : GoError := .sentinel .bcryptMismatchedHashAndPassword

/-- Go `type SessionManager struct`, over a user repository state `U` and a
session store state `S`.  `CompareHashAndPassword hash password` is the library
function `bcrypt.CompareHashAndPassword`. -/
structure SessionManager (U S : Type) where
  users : user.Repository U
  sessions : session.Repository S
  CompareHashAndPassword : String → String → Option GoError

/-- Go `SessionManager.Login`.  `uuidNew` is the value of `uuid.New().String()`
in this call.  The result is `Except.error` when the call panics. -/
def SessionManager.Login {U S : Type} (sm : SessionManager U S) (login password : String)
    (uuidNew : String) (w : U × S) : Except Panic (String × Option GoError) × (U × S) :=
  match sm.users.GetPasswordByLogin login w.1 with
  | ((_, some err), u1) => (.ok ("", some err), (u1, w.2))
  | ((none, none), u1) => (.error Panic.nilPointerDereference, (u1, w.2))
  | ((some usr, none), u1) =>
    match sm.CompareHashAndPassword usr.Password password with
    | some err =>
      if errors.Is err .bcryptMismatchedHashAndPassword then
        (.ok ("", some ErrorIncorrectPassword), (u1, w.2))
      else
        (.ok ("", some err), (u1, w.2))
    | none =>
      let sessionId := uuidNew
      match sm.sessions.Set sessionId usr.ID ExpiredSessionTime w.2 with
      | (some err, s1) =>
        (.ok ("", some (errors.Wrap err ("try save session for user " ++ login))), (u1, s1))
      | (none, s1) => (.ok (sessionId, none), (u1, s1))

/-- Go `SessionManager.Logout`. -/
def SessionManager.Logout {U S : Type} (sm : SessionManager U S) (sessionId : String)
    (w : U × S) : Option GoError × (U × S) :=
  match sm.sessions.Del sessionId w.2 with
  | (some err, s1) => (some (errors.Wrap err ("try delete session " ++ sessionId)), (w.1, s1))
  | (none, s1) => (none, (w.1, s1))

/-- Go `SessionManager.GetUserId`. -/
def SessionManager.GetUserId {U S : Type} (sm : SessionManager U S) (sessionId : String)
    (w : U × S) : (Option user.User × Option GoError) × (U × S) :=
  match sm.sessions.GetUserId sessionId ExpiredSessionTime w.2 with
  | ((_, some err), s1) =>
    ((none, some (errors.Wrap err ("try get session " ++ sessionId))), (w.1, s1))
  | ((userId, none), s1) =>
    match sm.users.GetUserById userId w.1 with
    | ((_, some err), u1) =>
      if errors.Is err .userNotFound then
        ((none, some session.ErrorNoSession), (u1, (sm.sessions.Del sessionId s1).2))
      else
        ((none, some (errors.Wrap err ("try get user by id " ++ toString userId ++
          " in session " ++ sessionId))), (u1, s1))
    | ((usr, none), u1) => ((usr, none), (u1, s1))

end auth

/-! ## Package `database/sql` and the `sqlx` handle -/

namespace sql

/-- Go `sql.ErrNoRows`. -/
def ErrNoRows : GoError := .sentinel .sqlErrNoRows

/-- Go `sql.ErrTxDone`. -/
def ErrTxDone : GoError := .sentinel .sqlErrTxDone

/-- Go `sql.NullString`. -/
structure NullString where
  String : String
  Valid : Bool
deriving DecidableEq, Repr

/-- Go `sql.NullTime`. -/
structure NullTime where
  Time : time.Time
  Valid : Bool
deriving DecidableEq, Repr

/-- Go `sql.NullInt64`. -/
structure NullInt64 where
  Int64 : Int
  Valid : Bool
deriving DecidableEq, Repr

/-- Go `sql.Null[T]`. -/
structure Null (T : Type) where
  V : T
  Valid : Bool
deriving DecidableEq, Repr

/-- Go `sql.Result`, as the outcome of its method `RowsAffected() (int64, error)`. -/
structure Result where
  RowsAffected : Int × Option GoError
deriving DecidableEq, Repr

end sql

namespace sqlx

/-- The SQL statements of the repositories: one constructor per query constant
of the packages `actor`, `film` and `user`.  `filmGetFilmsSearchFilm f o` and
`filmGetFilmsSearchActor f o` are the constants `getFilmsSearchFilm` and
`getFilmsSearchActor` after `fmt.Sprintf(query, f, o)`; `filmGetFilmsActorsIn n`
is the constant `getFilmsActors` with its `(?)` expanded to `n` placeholders. -/
inductive Query where
  | actorDeleteActor
  | actorUpdateActors
  | actorGetActorFilms
  | filmCreateQuery
  | filmAddActors
  | filmDeleteFilm
  | filmUpdateFilms
  | filmDeleteActors
  | filmGetFilmActors
  | userDeleteUser
  | userGetPasswordByLogin
  | userGetUserById
  | userCreateQuery
  | userUpdateUser
  | actorGetActors
  | actorGetActorsFilms
  | filmGetFilmsSearchFilm (orderField order : String)
  | filmGetFilmsSearchActor (orderField order : String)
  | filmGetFilmsActors
  | filmGetFilmsActorsIn (bindVars : Nat)
  | userGetUsers
deriving DecidableEq, Repr

/-- A value bound to a placeholder `$n` of a statement, by its Go type. -/
inductive Arg where
  | id (v : types.Id)
  | string (v : String)
  | rating (v : types.Rating)
  | formattedTime (v : time.FormattedTime)
  | nullString (v : sql.NullString)
  | nullTime (v : sql.NullTime)
  | nullInt64 (v : sql.NullInt64)
  | nullOfString (v : sql.Null String)
  | idArray (v : Slice types.Id)
deriving DecidableEq, Repr

/-- A result row, by the columns the statement selects or returns. -/
inductive Record where
  | actor (id : types.Id) (name : String) (sex : types.Sexes) (birthday : time.Time)
  | film (id : types.Id) (name description : String) (publishDate : time.Time)
      (rating : types.Rating)
  | user (id : types.Id) (login : String) (role : types.Roles)
  | userExists (id : types.Id) (login : String) (role : types.Roles) (found : Bool)
  | loginUser (id : types.Id) (password : String)
  | actorFilm (actorId : types.Id) (id : types.Id) (name description : String)
      (publishDate : time.Time) (rating : types.Rating)
  | filmActor (filmId : types.Id) (id : types.Id) (name : String) (sex : types.Sexes)
      (birthday : time.Time)
deriving DecidableEq, Repr

/-- Go `*sqlx.Rows`: the rows `Next` steps through, in order, and the value of
`Err()` once `Next` has returned false. -/
structure Rows where
  rows : List Record
  Err : Option GoError
deriving DecidableEq, Repr

/-- The methods of `*sqlx.DB` and `*sqlx.Tx` used by the repositories, over a
database state `D`.  `QueryRowx` is `QueryRowx(query, args...)` followed by
`Scan`: the row read, or the error `Scan` reports (`sql.ErrNoRows` when the
statement yields no row). -/
structure DB (D : Type) where
  Beginx : D → Option GoError × D
  Commit : D → Option GoError × D
  Rollback : D → Option GoError × D
  QueryRowx : Query → List Arg → D → Except GoError Record × D
  Queryx : Query → List Arg → D → Except GoError Rows × D
  Exec : Query → List Arg → D → Except GoError sql.Result × D

/-- A call on the database handle. -/
inductive Call where
  | Beginx
  | Commit
  | Rollback
  | QueryRowx (query : Query) (args : List Arg)
  | Queryx (query : Query) (args : List Arg)
  | Exec (query : Query) (args : List Arg)
deriving DecidableEq, Repr

/-- The handle `db` with every call appended to a log. -/
def traced {D : Type} (db : DB D) : DB (D × List Call) where
  Beginx := fun s => ((db.Beginx s.1).1, ((db.Beginx s.1).2, s.2 ++ [Call.Beginx]))
  Commit := fun s => ((db.Commit s.1).1, ((db.Commit s.1).2, s.2 ++ [Call.Commit]))
  Rollback := fun s => ((db.Rollback s.1).1, ((db.Rollback s.1).2, s.2 ++ [Call.Rollback]))
  QueryRowx := fun q args s =>
    ((db.QueryRowx q args s.1).1, ((db.QueryRowx q args s.1).2, s.2 ++ [Call.QueryRowx q args]))
  Queryx := fun q args s =>
    ((db.Queryx q args s.1).1, ((db.Queryx q args s.1).2, s.2 ++ [Call.Queryx q args]))
  Exec := fun q args s =>
    ((db.Exec q args s.1).1, ((db.Exec q args s.1).2, s.2 ++ [Call.Exec q args]))

/-- The error `Scan` reports when the row does not fit the destinations. -/
def scanError : GoError := .sentinel (.foreign 0)

/-- The loop `for rows.Next() { err := rows.Scan(...); if err != nil { return err };
acc = append(acc, v) }`: the slice built, or the first scan error. -/
def scanAll {α : Type} (scan : Record → Except GoError α) :
    List Record → Slice α → Except GoError (Slice α)
  | [], acc => .ok acc
  | r :: rs, acc =>
    match scan r with
    | .error err => .error err
    | .ok v => scanAll scan rs (Slice.append acc v)

/-- How a loop over rows that indexes a slice ends: with its value, with the
error of a scan, or with a runtime panic. -/
inductive Loop (α : Type) where
  | done (v : α)
  | fail (err : GoError)
  | panic (p : Panic)
deriving DecidableEq, Repr

/-- The error of `sqlx.In` for an empty slice or a query it cannot expand. -/
def inError : GoError := .sentinel (.foreign 3)

/-- Go `sqlx.In(query, ids)` for a slice argument: the query with its `(?)`
expanded to one placeholder per element and the elements as arguments; an
error for an empty slice. -/
def In (query : Query) (ids : List types.Id) : Except GoError (Query × List Arg) :=
  match query with
  | .filmGetFilmsActors =>
    if ids.length = 0 then .error inError
    else .ok (.filmGetFilmsActorsIn ids.length, ids.map Arg.id)
  | _ => .error inError

/-- Go `tx.Rebind(query)`: the placeholders `?` rewritten to `$1, $2, ...`; a
`Query` does not record the style of its placeholders. -/
def Rebind (query : Query) : Query := query

/-- What a call on the database handle answered. -/
inductive Answer where
  | error (err : Option GoError)
  | row (r : Except GoError Record)
  | rows (r : Except GoError Rows)
  | result (r : Except GoError sql.Result)
deriving DecidableEq, Repr

/-- The handle `db` with every call and its answer appended to a log. -/
def recorded {D : Type} (db : DB D) : DB (D × List (Call × Answer)) where
  Beginx := fun s =>
    ((db.Beginx s.1).1, ((db.Beginx s.1).2, s.2 ++ [(Call.Beginx, .error (db.Beginx s.1).1)]))
  Commit := fun s =>
    ((db.Commit s.1).1, ((db.Commit s.1).2, s.2 ++ [(Call.Commit, .error (db.Commit s.1).1)]))
  Rollback := fun s =>
    ((db.Rollback s.1).1,
      ((db.Rollback s.1).2, s.2 ++ [(Call.Rollback, .error (db.Rollback s.1).1)]))
  QueryRowx := fun q args s =>
    ((db.QueryRowx q args s.1).1,
      ((db.QueryRowx q args s.1).2,
       s.2 ++ [(Call.QueryRowx q args, .row (db.QueryRowx q args s.1).1)]))
  Queryx := fun q args s =>
    ((db.Queryx q args s.1).1,
      ((db.Queryx q args s.1).2, s.2 ++ [(Call.Queryx q args, .rows (db.Queryx q args s.1).1)]))
  Exec := fun q args s =>
    ((db.Exec q args s.1).1,
      ((db.Exec q args s.1).2, s.2 ++ [(Call.Exec q args, .result (db.Exec q args s.1).1)]))

/-- Whether `Scan` takes the row `r` of the query `q`: the row has the columns
the query selects or returns. -/
def fits (q : Query) (r : Record) : Bool :=
  match q, r with
  | .actorUpdateActors, .actor _ _ _ _ => true
  | .actorGetActors, .actor _ _ _ _ => true
  | .filmGetFilmActors, .actor _ _ _ _ => true
  | .actorGetActorFilms, .film _ _ _ _ _ => true
  | .filmCreateQuery, .film _ _ _ _ _ => true
  | .filmUpdateFilms, .film _ _ _ _ _ => true
  | .filmGetFilmsSearchFilm _ _, .film _ _ _ _ _ => true
  | .filmGetFilmsSearchActor _ _, .film _ _ _ _ _ => true
  | .actorGetActorsFilms, .actorFilm _ _ _ _ _ _ => true
  | .filmGetFilmsActorsIn _, .filmActor _ _ _ _ _ => true
  | .userCreateQuery, .userExists _ _ _ _ => true
  | .userUpdateUser, .user _ _ _ => true
  | .userGetUserById, .user _ _ _ => true
  | .userGetPasswordByLogin, .loginUser _ _ => true
  | .userGetUsers, .user _ _ _ => true
  | _, _ => false

/-- Whether a logged call failed: a statement answered an error, a row does
not scan, or the iteration over the rows ended with an error. -/
def failed : Call × Answer → Bool
  | (.QueryRowx _ _, .row (.error _)) => true
  | (.QueryRowx q _, .row (.ok r)) => !fits q r
  | (.Queryx _ _, .rows (.error _)) => true
  | (.Queryx q _, .rows (.ok rows)) => rows.Err.isSome || rows.rows.any (fun r => !fits q r)
  | (.Exec _ _, .result (.error _)) => true
  | _ => false

/-- The transaction discipline of one call of a repository operation that
returned `err`, on the log of its calls on the handle: if a logged call failed,
an error is returned, `Rollback` is the last call and `Commit` is not issued;
`Commit` and `Rollback` are not both issued; and if `Commit` answered an error,
the error returned wraps it. -/
def Discipline (err : Option GoError) (log : List (Call × Answer)) : Prop :=
  ((∃ c ∈ log, failed c = true) →
    err ≠ none ∧ log.getLast?.map Prod.fst = some Call.Rollback ∧
      Call.Commit ∉ log.map Prod.fst) ∧
  ¬ (Call.Commit ∈ log.map Prod.fst ∧ Call.Rollback ∈ log.map Prod.fst) ∧
  (∀ e, (Call.Commit, Answer.error (some e)) ∈ log → ∃ msg, err = some (errors.Wrap e msg))

/-- The transaction discipline of one call of a repository operation that
can panic: `Discipline` for the error it returns when it returns, and neither
`Commit` nor `Rollback` issued when it panics, where nothing is returned. -/
def DisciplineOf {α : Type} (out : Except Panic (α × Option GoError))
    (log : List (Call × Answer)) : Prop :=
  match out with
  | .ok r => Discipline r.2 log
  | .error _ => Call.Commit ∉ log.map Prod.fst ∧ Call.Rollback ∉ log.map Prod.fst

end sqlx

/-! ## Package `user`: the PostgreSQL repository -/

namespace user

/-- The call `Scan(&lu.ID, &lu.Password)` on a row. -/
def scanLoginUser : sqlx.Record → Except GoError LoginUser
  | .loginUser id password => .ok { ID := id, Password := password }
  | _ => .error sqlx.scanError

/-- The call `Scan(&u.ID, &u.Login, &u.Role)` on a row, into a zero `User`. -/
def scanUser : sqlx.Record → Except GoError User
  | .user id login role => .ok { ID := id, Login := login, Password := "", Role := role }
  | _ => .error sqlx.scanError

/-- Go `PostgresUser.DeleteUser`. -/
def PostgresUser.DeleteUser {D : Type} (db : sqlx.DB D) (id : types.Id) (d : D) :
    Option GoError × D :=
  match db.Exec .userDeleteUser [.id id] d with
  | (.error err, d1) =>
    (some (errors.Wrap err ("can't execute deleting query for user " ++ toString id)), d1)
  | (.ok res, d1) =>
    match res.RowsAffected with
    | (_, some err) =>
      (some (errors.Wrap err
        ("can't get number affected rows of deleting query for user " ++ toString id)), d1)
    | (n, none) =>
      if n ≠ 1 then
        (some (errors.Wrap ErrorUserNotFound ("with id " ++ toString id)), d1)
      else
        (none, d1)

/-- Go `PostgresUser.GetPasswordByLogin`. -/
def PostgresUser.GetPasswordByLogin {D : Type} (db : sqlx.DB D) (login : String) (d : D) :
    (Option LoginUser × Option GoError) × D :=
  match db.QueryRowx .userGetPasswordByLogin [.string login] d with
  | (res, d1) =>
    match res.bind scanLoginUser with
    | .error err =>
      if errors.Is err .sqlErrNoRows then
        ((none, some ErrorUserNotFound), d1)
      else
        ((none, some (errors.Wrap err ("can't found user by login " ++ login))), d1)
    | .ok lu => ((some lu, none), d1)

/-- Go `PostgresUser.GetUserById`. -/
def PostgresUser.GetUserById {D : Type} (db : sqlx.DB D) (id : types.Id) (d : D) :
    (Option User × Option GoError) × D :=
  match db.QueryRowx .userGetUserById [.id id] d with
  | (res, d1) =>
    match res.bind scanUser with
    | .error err =>
      if errors.Is err .sqlErrNoRows then
        ((none, some ErrorUserNotFound), d1)
      else
        ((none, some (errors.Wrap err ("can't found user by id " ++ toString id))), d1)
    | .ok foundedUser => ((some foundedUser, none), d1)

/-- The call `Scan(&newUser.ID, &newUser.Login, &newUser.Role, &exists)` on a
row, into a zero `User`. -/
def scanUserExists : sqlx.Record → Except GoError (User × Bool)
  | .userExists id login role found =>
    .ok ({ ID := id, Login := login, Password := "", Role := role }, found)
  | _ => .error sqlx.scanError

/-- Go `PostgresUser.CreateUser`. -/
def PostgresUser.CreateUser {D : Type} (db : sqlx.DB D) (user : User) (d : D) :
    (Option User × Option GoError) × D :=
  match db.QueryRowx .userCreateQuery
      [.string user.Login, .string user.Password, .string user.Role] d with
  | (res, d1) =>
    match res.bind scanUserExists with
    | .error err => ((none, some (errors.Wrap err "can't create user")), d1)
    | .ok (newUser, found) =>
      if found then
        ((some newUser, some ErrorLoginAlreadyExists), d1)
      else
        ((some newUser, none), d1)

/-- Go `PostgresUser.UpdateUserRole`. -/
def PostgresUser.UpdateUserRole {D : Type} (db : sqlx.DB D) (user : User) (d : D) :
    (Option User × Option GoError) × D :=
  match db.QueryRowx .userUpdateUser [.id user.ID, .string user.Role] d with
  | (res, d1) =>
    match res.bind scanUser with
    | .error err =>
      if errors.Is err .sqlErrNoRows then
        ((none, some ErrorUserNotFound), d1)
      else
        ((none, some (errors.Wrap err ("can't update user with id " ++ toString user.ID))), d1)
    | .ok updatedUser => ((some updatedUser, none), d1)

/-- Go `PostgresUser.GetUsers`: the loop scans every row into a zero `User` and
appends it to `users`, which starts as `make([]User, 0)`. -/
def PostgresUser.GetUsers {D : Type} (db : sqlx.DB D) (d : D) :
    (Slice User × Option GoError) × D :=
  match db.Queryx .userGetUsers [] d with
  | (.error err, d1) => ((none, some (errors.Wrap err "can't execute get users query")), d1)
  | (.ok rows, d1) =>
    match sqlx.scanAll scanUser rows.rows (some []) with
    | .error err =>
      ((none, some (errors.Wrap err "can't scan get users query result")), d1)
    | .ok users =>
      match rows.Err with
      | some err =>
        ((none, some (errors.Wrap err "can't end scan get users query result")), d1)
      | none => ((users, none), d1)

/-- The type `PostgresUser` as an implementation of `user.Repository`. -/
def PostgresUser {D : Type} (db : sqlx.DB D) : Repository D where
  GetPasswordByLogin := PostgresUser.GetPasswordByLogin db
  GetUserById := PostgresUser.GetUserById db

end user

/-! ## Package `film`: model -/

namespace film

structure Film where
  ID : types.Id
  Name : String
  Description : String
  DataPublish : time.FormattedTime
  Rating : types.Rating
deriving DecidableEq, Repr

structure Actor where
  ID : types.Id
  Name : String
  Sex : types.Sexes
  Birthday : time.FormattedTime
deriving DecidableEq, Repr

structure FilmWithActors extends Film where
  Actors : Slice Actor
deriving DecidableEq, Repr

structure UpdateFilm where
  ID : types.Id
  Name : Option String
  Description : Option String
  DataPublish : Option time.FormattedTime
  Rating : Option types.Rating
  Actors : Slice types.Id
  UpdateActors : Bool
deriving DecidableEq, Repr

structure Params where
  OrderField : types.OrderField
  Order : types.Order
  SearchField : types.SearchField
  SearchString : String
deriving DecidableEq, Repr

def ErrorFilmNotFound : GoError := .sentinel .filmFilmNotFound

def ErrorActorNotFound : GoError := .sentinel .filmActorNotFound

/-- The call `Scan(&f.ID, &f.Name, &f.Description, &f.DataPublish, &f.Rating)` on a row. -/
def scanFilm : sqlx.Record → Except GoError Film
  | .film id name description publishDate rating =>
    .ok { ID := id, Name := name, Description := description,
          DataPublish := { Time := publishDate }, Rating := rating }
  | _ => .error sqlx.scanError

/-- The call `Scan(&a.ID, &a.Name, &a.Sex, &a.Birthday)` on a row. -/
def scanActor : sqlx.Record → Except GoError Actor
  | .actor id name sex birthday =>
    .ok { ID := id, Name := name, Sex := sex, Birthday := { Time := birthday } }
  | _ => .error sqlx.scanError

end film

/-! ## Package `film`: the PostgreSQL repository -/

namespace film

def actorIdConflictCode : String := "23503"

def actorIdConstraintName : String := "film_actor_actor_id_fkey"

/-- Go `checkActorConflictError`. -/
def checkActorConflictError (err : GoError) : GoError :=
  match errors.AsPq err with
  | some (code, constraint) =>
    if code = actorIdConflictCode ∧ constraint = actorIdConstraintName then
      ErrorActorNotFound
    else
      err
  | none => err

/-- Go `getActors(filmId, tx)`. -/
def getActors {D : Type} (tx : sqlx.DB D) (filmId : types.Id) (d : D) :
    (Slice Actor × Option GoError) × D :=
  match tx.Queryx .filmGetFilmActors [.id filmId] d with
  | (.error err, d1) =>
    ((none, some (errors.Wrap err
      ("can't execute get query actors for film with id " ++ toString filmId))), d1)
  | (.ok rows, d1) =>
    match sqlx.scanAll scanActor rows.rows (some []) with
    | .error err =>
      ((none, some (errors.Wrap err
        ("can't scan get actors for film with id " ++ toString filmId))), d1)
    | .ok actors =>
      match rows.Err with
      | some err =>
        ((none, some (errors.Wrap err
          ("can't scan get actors for film with id " ++ toString filmId))), d1)
      | none => ((actors, none), d1)

/-- Go `PostgresFilm.CreateFilm`. -/
def PostgresFilm.CreateFilm {D : Type} (db : sqlx.DB D) (film : Film)
    (actors : Slice types.Id) (d : D) : (Option FilmWithActors × Option GoError) × D :=
  let commit := fun (newFilm : FilmWithActors) (d0 : D) =>
    match db.Commit d0 with
    | (some err, d5) =>
      ((none, some (errors.Wrap err "can't commit transaction for create film")), d5)
    | (none, d5) => ((some newFilm, none), d5)
  match db.Beginx d with
  | (some err, d1) =>
    ((none, some (errors.Wrap err "can't create transaction for create film")), d1)
  | (none, d1) =>
    match db.QueryRowx .filmCreateQuery
        [.string film.Name, .string film.Description, .formattedTime film.DataPublish,
         .rating film.Rating] d1 with
    | (res, d2) =>
      match res.bind scanFilm with
      | .error err =>
        ((none, some (errors.Wrap err "can't create film")), (db.Rollback d2).2)
      | .ok newFilm =>
        if Slice.len actors ≠ 0 then
          match db.Exec .filmAddActors [.id newFilm.ID, .idArray actors] d2 with
          | (.error err, d3) =>
            ((none, some (errors.Wrap (checkActorConflictError err)
              "can't create actors for film")), (db.Rollback d3).2)
          | (.ok _, d3) =>
            match getActors db newFilm.ID d3 with
            | ((_, some err), d4) =>
              ((none, some (errors.Wrap err "can't get actors for film")), (db.Rollback d4).2)
            | ((filmActors, none), d4) =>
              commit { toFilm := newFilm, Actors := filmActors } d4
        else
          commit { toFilm := newFilm, Actors := none } d2

/-- Go `getNull[T]`; the zero value of `T` is `default`. -/
def getNull {T : Type} [Inhabited T] (value : Option T) : sql.Null T :=
  match value with
  | none => { V := default, Valid := false }
  | some v => { V := v, Valid := true }

/-- The block of `UpdateFilm` that binds the rating:
`rating := sql.NullInt64{Valid: false}; if film.Rating != nil
{ rating = sql.NullInt64{Valid: true, Int64: int64(*film.Rating)} }`. -/
def nullRating (value : Option types.Rating) : sql.NullInt64 :=
  match value with
  | none => { Int64 := 0, Valid := false }
  | some r => { Int64 := Int.ofNat r, Valid := true }

/-- The block of `UpdateFilm` that binds the publish date:
`dataPublish := sql.NullTime{Valid: false}; if film.DataPublish != nil
{ dataPublish = sql.NullTime{Valid: true, Time: film.DataPublish.Time} }`. -/
def nullPublishDate (value : Option time.FormattedTime) : sql.NullTime :=
  match value with
  | none => { Time := 0, Valid := false }
  | some t => { Time := t.Time, Valid := true }

/-- Go `PostgresFilm.UpdateFilm`. -/
def PostgresFilm.UpdateFilm {D : Type} (db : sqlx.DB D) (film : UpdateFilm) (d : D) :
    (Option FilmWithActors × Option GoError) × D :=
  let name := getNull film.Name
  let description := getNull film.Description
  let rating := nullRating film.Rating
  let dataPublish := nullPublishDate film.DataPublish
  let finish := fun (updatedFilm : Film) (d0 : D) =>
    match getActors db updatedFilm.ID d0 with
    | ((_, some err), d5) =>
      ((none, some (errors.Wrap err
        ("can't get actors for updated film with id " ++ toString film.ID))),
        (db.Rollback d5).2)
    | ((filmActors, none), d5) =>
      match db.Commit d5 with
      | (some err, d6) =>
        ((none, some (errors.Wrap err
          ("can't commit transaction for update film with id " ++ toString film.ID))), d6)
      | (none, d6) => ((some { toFilm := updatedFilm, Actors := filmActors }, none), d6)
  match db.Beginx d with
  | (some err, d1) =>
    ((none, some (errors.Wrap err "can't create transaction for update film")), d1)
  | (none, d1) =>
    match db.QueryRowx .filmUpdateFilms
        [.id film.ID, .nullOfString name, .nullOfString description, .nullTime dataPublish,
         .nullInt64 rating] d1 with
    | (res, d2) =>
      match res.bind scanFilm with
      | .error err =>
        if errors.Is err .sqlErrNoRows then
          ((none, some ErrorFilmNotFound), (db.Rollback d2).2)
        else
          ((none, some (errors.Wrap err
            ("can't update film with id " ++ toString film.ID))), (db.Rollback d2).2)
      | .ok updatedFilm =>
        if film.UpdateActors then
          match db.Exec .filmDeleteActors [.id updatedFilm.ID] d2 with
          | (.error err, d3) =>
            ((none, some (errors.Wrap err
              ("can't delete old actors for updated film with id " ++ toString film.ID))),
              (db.Rollback d3).2)
          | (.ok _, d3) =>
            if Slice.len film.Actors ≠ 0 then
              match db.Exec .filmAddActors [.id updatedFilm.ID, .idArray film.Actors] d3 with
              | (.error err, d4) =>
                ((none, some (errors.Wrap (checkActorConflictError err)
                  ("can't create actors for updated film with id " ++ toString film.ID))),
                  (db.Rollback d4).2)
              | (.ok _, d4) => finish updatedFilm d4
            else
              finish updatedFilm d3
        else
          finish updatedFilm d2

/-- Go `PostgresFilm.DeleteFilm`. -/
def PostgresFilm.DeleteFilm {D : Type} (db : sqlx.DB D) (id : types.Id) (d : D) :
    Option GoError × D :=
  match db.Exec .filmDeleteFilm [.id id] d with
  | (.error err, d1) =>
    (some (errors.Wrap err ("can't execute deleting query for film " ++ toString id)), d1)
  | (.ok res, d1) =>
    match res.RowsAffected with
    | (_, some err) =>
      (some (errors.Wrap err
        ("can't get number affected rows of deleting query for film " ++ toString id)), d1)
    | (n, none) =>
      if n ≠ 1 then
        (some (errors.Wrap ErrorFilmNotFound ("with id " ++ toString id)), d1)
      else
        (none, d1)

/-- The call `Scan(&filmId, &a.ID, &a.Name, &a.Sex, &a.Birthday)` on a row. -/
def scanFilmActor : sqlx.Record → Except GoError (types.Id × Actor)
  | .filmActor filmId id name sex birthday =>
    .ok (filmId, { ID := id, Name := name, Sex := sex, Birthday := { Time := birthday } })
  | _ => .error sqlx.scanError

/-- The first loop of `GetFilms`: every row is scanned into a film with an
empty, non-nil actor list, appended to `films`, its index `i` is written to
`filmsIdIndx` under its id and its id is appended to `filmsId`. -/
def GetFilms.scanFilms : List sqlx.Record → List FilmWithActors → IndexMap →
    List types.Id → Nat → Except GoError (List FilmWithActors × IndexMap × List types.Id)
  | [], films, filmsIdIndx, filmsId, _ => .ok (films, filmsIdIndx, filmsId)
  | r :: rs, films, filmsIdIndx, filmsId, i =>
    match scanFilm r with
    | .error err => .error err
    | .ok film =>
      GetFilms.scanFilms rs (films ++ [{ toFilm := film, Actors := some [] }])
        (IndexMap.set filmsIdIndx film.ID i) (filmsId ++ [film.ID]) (i + 1)

/-- The second loop of `GetFilms`: every row is scanned into a film id and an
actor, and `films[filmsIdIndx[filmId]].Actors = append(films[filmsIdIndx[filmId]].Actors,
filmActors)`; indexing `films` out of range panics. -/
def GetFilms.groupActors : List sqlx.Record → List FilmWithActors → IndexMap →
    sqlx.Loop (List FilmWithActors)
  | [], films, _ => .done films
  | r :: rs, films, filmsIdIndx =>
    match scanFilmActor r with
    | .error err => .fail err
    | .ok (filmId, filmActors) =>
      match films[IndexMap.get filmsIdIndx filmId]? with
      | none => .panic Panic.indexOutOfRange
      | some f =>
        GetFilms.groupActors rs
          (films.set (IndexMap.get filmsIdIndx filmId)
            { f with Actors := Slice.append f.Actors filmActors })
          filmsIdIndx

/-- Go `fmt.Sprintf(getFilmsSearchFilm, orderField, order)`: the text of the
query constant with `%%` printed as `%` and its two verbs `%s` replaced. -/
def getFilmsSearchFilm (orderField : types.OrderField) (order : types.Order) : String :=
  "\n\t\tSELECT id, name, description, publish_date, rating FROM films \n" ++
  "\t\tWHERE name LIKE '%' || $1 || '%'\n" ++
  "\t\tORDER BY " ++ orderField ++ " " ++ order ++ "\n\t"

/-- Go `fmt.Sprintf(getFilmsSearchActor, orderField, order)`. -/
def getFilmsSearchActor (orderField : types.OrderField) (order : types.Order) : String :=
  "\n\t\tSELECT films.id, films.name, films.description, films.publish_date, " ++
  "films.rating FROM films \n" ++
  "\t\tJOIN film_actor on (films.id = film_actor.film_id)\n" ++
  "\t\t\tJOIN actors on (actors.id = film_actor.actor_id)\n" ++
  "\t\tWHERE actors.name LIKE '%' || $1 || '%'\n" ++
  "\t\tORDER BY films." ++ orderField ++ " " ++ order ++ "\n\t"

/-- The text sent to the database for the statements that `GetFilms` builds
with `fmt.Sprintf`. -/
def preparedText : sqlx.Query → Option String
  | .filmGetFilmsSearchFilm orderField order => some (getFilmsSearchFilm orderField order)
  | .filmGetFilmsSearchActor orderField order => some (getFilmsSearchActor orderField order)
  | _ => none

/-- The query `GetFilms` prepares: `getFilmsSearchActor` when the search field
is `actor`, `getFilmsSearchFilm` otherwise, with the order field and the order
interpolated by `fmt.Sprintf`. -/
def GetFilms.preparedQuery (params : Params) : sqlx.Query :=
  if params.SearchField = types.ActorField then
    .filmGetFilmsSearchActor params.OrderField params.Order
  else
    .filmGetFilmsSearchFilm params.OrderField params.Order

/-- The search string `GetFilms` binds: empty for `*`. -/
def GetFilms.searchString (params : Params) : String :=
  if params.SearchString = "*" then "" else params.SearchString

/-- Go `PostgresFilm.GetFilms`.  The result is `Except.error` when the call
panics. -/
def PostgresFilm.GetFilms {D : Type} (db : sqlx.DB D) (params : Params) (d : D) :
    Except Panic (Slice FilmWithActors × Option GoError) × D :=
  let preparedQuery := GetFilms.preparedQuery params
  let searchString := GetFilms.searchString params
  match db.Beginx d with
  | (some err, d1) =>
    (.ok (none, some (errors.Wrap err "can't create transaction for get films")), d1)
  | (none, d1) =>
    match db.Queryx preparedQuery [.string searchString] d1 with
    | (.error err, d2) =>
      (.ok (none, some (errors.Wrap err "can't execute get films query")), (db.Rollback d2).2)
    | (.ok rows, d2) =>
      match GetFilms.scanFilms rows.rows [] [] [] 0 with
      | .error err =>
        (.ok (none, some (errors.Wrap err "can't scan get films query result")),
          (db.Rollback d2).2)
      | .ok (films, filmsIdIndx, filmsId) =>
        match rows.Err with
        | some err =>
          (.ok (none, some (errors.Wrap err "can't end scan get films query result")),
            (db.Rollback d2).2)
        | none =>
          if films.length = 0 then
            match db.Commit d2 with
            | (some err, d3) =>
              (.ok (none, some (errors.Wrap err "can't commit transaction for get films")), d3)
            | (none, d3) => (.ok (some films, none), d3)
          else
            match sqlx.In .filmGetFilmsActors filmsId with
            | .error err =>
              (.ok (none, some (errors.Wrap err
                "can't prepare query to get films actors query")), (db.Rollback d2).2)
            | .ok (query, args) =>
              match db.Queryx (sqlx.Rebind query) args d2 with
              | (.error err, d3) =>
                (.ok (none, some (errors.Wrap err "can't execute get films actors query")),
                  (db.Rollback d3).2)
              | (.ok rows2, d3) =>
                match GetFilms.groupActors rows2.rows films filmsIdIndx with
                | .panic p => (.error p, d3)
                | .fail err =>
                  (.ok (none, some (errors.Wrap err
                    "can't scan get films actors query result")), (db.Rollback d3).2)
                | .done grouped =>
                  match rows2.Err with
                  | some err =>
                    (.ok (none, some (errors.Wrap err
                      "can't end scan get films actors query result")), (db.Rollback d3).2)
                  | none =>
                    match db.Commit d3 with
                    | (some err, d4) =>
                      (.ok (none, some (errors.Wrap err
                        "can't commit transaction for get films")), d4)
                    | (none, d4) => (.ok (some grouped, none), d4)

end film

/-! ## Package `actor`: model and the PostgreSQL repository -/

namespace actor

structure UpdateActor where
  ID : types.Id
  Name : Option String
  Sex : Option types.Sexes
  Birthday : Option time.FormattedTime
deriving DecidableEq, Repr

structure Actor where
  ID : types.Id
  Name : String
  Sex : types.Sexes
  Birthday : time.FormattedTime
deriving DecidableEq, Repr

structure ActorWithFilms extends Actor where
  Films : Slice film.Film
deriving DecidableEq, Repr

def ErrorActorNotFound : GoError := .sentinel .actorActorNotFound

/-- The call `Scan(&a.ID, &a.Name, &a.Sex, &a.Birthday)` on a row. -/
def scanActor : sqlx.Record → Except GoError Actor
  | .actor id name sex birthday =>
    .ok { ID := id, Name := name, Sex := sex, Birthday := { Time := birthday } }
  | _ => .error sqlx.scanError

/-- Go `getNullString`. -/
def getNullString (value : Option String) : sql.NullString :=
  match value with
  | none => { String := "", Valid := false }
  | some v => { String := v, Valid := true }

/-- The block of `UpdateActor` that binds the birthday:
`birthday := sql.NullTime{Valid: false}; if actor.Birthday != nil
{ birthday = sql.NullTime{Valid: true, Time: actor.Birthday.Time} }`. -/
def nullBirthday (value : Option time.FormattedTime) : sql.NullTime :=
  match value with
  | none => { Time := 0, Valid := false }
  | some b => { Time := b.Time, Valid := true }

/-- Go `PostgresActor.UpdateActor`. -/
def PostgresActor.UpdateActor {D : Type} (db : sqlx.DB D) (actor : UpdateActor) (d : D) :
    (Option ActorWithFilms × Option GoError) × D :=
  let name := getNullString actor.Name
  let sex := getNullString actor.Sex
  let birthday := nullBirthday actor.Birthday
  match db.Beginx d with
  | (some err, d1) =>
    ((none, some (errors.Wrap err "can't create transaction for update actor")), d1)
  | (none, d1) =>
    match db.QueryRowx .actorUpdateActors
        [.id actor.ID, .nullString name, .nullString sex, .nullTime birthday] d1 with
    | (res, d2) =>
      match res.bind scanActor with
      | .error err =>
        if errors.Is err .sqlErrNoRows then
          ((none, some ErrorActorNotFound), (db.Rollback d2).2)
        else
          ((none, some (errors.Wrap err
            ("can't update actor with id " ++ toString actor.ID))), (db.Rollback d2).2)
      | .ok updatedActor =>
        match db.Queryx .actorGetActorFilms [.id actor.ID] d2 with
        | (.error err, d3) =>
          ((none, some (errors.Wrap err "can't execute get updated actor films query")),
            (db.Rollback d3).2)
        | (.ok rows, d3) =>
          match sqlx.scanAll film.scanFilm rows.rows none with
          | .error err =>
            ((none, some (errors.Wrap err "can't scan get updated actor films query result")),
              (db.Rollback d3).2)
          | .ok films =>
            match rows.Err with
            | some err =>
              ((none, some (errors.Wrap err
                "can't end scan get updated actor films query result")), (db.Rollback d3).2)
            | none =>
              match db.Commit d3 with
              | (some err, d4) =>
                ((none, some (errors.Wrap err "can't commit transaction for update actor")), d4)
              | (none, d4) => ((some { toActor := updatedActor, Films := films }, none), d4)

/-- The call `Scan(&actorId, &f.ID, &f.Name, &f.Description, &f.DataPublish,
&f.Rating)` on a row. -/
def scanActorFilm : sqlx.Record → Except GoError (types.Id × film.Film)
  | .actorFilm actorId id name description publishDate rating =>
    .ok (actorId, { ID := id, Name := name, Description := description,
                    DataPublish := { Time := publishDate }, Rating := rating })
  | _ => .error sqlx.scanError

/-- The first loop of `GetActors`: every row is scanned into an actor with an
empty, non-nil film list, appended to `actors`, and its index `i` is written
to `actorsId` under its id. -/
def GetActors.scanActors : List sqlx.Record → List ActorWithFilms → IndexMap → Nat →
    Except GoError (List ActorWithFilms × IndexMap)
  | [], actors, actorsId, _ => .ok (actors, actorsId)
  | r :: rs, actors, actorsId, i =>
    match scanActor r with
    | .error err => .error err
    | .ok actor =>
      GetActors.scanActors rs (actors ++ [{ toActor := actor, Films := some [] }])
        (IndexMap.set actorsId actor.ID i) (i + 1)

/-- The second loop of `GetActors`: every row is scanned into an actor id and a
film, and `actors[actorsId[actorId]].Films = append(actors[actorsId[actorId]].Films,
actorFilms)`; indexing `actors` out of range panics. -/
def GetActors.groupFilms : List sqlx.Record → List ActorWithFilms → IndexMap →
    sqlx.Loop (List ActorWithFilms)
  | [], actors, _ => .done actors
  | r :: rs, actors, actorsId =>
    match scanActorFilm r with
    | .error err => .fail err
    | .ok (actorId, actorFilms) =>
      match actors[IndexMap.get actorsId actorId]? with
      | none => .panic Panic.indexOutOfRange
      | some a =>
        GetActors.groupFilms rs
          (actors.set (IndexMap.get actorsId actorId)
            { a with Films := Slice.append a.Films actorFilms })
          actorsId

/-- The row of `getActors` that scans into the actor `a`. -/
def recordOfActor (a : Actor) : sqlx.Record := .actor a.ID a.Name a.Sex a.Birthday.Time

/-- The row of `getActorsFilms` that scans into the actor id `p.1` and the
film `p.2`. -/
def recordOfActorFilm (p : types.Id × film.Film) : sqlx.Record :=
  .actorFilm p.1 p.2.ID p.2.Name p.2.Description p.2.DataPublish.Time p.2.Rating

/-- The grouping of `GetActors` in the words of the specification: one entry
per actor, in the order of the actor listing, with the films of the pair rows
of that actor, in the order of the pair rows. -/
def groupedFilms (actors : List Actor) (pairs : List (types.Id × film.Film)) :
    List ActorWithFilms :=
  actors.map (fun a =>
    { toActor := a,
      Films := some ((pairs.filter (fun p => p.1 = a.ID)).map (fun p => p.2)) })

/-- Go `PostgresActor.GetActors`.  The result is `Except.error` when the call
panics. -/
def PostgresActor.GetActors {D : Type} (db : sqlx.DB D) (d : D) :
    Except Panic (Slice ActorWithFilms × Option GoError) × D :=
  match db.Beginx d with
  | (some err, d1) =>
    (.ok (none, some (errors.Wrap err "can't create transaction for get actors")), d1)
  | (none, d1) =>
    match db.Queryx .actorGetActors [] d1 with
    | (.error err, d2) =>
      (.ok (none, some (errors.Wrap err "can't execute get actors query")), (db.Rollback d2).2)
    | (.ok rows, d2) =>
      match GetActors.scanActors rows.rows [] [] 0 with
      | .error err =>
        (.ok (none, some (errors.Wrap err "can't scan get actors query result")),
          (db.Rollback d2).2)
      | .ok (actors, actorsId) =>
        match rows.Err with
        | some err =>
          (.ok (none, some (errors.Wrap err "can't end scan get actors query result")),
            (db.Rollback d2).2)
        | none =>
          match db.Queryx .actorGetActorsFilms [] d2 with
          | (.error err, d3) =>
            (.ok (none, some (errors.Wrap err "can't execute get actors films query")),
              (db.Rollback d3).2)
          | (.ok rows2, d3) =>
            match GetActors.groupFilms rows2.rows actors actorsId with
            | .panic p => (.error p, d3)
            | .fail err =>
              (.ok (none, some (errors.Wrap err "can't scan get actors films query result")),
                (db.Rollback d3).2)
            | .done grouped =>
              match rows2.Err with
              | some err =>
                (.ok (none, some (errors.Wrap err
                  "can't end scan get actors films query result")), (db.Rollback d3).2)
              | none =>
                match db.Commit d3 with
                | (some err, d4) =>
                  (.ok (none, some (errors.Wrap err
                    "can't commit transaction for get actors")), d4)
                | (none, d4) => (.ok (some grouped, none), d4)

/-- Go `PostgresActor.DeleteActor`. -/
def PostgresActor.DeleteActor {D : Type} (db : sqlx.DB D) (id : types.Id) (d : D) :
    Option GoError × D :=
  match db.Exec .actorDeleteActor [.id id] d with
  | (.error err, d1) =>
    (some (errors.Wrap err ("can't execute deleting query for actor " ++ toString id)), d1)
  | (.ok res, d1) =>
    match res.RowsAffected with
    | (_, some err) =>
      (some (errors.Wrap err
        ("can't get number affected rows of deleting query for actor " ++ toString id)), d1)
    | (n, none) =>
      if n < 1 then
        (some (errors.Wrap ErrorActorNotFound ("with id " ++ toString id)), d1)
      else
        (none, d1)

end actor

/-! ## The key-value engine -/

namespace redis

/-- An entry of the key-value engine: a session token, the user id stored under
it and the time the entry has left. -/
structure Entry where
  key : String
  value : Nat
  ttl : time.Duration
deriving DecidableEq, Repr

/-- Modelled from the spec: the key-value engine holding the sessions, a map
from string keys to user ids with TTL-bearing entries, whose commands always
succeed.  `Set` overwrites, `Get` of a missing key answers `redis.Nil`,
`Expire` resets the time left of an existing key, `Del` is idempotent. -/
def memClient : Client (List Entry) where
  Set := fun key value ttl s =>
    (none, { key := key, value := value, ttl := ttl } :: s.filter (fun e => e.key ≠ key))
  GetUint64 := fun key s =>
    match s.find? (fun e => e.key = key) with
    | some e => ((e.value, none), s)
    | none => ((0, some Nil), s)
  Expire := fun key ttl s =>
    (none, s.map (fun e => if e.key = key then { e with ttl := ttl } else e))
  Del := fun key s => (none, s.filter (fun e => e.key ≠ key))

/-- Modelled from the spec: the time `dt` passing on the key-value engine.  An
entry whose time left is used up expires: it is dropped; the others have that
much less time left. -/
def elapse (dt : time.Duration) (s : List Entry) : List Entry :=
  (s.filter (fun e => dt < e.ttl)).map (fun e => { e with ttl := e.ttl - dt })

end redis

/-! ## The relational engine -/

namespace pg

/-- A row of table `actors(id, name, sex, birthday)`. -/
structure ActorRow where
  id : types.Id
  name : String
  sex : types.Sexes
  birthday : time.Time
deriving DecidableEq, Repr

/-- A row of table `films(id, name, description, publish_date, rating)`. -/
structure FilmRow where
  id : types.Id
  name : String
  description : String
  publish_date : time.Time
  rating : types.Rating
deriving DecidableEq, Repr

/-- A row of table `users(id, login, password, role)`. -/
structure UserRow where
  id : types.Id
  login : String
  password : String
  role : types.Roles
deriving DecidableEq, Repr

/-- The tables of the relational store; a row of `film_actor` is
`(film_id, actor_id)`. -/
structure Tables where
  actors : List ActorRow
  films : List FilmRow
  users : List UserRow
  film_actor : List (types.Id × types.Id)
deriving DecidableEq, Repr

/-- The state of the engine: the committed tables, the working copy of the
open transaction if there is one, and the sequence behind `films.id` (a
sequence is not rolled back). -/
structure State where
  committed : Tables
  tx : Option Tables
  films_id_seq : Nat
deriving DecidableEq, Repr

/-- What a statement yields: the rows it selects or returns, and the number of
rows it affected. -/
structure Outcome where
  rows : List sqlx.Record
  affected : Int
deriving DecidableEq, Repr

/-- SQL `COALESCE($n, column)` for a nullable parameter `$n`. -/
def coalesce {α : Type} (valid : Bool) (v : α) (column : α) : α :=
  if valid then v else column

def actorRecord (a : ActorRow) : sqlx.Record := .actor a.id a.name a.sex a.birthday

def filmRecord (f : FilmRow) : sqlx.Record :=
  .film f.id f.name f.description f.publish_date f.rating

/-- The rows of `actors` joined to the rows of `film_actor` of film `filmId`
(`film_actor JOIN actors ... WHERE film_actor.film_id = $1`). -/
def actorsOfFilm (t : Tables) (filmId : types.Id) : List ActorRow :=
  (t.film_actor.filter (fun p => p.1 = filmId)).flatMap
    (fun p => t.actors.filter (fun a => a.id = p.2))

/-- The rows of `films` joined to the rows of `film_actor` of actor `actorId`
(`film_actor JOIN films ... WHERE film_actor.actor_id = $1`). -/
def filmsOfActor (t : Tables) (actorId : types.Id) : List FilmRow :=
  (t.film_actor.filter (fun p => p.2 = actorId)).flatMap
    (fun p => t.films.filter (fun f => f.id = p.1))

/-- A row of `actors` as the Go value `film.Actor` it is scanned into. -/
def toFilmActor (a : ActorRow) : film.Actor :=
  { ID := a.id, Name := a.name, Sex := a.sex, Birthday := { Time := a.birthday } }

/-- A row of `actors` as the Go value `actor.Actor` it is scanned into. -/
def toActor (a : ActorRow) : actor.Actor :=
  { ID := a.id, Name := a.name, Sex := a.sex, Birthday := { Time := a.birthday } }

/-- A row of `films` as the Go value `film.Film` it is scanned into. -/
def toFilm (f : FilmRow) : film.Film :=
  { ID := f.id, Name := f.name, Description := f.description,
    DataPublish := { Time := f.publish_date }, Rating := f.rating }

/-- The error of the driver for a statement bound to arguments that do not fit it. -/
def bindError : GoError := .sentinel (.foreign 1)

/-- The `UPDATE actors ... COALESCE ... WHERE id = $1` of `updateActors` on one row. -/
def updateActorRow (id : types.Id) (name sex : sql.NullString) (birthday : sql.NullTime)
    (a : ActorRow) : ActorRow :=
  if a.id = id then
    { id := a.id,
      name := coalesce name.Valid name.String a.name,
      sex := coalesce sex.Valid sex.String a.sex,
      birthday := coalesce birthday.Valid birthday.Time a.birthday }
  else a

/-- The `UPDATE films ... COALESCE ... WHERE id = $1` of `updateFilms` on one row. -/
def updateFilmRow (id : types.Id) (name description : sql.Null String)
    (publishDate : sql.NullTime) (rating : sql.NullInt64) (f : FilmRow) : FilmRow :=
  if f.id = id then
    { id := f.id,
      name := coalesce name.Valid name.V f.name,
      description := coalesce description.Valid description.V f.description,
      publish_date := coalesce publishDate.Valid publishDate.Time f.publish_date,
      rating := coalesce rating.Valid rating.Int64.toNat f.rating }
  else f

/-- The text after a `%` of a `LIKE` pattern matches some suffix of the text. -/
def likeSuffix (f : List Char → Bool) : List Char → Bool
  | [] => f []
  | c :: t => f (c :: t) || likeSuffix f t

/-- SQL `text LIKE pattern`, on characters: `%` matches any run of
characters, `_` any one character, and `\` makes the next character of the
pattern literal. -/
def like : List Char → List Char → Bool
  | [], t => t.isEmpty
  | c :: p, t =>
    if c = '%' then likeSuffix (fun t1 => like p t1) t
    else if c = '_' then
      match t with
      | [] => false
      | _ :: t1 => like p t1
    else if c = '\\' then
      match p, t with
      | e :: p1, x :: t1 => decide (x = e) && like p1 t1
      | _, _ => false
    else
      match t with
      | [] => false
      | x :: t1 => decide (x = c) && like p t1

/-- SQL `column LIKE '%' || $1 || '%'`. -/
def likeContains (search column : String) : Bool :=
  like ('%' :: (search.data ++ ['%'])) column.data

/-- SQL `ORDER BY field order` on `films`, for the order fields and orders the
specification lists: whether row `a` may come before row `b`. -/
def orderBy (orderField order : String) : Option (FilmRow → FilmRow → Bool) :=
  let key : Option (FilmRow → FilmRow → Bool) :=
    if orderField = "rating" then some (fun a b => decide (a.rating ≤ b.rating))
    else if orderField = "name" then some (fun a b => decide (¬ b.name < a.name))
    else if orderField = "publish_date" then
      some (fun a b => decide (a.publish_date ≤ b.publish_date))
    else none
  match key with
  | none => none
  | some le =>
    if order = "ASC" then some le
    else if order = "DESC" then some (fun a b => le b a)
    else none

/-- A row put into a sorted list, after the rows that may come before it. -/
def insertRow (le : FilmRow → FilmRow → Bool) (x : FilmRow) : List FilmRow → List FilmRow
  | [] => [x]
  | y :: ys => if le y x then y :: insertRow le x ys else x :: y :: ys

/-- The rows sorted, rows that tie kept in their order. -/
def sortRows (le : FilmRow → FilmRow → Bool) (l : List FilmRow) : List FilmRow :=
  l.foldl (fun acc x => insertRow le x acc) []

/-- The ids bound to the placeholders of an `IN (...)` list. -/
def argIds : List sqlx.Arg → Option (List types.Id)
  | [] => some []
  | .id v :: rest =>
    match argIds rest with
    | some ids => some (v :: ids)
    | none => none
  | _ :: _ => none

/-- The id the engine gives a new row of `users`: one not in the table, the
largest id present plus one. -/
def nextUserId (t : Tables) : types.Id :=
  (t.users.map (fun u => u.id)).foldl max 0 + 1

/-- The error of the engine for an `ORDER BY` it cannot read. -/
def syntaxError : GoError := .pq "42601" ""

/-- Modelled from the spec: the relational engine executing the statements of
`CreateUser`, `UpdateUserRole`, `GetUsers`, `GetActors` and `GetFilms`.  Each case is the
SQL text of the query constant of that name; an order field or an order
outside the lists of the specification is answered with an error. -/
def otherStatement (q : sqlx.Query) (args : List sqlx.Arg) (t : Tables) (seq : Nat) :
    Except GoError (Outcome × Tables × Nat) :=
  match q, args with
  | .userCreateQuery, [.string login, .string password, .string role] =>
    match t.users.find? (fun u => u.login = login) with
    | some u =>
      .ok ({ rows := [sqlx.Record.userExists u.id u.login u.role true], affected := 0 }, t, seq)
    | none =>
      .ok ({ rows := [sqlx.Record.userExists (nextUserId t) login role false], affected := 1 },
        { t with users := t.users ++
            [{ id := nextUserId t, login := login, password := password, role := role }] },
        seq)
  | .userUpdateUser, [.id id, .string role] =>
    let users := t.users.map (fun u => if u.id = id then { u with role := role } else u)
    let returning := users.filter (fun u => u.id = id)
    .ok ({ rows := returning.map (fun u => sqlx.Record.user u.id u.login u.role),
           affected := (returning.length : Nat) }, { t with users := users }, seq)
  | .actorGetActors, [] =>
    .ok ({ rows := t.actors.map actorRecord, affected := 0 }, t, seq)
  | .actorGetActorsFilms, [] =>
    .ok ({ rows := t.actors.flatMap (fun a => (filmsOfActor t a.id).map
              (fun f => sqlx.Record.actorFilm a.id f.id f.name f.description f.publish_date
                f.rating)),
           affected := 0 }, t, seq)
  | .filmGetFilmsSearchFilm orderField order, [.string search] =>
    match orderBy orderField order with
    | none => .error syntaxError
    | some le =>
      .ok ({ rows := (sortRows le (t.films.filter
                (fun f => likeContains search f.name))).map filmRecord,
             affected := 0 }, t, seq)
  | .filmGetFilmsSearchActor orderField order, [.string search] =>
    match orderBy orderField order with
    | none => .error syntaxError
    | some le =>
      .ok ({ rows := (sortRows le (t.films.flatMap (fun f =>
                ((actorsOfFilm t f.id).filter
                  (fun a => likeContains search a.name)).map (fun _ => f)))).map filmRecord,
             affected := 0 }, t, seq)
  | .filmGetFilmsActorsIn bindVars, ids =>
    match argIds ids with
    | none => .error bindError
    | some filmIds =>
      if bindVars = filmIds.length ∧ bindVars ≠ 0 then
        .ok ({ rows := (t.films.filter (fun f => decide (f.id ∈ filmIds))).flatMap
                  (fun f => (actorsOfFilm t f.id).map
                    (fun a => sqlx.Record.filmActor f.id a.id a.name a.sex a.birthday)),
               affected := 0 }, t, seq)
      else .error bindError
  | .userGetUsers, [] =>
    .ok ({ rows := t.users.map (fun u => sqlx.Record.user u.id u.login u.role),
           affected := 0 }, t, seq)
  | _, _ => .error bindError

/-- Modelled from the spec: the relational engine executing the statements of
the repositories on the tables `actors`, `films`, `users` and the join table
`film_actor`, whose foreign key on `actor_id` is the constraint
`film_actor_actor_id_fkey` (violated: error code `23503`) and cascades on the
deletion of an actor.  Each case is the SQL text of the query constant of that
name; a statement that fails changes no table.  The statements not listed here
are those of `otherStatement`. -/
def statement (q : sqlx.Query) (args : List sqlx.Arg) (t : Tables) (seq : Nat) :
    Except GoError (Outcome × Tables × Nat) :=
  match q, args with
  | .actorDeleteActor, [.id id] =>
    .ok ({ rows := [], affected := ((t.actors.filter (fun a => a.id = id)).length : Nat) },
      { t with actors := t.actors.filter (fun a => a.id ≠ id),
               film_actor := t.film_actor.filter (fun p => p.2 ≠ id) }, seq)
  | .actorUpdateActors, [.id id, .nullString name, .nullString sex, .nullTime birthday] =>
    let actors := t.actors.map (updateActorRow id name sex birthday)
    let returning := actors.filter (fun a => a.id = id)
    .ok ({ rows := returning.map actorRecord, affected := (returning.length : Nat) },
      { t with actors := actors }, seq)
  | .actorGetActorFilms, [.id id] =>
    .ok ({ rows := (filmsOfActor t id).map filmRecord, affected := 0 }, t, seq)
  | .filmCreateQuery, [.string name, .string description, .formattedTime publishDate,
      .rating rating] =>
    if t.films.any (fun f => f.id = seq + 1) then
      .error (.pq "23505" "films_pkey")
    else
      let row : FilmRow :=
        { id := seq + 1, name := name, description := description,
          publish_date := publishDate.Time, rating := rating }
      .ok ({ rows := [filmRecord row], affected := 1 },
        { t with films := t.films ++ [row] }, seq + 1)
  | .filmAddActors, [.id filmId, .idArray actors] =>
    if (Slice.toList actors).all (fun a => t.actors.any (fun r => r.id = a)) then
      .ok ({ rows := [], affected := ((Slice.toList actors).length : Nat) },
        { t with film_actor := t.film_actor ++ (Slice.toList actors).map (fun a => (filmId, a)) },
        seq)
    else
      .error (.pq "23503" "film_actor_actor_id_fkey")
  | .filmDeleteFilm, [.id id] =>
    .ok ({ rows := [], affected := ((t.films.filter (fun f => f.id = id)).length : Nat) },
      { t with films := t.films.filter (fun f => f.id ≠ id) }, seq)
  | .filmUpdateFilms, [.id id, .nullOfString name, .nullOfString description,
      .nullTime publishDate, .nullInt64 rating] =>
    let films := t.films.map (updateFilmRow id name description publishDate rating)
    let returning := films.filter (fun f => f.id = id)
    .ok ({ rows := returning.map filmRecord, affected := (returning.length : Nat) },
      { t with films := films }, seq)
  | .filmDeleteActors, [.id filmId] =>
    .ok ({ rows := [],
           affected := ((t.film_actor.filter (fun p => p.1 = filmId)).length : Nat) },
      { t with film_actor := t.film_actor.filter (fun p => p.1 ≠ filmId) }, seq)
  | .filmGetFilmActors, [.id filmId] =>
    .ok ({ rows := (actorsOfFilm t filmId).map actorRecord, affected := 0 }, t, seq)
  | .userDeleteUser, [.id id] =>
    .ok ({ rows := [], affected := ((t.users.filter (fun u => u.id = id)).length : Nat) },
      { t with users := t.users.filter (fun u => u.id ≠ id) }, seq)
  | .userGetPasswordByLogin, [.string login] =>
    .ok ({ rows := (t.users.filter (fun u => u.login = login)).map
              (fun u => sqlx.Record.loginUser u.id u.password),
           affected := 0 }, t, seq)
  | .userGetUserById, [.id id] =>
    .ok ({ rows := (t.users.filter (fun u => u.id = id)).map
              (fun u => sqlx.Record.user u.id u.login u.role),
           affected := 0 }, t, seq)
  | _, _ => otherStatement q args t seq

/-- A statement on the engine: inside a transaction it works on the working
copy, outside of one on the committed tables. -/
def run (q : sqlx.Query) (args : List sqlx.Arg) (s : State) : Except GoError Outcome × State :=
  match s.tx with
  | some t =>
    match statement q args t s.films_id_seq with
    | .error err => (.error err, s)
    | .ok (out, t1, seq) => (.ok out, { committed := s.committed, tx := some t1, films_id_seq := seq })
  | none =>
    match statement q args s.committed s.films_id_seq with
    | .error err => (.error err, s)
    | .ok (out, t1, seq) => (.ok out, { committed := t1, tx := none, films_id_seq := seq })

/-- The engine behind the handle `*sqlx.DB`: `Beginx` opens a transaction on a
copy of the committed tables, `Commit` makes the copy the committed tables,
`Rollback` drops it. -/
def DB : sqlx.DB State where
  Beginx := fun s => (none, { s with tx := some s.committed })
  Commit := fun s =>
    match s.tx with
    | some t => (none, { s with committed := t, tx := none })
    | none => (some sql.ErrTxDone, s)
  Rollback := fun s =>
    match s.tx with
    | some _ => (none, { s with tx := none })
    | none => (some sql.ErrTxDone, s)
  QueryRowx := fun q args s =>
    match run q args s with
    | (.error err, s1) => (.error err, s1)
    | (.ok out, s1) =>
      match out.rows with
      | [] => (.error sql.ErrNoRows, s1)
      | r :: _ => (.ok r, s1)
  Queryx := fun q args s =>
    match run q args s with
    | (.error err, s1) => (.error err, s1)
    | (.ok out, s1) => (.ok { rows := out.rows, Err := none }, s1)
  Exec := fun q args s =>
    match run q args s with
    | (.error err, s1) => (.error err, s1)
    | (.ok out, s1) => (.ok { RowsAffected := (out.affected, none) }, s1)

/-- Modelled from the spec: an identifier is unique per entity table: no two
rows of `actors`, of `films` or of `users` have the same `id`. -/
def uniqueIds (t : Tables) : Prop :=
  (t.actors.map (fun a => a.id)).Nodup ∧ (t.films.map (fun f => f.id)).Nodup ∧
    (t.users.map (fun u => u.id)).Nodup

instance (t : Tables) : Decidable (uniqueIds t) := by
  unfold uniqueIds
  infer_instance

/-- The row a partial update of a film asks for, in the words of the
specification: a column takes the supplied value when the field is present and
keeps its stored value when the field is absent. -/
def requestedFilmRow (upd : film.UpdateFilm) (f : FilmRow) : FilmRow :=
  { id := f.id,
    name := match upd.Name with
      | some v => v
      | none => f.name,
    description := match upd.Description with
      | some v => v
      | none => f.description,
    publish_date := match upd.DataPublish with
      | some v => v.Time
      | none => f.publish_date,
    rating := match upd.Rating with
      | some v => v
      | none => f.rating }

/-- The row a partial update of an actor asks for, in the words of the
specification: a column takes the supplied value when the field is present and
keeps its stored value when the field is absent. -/
def requestedActorRow (upd : actor.UpdateActor) (a : ActorRow) : ActorRow :=
  { id := a.id,
    name := match upd.Name with
      | some v => v
      | none => a.name,
    sex := match upd.Sex with
      | some v => v
      | none => a.sex,
    birthday := match upd.Birthday with
      | some v => v.Time
      | none => a.birthday }

end pg

/-! ## The delivery layer: responses, requests and the logger -/

namespace response

/-- Go `response.User`. -/
structure User where
  ID : types.Id
  Login : String
  Role : String
deriving DecidableEq, Repr

/-- Go `response.Actor`. -/
structure Actor where
  ID : types.Id
  Name : String
  Sex : String
  Birthday : time.FormattedTime
deriving DecidableEq, Repr

/-- Go `response.ActorFilms`. -/
structure ActorFilms where
  ID : types.Id
  Name : String
  Description : String
  DataPublish : time.FormattedTime
  Rating : types.Rating
deriving DecidableEq, Repr

/-- Go `response.ActorWithFilms`. -/
structure ActorWithFilms extends Actor where
  Films : Slice ActorFilms
deriving DecidableEq, Repr

/-- Go `response.FilmActors`. -/
structure FilmActors extends Actor
deriving DecidableEq, Repr

/-- Go `response.Film`. -/
structure Film where
  ID : types.Id
  Name : String
  Description : String
  DataPublish : time.FormattedTime
  Rating : types.Rating
  Actors : Slice FilmActors
deriving DecidableEq, Repr

end response

namespace operate

/-- The value `operate.SendError` or `operate.SendStatus` marshals with
`json.Marshal` and writes: `ModelError{ErrorMessage: err.Error()}`, recorded as
the error `err`, or the response model. -/
inductive Payload where
  | modelError (err : GoError)
  | user (u : response.User)
  | users (us : Slice response.User)
  | actor (a : response.Actor)
  | actorWithFilms (a : response.ActorWithFilms)
  | actorsWithFilms (as : Slice response.ActorWithFilms)
  | film (f : response.Film)
  | films (fs : Slice response.Film)
deriving DecidableEq, Repr

end operate

namespace logger

/-- The methods of `logger.Interface` that write a record. -/
inductive Level where
  | Debug
  | Info
  | Warn
  | Error
  | Panic
deriving DecidableEq, Repr

/-- The first argument of a call on the logger: a format or an error.  The
arguments of the format are not recorded. -/
inductive Message where
  | text (format : String)
  | error (err : GoError)
deriving DecidableEq, Repr

/-- A call on the logger. -/
structure Call where
  level : Level
  message : Message
deriving DecidableEq, Repr

/-- A value of `logger.Interface`, of package `pkg/logger`, by what the
delivery layer can observe of it: the calls made on it, in order, and whether
its method `Panic` panics once it has written its record (`Panics`; the logger
of the handler tests does not). -/
structure Interface where
  Panics : Bool
  Calls : List Call
deriving DecidableEq, Repr

/-- A call of one of the methods `Debug`, `Info`, `Warn` and `Error`. -/
def Interface.write (l : Interface) (level : Level) (message : Message) : Interface :=
  { l with Calls := l.Calls ++ [{ level := level, message := message }] }

/-- A call `l.Panic(format)`: the record is written, and the call panics when
the logger is one whose `Panic` does. -/
def Interface.Panic (l : Interface) (format : String) : Option Panic × Interface :=
  (if l.Panics then some (Panic.logged format) else none,
    l.write Level.Panic (Message.text format))

end logger

namespace url

/-- Go `url.Values`, a `map[string][]string`, as its keys with their values. -/
abbrev Values := List (String × List String)

/-- Go `Values.Has(key)`. -/
def Values.Has (v : Values) (key : String) : Bool :=
  v.any (fun p => p.1 = key)

/-- Go `Values.Get(key)`: the first value of the key, the empty string when the
key has no value. -/
def Values.Get (v : Values) (key : String) : String :=
  match v.find? (fun p => p.1 = key) with
  | some (_, x :: _) => x
  | _ => ""

end url

namespace http

def StatusOK : Nat := 200

def StatusCreated : Nat := 201

def StatusBadRequest : Nat := 400

def StatusUnauthorized : Nat := 401

def StatusForbidden : Nat := 403

def StatusNotFound : Nat := 404

def StatusConflict : Nat := 409

def StatusTeapot : Nat := 418

def StatusInternalServerError : Nat := 500

/-- Go `http.ErrNoCookie`. -/
def ErrNoCookie : GoError := .sentinel .httpErrNoCookie

/-- Go `http.Cookie`, with the fields the delivery layer reads or sets; a
cookie read from a request has its name and its value, the other fields zero. -/
structure Cookie where
  Name : String
  Value : String
  Path : String
  Expires : time.Time
  HttpOnly : Bool
deriving DecidableEq, Repr

/-- The values `context.WithValue` stores in the context of a request under
the keys `UserField` and `SessionField`. -/
structure Context where
  user_info : Option user.User
  session_id : Option String
deriving DecidableEq, Repr

/-- Go `*http.Request`, by what the delivery layer reads of it: its cookies,
its context, `r.URL.Query()`, the outcome of `io.ReadAll(r.Body)` and the path
values `r.PathValue(name)`. -/
structure Request where
  Cookies : List Cookie
  ctx : Context
  Query : url.Values
  Body : Except GoError String
  PathValues : List (String × String)
deriving DecidableEq, Repr

/-- Go `r.Cookie(name)`: the first cookie of that name, `ErrNoCookie` when
there is none. -/
def Request.Cookie (r : Request) (name : String) : Option Cookie × Option GoError :=
  match r.Cookies.find? (fun c => c.Name = name) with
  | some c => (some c, none)
  | none => (none, some ErrNoCookie)

/-- Go `r.PathValue(name)`: the empty string when the path has no such value. -/
def Request.PathValue (r : Request) (name : String) : String :=
  match r.PathValues.find? (fun p => p.1 = name) with
  | some p => p.2
  | none => ""

/-- Go `http.ResponseWriter`, as `httptest.ResponseRecorder` records it: the
`Set-Cookie` lines of the header map being built; once `WriteHeader` was called,
the status code and the lines sent with it; and the values written as body. -/
structure ResponseWriter where
  Header : List Cookie
  Code : Option Nat
  Sent : List Cookie
  Body : List operate.Payload
deriving DecidableEq, Repr

/-- Go `w.WriteHeader(code)`: the first call sends the status and the header;
a later call changes nothing. -/
def ResponseWriter.WriteHeader (w : ResponseWriter) (code : Nat) : ResponseWriter :=
  match w.Code with
  | some _ => w
  | none => { w with Code := some code, Sent := w.Header }

/-- Go `w.Write(data)`: sends the status 200 first when none was sent. -/
def ResponseWriter.Write (w : ResponseWriter) (data : operate.Payload) : ResponseWriter :=
  { (w.WriteHeader StatusOK) with Body := (w.WriteHeader StatusOK).Body ++ [data] }

/-- Go `http.SetCookie(w, cookie)`, for a cookie with a valid name. -/
def SetCookie (w : ResponseWriter) (cookie : Cookie) : ResponseWriter :=
  { w with Header := w.Header ++ [cookie] }

/-- The state one exchange runs on: the response writer `w`, the logger
`middleware.GetLogger(r)` returns, the instant `time.Now()` reads, and the
state `repo` behind the repositories and the session manager. -/
structure Exchange (R : Type) where
  w : ResponseWriter
  l : logger.Interface
  now : time.Time
  repo : R
deriving DecidableEq, Repr

end http

namespace time

/-- Go `t.Add(d)`. -/
def Add (t : Time) (d : Duration) : Time := t + d

/-- Go `t.AddDate(0, 0, days)` on the integer time line, where a day is 24
hours. -/
def AddDays (t : Time) (days : Int) : Time := t + days * (24 * Hour)

end time

namespace mux

/-- Go `mux.Params`. -/
structure Params where
  req : http.Request
deriving DecidableEq, Repr

/-- Go `type ExtendedHandleFunc func(w http.ResponseWriter, r *http.Request,
params Params)`: the exchange it leaves, and the panic it ends with, if any. -/
abbrev ExtendedHandleFunc (R : Type) :=
  http.Request → Params → http.Exchange R → Option Panic × http.Exchange R

end mux

namespace strconv

/-- The error of `strconv.ParseUint` for a string that is no number in range. -/
def ErrSyntax : GoError := .sentinel (.foreign 4)

/-- Go `strconv.ParseUint(s, 10, 64)`: a non-empty string of decimal digits
whose value is below `2^64`. -/
def ParseUint (s : String) : Except GoError Nat :=
  match s.toNat? with
  | some n => if n < 2 ^ 64 then .ok n else .error ErrSyntax
  | none => .error ErrSyntax

end strconv

namespace mux

/-- Go `Params.GetUint64`. -/
def Params.GetUint64 (p : Params) (name : String) : Nat × Option GoError :=
  match strconv.ParseUint (p.req.PathValue name) with
  | .error err =>
    (0, some (errors.Wrap err ("when try parse param \"" ++ name ++ "\" int URL")))
  | .ok val => (val, none)

end mux

namespace auth

/-- The interface `auth.Manager`, over a state `R`. -/
structure Manager (R : Type) where
  Login : String → String → R → (String × Option GoError) × R
  Logout : String → R → Option GoError × R
  GetUserId : String → R → (Option user.User × Option GoError) × R

end auth

/-! ## Package `middleware` -/

namespace middleware

/-- Go `UserField = types.ContextField("user_info")`. -/
def UserField : String := "user_info"

/-- Go `SessionField = types.ContextField("session_id")`. -/
def SessionField : String := "session_id"

/-- Go `updateCookie`. -/
def updateCookie (w : http.ResponseWriter) (cook : http.Cookie) (now : time.Time) :
    http.ResponseWriter :=
  http.SetCookie w
    { cook with Expires := time.Add now auth.ExpiredSessionTime, Path := "/", HttpOnly := true }

/-- Go `clearCookie`. -/
def clearCookie (w : http.ResponseWriter) (cook : http.Cookie) (now : time.Time) :
    http.ResponseWriter :=
  http.SetCookie w
    { cook with Expires := time.AddDays now (-1), Path := "/", HttpOnly := true }

/-- Go `CheckSession(sessionManager)(fun)`.  `r.Cookie` answers a non-nil
cookie with a nil error; `res.ID` panics for a nil `res`. -/
def CheckSession {R : Type} (sessionManager : auth.Manager R)
    (handle : mux.ExtendedHandleFunc R) : mux.ExtendedHandleFunc R :=
  fun r params s =>
    match r.Cookie SessionField with
    | (_, some _) =>
      (none, { s with l := s.l.write .Warn (.text "in parsing cookie: %s"),
                      w := s.w.WriteHeader http.StatusUnauthorized })
    | (none, none) => (some Panic.nilPointerDereference, s)
    | (some sessionCookie, none) =>
      let sessionID := sessionCookie.Value
      match sessionManager.GetUserId sessionID s.repo with
      | ((_, some err), repo1) =>
        if errors.Is err .noSession then
          (none, { s with repo := repo1,
                          l := s.l.write .Debug (.text "no session by id %s"),
                          w := (clearCookie s.w sessionCookie s.now).WriteHeader
                            http.StatusUnauthorized })
        else
          (none, { s with repo := repo1,
                          l := s.l.write .Error (.error (errors.Wrap err
                            ("error with session id " ++ sessionID))),
                          w := s.w.WriteHeader http.StatusInternalServerError })
      | ((none, none), repo1) => (some Panic.nilPointerDereference, { s with repo := repo1 })
      | ((some res, none), repo1) =>
        handle { r with ctx := { user_info := some res, session_id := some sessionID } } params
          { s with repo := repo1,
                   l := s.l.write .Debug (.text "get session for user: %d"),
                   w := updateCookie s.w sessionCookie s.now }

/-- Go `middleware.GetUser`. -/
def GetUser (r : http.Request) : Option user.User := r.ctx.user_info

/-- Go `middleware.GetSession`. -/
def GetSession (r : http.Request) : Option String := r.ctx.session_id

end middleware

namespace slices

/-- Modelled from the spec: `slices.Map` of package `pkg/slices`, which is not
among the source files; the response DTO mapping applies the function to every
element, in order.  A nil slice is taken to stay nil. -/
def Map {α β : Type} (s : Slice α) (f : α → β) : Slice β :=
  match s with
  | none => none
  | some xs => some (xs.map f)

end slices

namespace response

/-- Go `response.FromRepositoryActorWithFilms`. -/
def FromRepositoryActorWithFilms (actorRepository : actor.ActorWithFilms) : ActorWithFilms where
  ID := actorRepository.ID
  Name := actorRepository.Name
  Sex := actorRepository.Sex
  Birthday := actorRepository.Birthday
  Films := slices.Map actorRepository.Films (fun flm =>
    { ID := flm.ID, Name := flm.Name, Description := flm.Description,
      DataPublish := flm.DataPublish, Rating := flm.Rating })

/-- Go `response.FromRepositoryActorsWithFilms`. -/
def FromRepositoryActorsWithFilms (actorsRepository : Slice actor.ActorWithFilms) :
    Slice ActorWithFilms :=
  slices.Map actorsRepository FromRepositoryActorWithFilms

/-- Go `response.FromRepositoryFilmWithActor`. -/
def FromRepositoryFilmWithActor (filmRepository : film.FilmWithActors) : Film where
  ID := filmRepository.ID
  Name := filmRepository.Name
  Description := filmRepository.Description
  DataPublish := filmRepository.DataPublish
  Rating := filmRepository.Rating
  Actors := slices.Map filmRepository.Actors (fun act =>
    { ID := act.ID, Name := act.Name, Sex := act.Sex, Birthday := act.Birthday })

/-- Go `response.FromRepositoryFilmsWithActor`. -/
def FromRepositoryFilmsWithActor (filmsRepository : Slice film.FilmWithActors) : Slice Film :=
  slices.Map filmsRepository FromRepositoryFilmWithActor

end response

namespace operate

/-- Go `operate.SendError(w, err, code, l)`. -/
def SendError {R : Type} (s : http.Exchange R) (err : GoError) (code : Nat) : http.Exchange R :=
  { s with w := (s.w.WriteHeader code).Write (.modelError err),
           l := s.l.write .Info (.text "error %s was sent with status code %d") }

/-- Go `operate.SendStatus(w, code, data, l)`; `data` is `none` for a nil
`data`. -/
def SendStatus {R : Type} (s : http.Exchange R) (code : Nat) (data : Option Payload) :
    http.Exchange R :=
  { s with w := match data with
             | some d => (s.w.WriteHeader code).Write d
             | none => s.w.WriteHeader code,
           l := s.l.write .Info (.text "was sent response with status code %d") }

end operate

namespace film

/-- The interface `film.Repository`, over a state `R`. -/
structure Repository (R : Type) where
  CreateFilm : Film → Slice types.Id → R → (Option FilmWithActors × Option GoError) × R
  UpdateFilm : UpdateFilm → R → (Option FilmWithActors × Option GoError) × R
  DeleteFilm : types.Id → R → Option GoError × R
  GetFilms : Params → R → (Slice FilmWithActors × Option GoError) × R

/-- A call on a `film.Repository`. -/
inductive Call where
  | CreateFilm (film : Film) (actors : Slice types.Id)
  | UpdateFilm (film : UpdateFilm)
  | DeleteFilm (id : types.Id)
  | GetFilms (params : Params)
deriving DecidableEq, Repr

/-- The repository `r` with every call appended to a log. -/
def traced {R : Type} (r : Repository R) : Repository (R × List Call) where
  CreateFilm := fun flm actors s =>
    ((r.CreateFilm flm actors s.1).1,
      ((r.CreateFilm flm actors s.1).2, s.2 ++ [Call.CreateFilm flm actors]))
  UpdateFilm := fun flm s =>
    ((r.UpdateFilm flm s.1).1, ((r.UpdateFilm flm s.1).2, s.2 ++ [Call.UpdateFilm flm]))
  DeleteFilm := fun id s =>
    ((r.DeleteFilm id s.1).1, ((r.DeleteFilm id s.1).2, s.2 ++ [Call.DeleteFilm id]))
  GetFilms := fun params s =>
    ((r.GetFilms params s.1).1, ((r.GetFilms params s.1).2, s.2 ++ [Call.GetFilms params]))

end film

/-! ## Package `handlers` -/

namespace request

/-- Go `request.CreateFilm`. -/
structure CreateFilm where
  Name : String
  Description : String
  DataPublish : time.FormattedTime
  Rating : types.Rating
  Actors : Slice types.Id
deriving DecidableEq, Repr

/-- Go `request.UpdateFilm`. -/
structure UpdateFilm where
  Name : Option String
  Description : Option String
  DataPublish : Option time.FormattedTime
  Rating : Option types.Rating
  Actors : Option (Slice types.Id)
deriving DecidableEq, Repr

/-- Go `request.CreateActor`. -/
structure CreateActor where
  Name : String
  Sex : String
  Birthday : time.FormattedTime
deriving DecidableEq, Repr

/-- Go `request.UpdateActor`. -/
structure UpdateActor where
  Name : Option String
  Sex : Option String
  Birthday : Option time.FormattedTime
deriving DecidableEq, Repr

/-- Go `request.CreateUser`. -/
structure CreateUser where
  Login : String
  Password : String
  Role : String
deriving DecidableEq, Repr

/-- Go `request.Login`. -/
structure Login where
  Login : String
  Password : String
deriving DecidableEq, Repr

/-- Go `request.UpdateRole`. -/
structure UpdateRole where
  Role : String
deriving DecidableEq, Repr

end request

namespace handlers

/-- The two library steps `parseRequestBody` runs on the bytes of a body, for a
request model `T`: the schema validation `request.ValidateT(body)` and
`json.Unmarshal(body, &out)` into a zero `T`. -/
structure Codec (T : Type) where
  validation : String → Option GoError
  Unmarshal : String → Except GoError T

def ErrorIncorrectLoginOrPassword : GoError := .sentinel (.handlers "incorrect login or password")

def ErrorCannotReadBody : GoError := .sentinel (.handlers "can't read body")

def ErrorIncorrectBodyContent : GoError := .sentinel (.handlers "incorrect body content")

def ErrorUserNotPermitted : GoError :=
  .sentinel (.handlers "the user with the current role does not have enough permissions")

def ErrorUnknownError : GoError := .sentinel (.handlers "unknown error, try again later")

def ErrorIncorrectQueryParam : GoError := .sentinel (.handlers "invalid query parameter")

def ErrorUserAlreadyExists : GoError := .sentinel (.handlers "user already exists")

def ErrorActorNotFound : GoError := .sentinel (.handlers "actor not found")

def ErrorFilmNotFound : GoError := .sentinel (.handlers "film not found")

def ErrorUserNotFound : GoError := .sentinel (.handlers "user not found")

/-- Go `parseRequestBody(reqBody, out, validation, l)`: the status and the
error it returns, or the value unmarshalled into `out` when it returns
`http.StatusOK` and a nil error; with the logger after its calls. -/
def parseRequestBody {T : Type} (reqBody : Except GoError String) (codec : Codec T)
    (l : logger.Interface) : Except (Nat × GoError) T × logger.Interface :=
  match reqBody with
  | .error err =>
    (.error (http.StatusInternalServerError, ErrorCannotReadBody),
      l.write .Error (.error (errors.Wrap err "can't read body")))
  | .ok body =>
    match codec.validation body with
    | some err =>
      if errors.Is err .evjsonInvalidJson then
        (.error (http.StatusBadRequest, ErrorIncorrectBodyContent),
          l.write .Warn (.error (errors.Wrap err "try parse body json")))
      else
        (.error (http.StatusBadRequest, errors.Wrap err "in body error"), l)
    | none =>
      match codec.Unmarshal body with
      | .error err =>
        (.error (http.StatusBadRequest, ErrorIncorrectBodyContent),
          l.write .Warn (.error (errors.Wrap err "try parse create request entity")))
      | .ok out => (.ok out, l)

/-- The access check of the handlers that change data:
`usr := middleware.GetUser(r); usr == nil || usr.Role != types.ADMIN`. -/
def notPermitted (r : http.Request) : Bool :=
  match middleware.GetUser r with
  | none => true
  | some usr => usr.Role ≠ types.ADMIN

def OrderKey : String := "sort_order"

def OrderFieldKey : String := "sort_by"

def SearchStringKey : String := "search_string"

def SearchFieldKey : String := "search_by"

def FilmIdField : String := "film_id"

/-- Go `type FilmHandlers struct`, over the state `R` of its repository, with
the codecs of the request models its handlers parse. -/
structure FilmHandlers (R : Type) where
  repository : film.Repository R
  createFilm : Codec request.CreateFilm
  updateFilm : Codec request.UpdateFilm

/-- The block of `GetFilms` that rejects a query parameter:
`operate.SendError(w, ErrorIncorrectQueryParam, http.StatusBadRequest, l);
l.Warn(errors.Wrapf(ErrorIncorrectQueryParam, "with field %s and value %s", key, field));
return`. -/
def FilmHandlers.GetFilms.reject {R : Type} (s : http.Exchange R) (key field : String) :
    Option Panic × http.Exchange R :=
  let s1 := operate.SendError s ErrorIncorrectQueryParam http.StatusBadRequest
  (none, { s1 with
    l := s1.l.write .Warn (.error (errors.Wrap ErrorIncorrectQueryParam
      ("with field " ++ key ++ " and value " ++ field))) })

/-- Go `FilmHandlers.GetFilms`. -/
def FilmHandlers.GetFilms {R : Type} (fh : FilmHandlers R) : mux.ExtendedHandleFunc R :=
  fun r _ s =>
    let getParams : film.Params :=
      { SearchString := "*", SearchField := types.FilmField, OrderField := types.RatingField,
        Order := types.DESC }
    let values := r.Query
    let getParams1 : film.Params :=
      if values.Has SearchStringKey then
        { getParams with SearchString := values.Get SearchStringKey }
      else getParams
    if values.Has SearchFieldKey ∧ values.Get SearchFieldKey ≠ types.FilmField ∧
        values.Get SearchFieldKey ≠ types.ActorField then
      FilmHandlers.GetFilms.reject s SearchFieldKey (values.Get SearchFieldKey)
    else
      let getParams2 : film.Params :=
        if values.Has SearchFieldKey then
          { getParams1 with SearchField := values.Get SearchFieldKey }
        else getParams1
      if values.Has OrderKey ∧ values.Get OrderKey ≠ types.DESC ∧
          values.Get OrderKey ≠ types.ASC then
        FilmHandlers.GetFilms.reject s OrderKey (values.Get OrderKey)
      else
        let getParams3 : film.Params :=
          if values.Has OrderKey then { getParams2 with Order := values.Get OrderKey }
          else getParams2
        if values.Has OrderFieldKey ∧ values.Get OrderFieldKey ≠ types.RatingField ∧
            values.Get OrderFieldKey ≠ types.NameField ∧
            values.Get OrderFieldKey ≠ types.DataPublishField then
          FilmHandlers.GetFilms.reject s OrderFieldKey (values.Get OrderFieldKey)
        else
          let getParams4 : film.Params :=
            if values.Has OrderFieldKey then
              { getParams3 with OrderField := values.Get OrderFieldKey }
            else getParams3
          match fh.repository.GetFilms getParams4 s.repo with
          | ((_, some err), repo1) =>
            let s1 := operate.SendError { s with repo := repo1 } ErrorUnknownError
              http.StatusInternalServerError
            (none, { s1 with
              l := s1.l.write .Error (.error (errors.Wrap err "can't create film")) })
          | ((films, none), repo1) =>
            (none, operate.SendStatus { s with repo := repo1 } http.StatusOK
              (some (.films (response.FromRepositoryFilmsWithActor films))))

end handlers

namespace handlers

/-- The allow-list of the specification for the parameters of a listing: the
order field is `rating`, `name` or `publish_date`, the order `ASC` or `DESC`,
the search field `film` or `actor`. -/
def allowed (p : film.Params) : Prop :=
  (p.OrderField = "rating" ∨ p.OrderField = "name" ∨ p.OrderField = "publish_date") ∧
  (p.Order = "ASC" ∨ p.Order = "DESC") ∧
  (p.SearchField = "film" ∨ p.SearchField = "actor")

/-- The parameters of a listing in the words of the specification: each
parameter is the value of its key in the query when the key is present, and
the default otherwise: `rating`, `DESC`, `film` and the search string `*`. -/
def requestedParams (values : url.Values) : film.Params where
  OrderField := if values.Has "sort_by" then values.Get "sort_by" else "rating"
  Order := if values.Has "sort_order" then values.Get "sort_order" else "DESC"
  SearchField := if values.Has "search_by" then values.Get "search_by" else "film"
  SearchString := if values.Has "search_string" then values.Get "search_string" else "*"

end handlers

namespace handlers

/-- Go `FilmHandlers.CreateFilm`.  `response.FromRepositoryFilmWithActor`
panics for a nil film. -/
def FilmHandlers.CreateFilm {R : Type} (fh : FilmHandlers R) : mux.ExtendedHandleFunc R :=
  fun r _ s =>
    if notPermitted r then
      (none, operate.SendError s ErrorUserNotPermitted http.StatusForbidden)
    else
      match parseRequestBody r.Body fh.createFilm s.l with
      | (.error (code, err), l1) => (none, operate.SendError { s with l := l1 } err code)
      | (.ok createFilm, l1) =>
        match fh.repository.CreateFilm
            { ID := 0, Name := createFilm.Name, Description := createFilm.Description,
              DataPublish := createFilm.DataPublish, Rating := createFilm.Rating }
            createFilm.Actors s.repo with
        | ((_, some err), repo1) =>
          if errors.Is err .filmActorNotFound then
            let s1 := operate.SendError { s with l := l1, repo := repo1 } ErrorActorNotFound
              http.StatusConflict
            (none, { s1 with l := s1.l.write .Info (.error err) })
          else
            let s1 := operate.SendError { s with l := l1, repo := repo1 } ErrorUnknownError
              http.StatusInternalServerError
            (none, { s1 with
              l := s1.l.write .Error (.error (errors.Wrap err "can't create film")) })
        | ((none, none), repo1) =>
          (some Panic.nilPointerDereference, { s with l := l1, repo := repo1 })
        | ((some createdFilm, none), repo1) =>
          (none, operate.SendStatus { s with l := l1, repo := repo1 } http.StatusCreated
            (some (.film (response.FromRepositoryFilmWithActor createdFilm))))

/-- Go `FilmHandlers.DeleteFilm`. -/
def FilmHandlers.DeleteFilm {R : Type} (fh : FilmHandlers R) : mux.ExtendedHandleFunc R :=
  fun r params s =>
    if notPermitted r then
      (none, operate.SendError s ErrorUserNotPermitted http.StatusForbidden)
    else
      match params.GetUint64 FilmIdField with
      | (_, some err) =>
        (none, operate.SendError s (errors.Wrap err "try get film id") http.StatusBadRequest)
      | (id, none) =>
        match fh.repository.DeleteFilm id s.repo with
        | (some err, repo1) =>
          if errors.Is err .filmFilmNotFound then
            (none, operate.SendError { s with repo := repo1 } ErrorFilmNotFound
              http.StatusNotFound)
          else
            let s1 := operate.SendError { s with repo := repo1 } ErrorUnknownError
              http.StatusInternalServerError
            (none, { s1 with
              l := s1.l.write .Error (.error (errors.Wrap err "can't delete film")) })
        | (none, repo1) =>
          (none, operate.SendStatus { s with repo := repo1 } http.StatusOK none)

/-- Go `FilmHandlers.UpdateFilm`. -/
def FilmHandlers.UpdateFilm {R : Type} (fh : FilmHandlers R) : mux.ExtendedHandleFunc R :=
  fun r params s =>
    if notPermitted r then
      (none, operate.SendError s ErrorUserNotPermitted http.StatusForbidden)
    else
      match params.GetUint64 FilmIdField with
      | (_, some err) =>
        (none, operate.SendError s (errors.Wrap err "try get film id") http.StatusBadRequest)
      | (id, none) =>
        match parseRequestBody r.Body fh.updateFilm s.l with
        | (.error (code, err), l1) => (none, operate.SendError { s with l := l1 } err code)
        | (.ok updateFilm, l1) =>
          let toUpdateFilm : film.UpdateFilm :=
            { ID := id, Name := updateFilm.Name, Description := updateFilm.Description,
              DataPublish := updateFilm.DataPublish, Rating := updateFilm.Rating,
              UpdateActors := updateFilm.Actors.isSome,
              Actors := match updateFilm.Actors with
                | some actors => actors
                | none => none }
          match fh.repository.UpdateFilm toUpdateFilm s.repo with
          | ((_, some err), repo1) =>
            if errors.Is err .filmFilmNotFound then
              (none, operate.SendError { s with l := l1, repo := repo1 } ErrorFilmNotFound
                http.StatusNotFound)
            else if errors.Is err .filmActorNotFound then
              let s1 := operate.SendError { s with l := l1, repo := repo1 } ErrorActorNotFound
                http.StatusConflict
              (none, { s1 with l := s1.l.write .Info (.error err) })
            else
              let s1 := operate.SendError { s with l := l1, repo := repo1 } ErrorUnknownError
                http.StatusInternalServerError
              (none, { s1 with
                l := s1.l.write .Error (.error (errors.Wrap err "can't create film")) })
          | ((none, none), repo1) =>
            (some Panic.nilPointerDereference, { s with l := l1, repo := repo1 })
          | ((some updatedFilm, none), repo1) =>
            (none, operate.SendStatus { s with l := l1, repo := repo1 } http.StatusOK
              (some (.film (response.FromRepositoryFilmWithActor updatedFilm))))

end handlers

namespace actor

/-- The interface `actor.Repository`, over a state `R`. -/
structure Repository (R : Type) where
  CreateActor : Actor → R → (Option Actor × Option GoError) × R
  UpdateActor : UpdateActor → R → (Option ActorWithFilms × Option GoError) × R
  DeleteActor : types.Id → R → Option GoError × R
  GetActors : R → (Slice ActorWithFilms × Option GoError) × R

/-- A call on an `actor.Repository`. -/
inductive Call where
  | CreateActor (actor : Actor)
  | UpdateActor (actor : UpdateActor)
  | DeleteActor (id : types.Id)
  | GetActors
deriving DecidableEq, Repr

/-- The repository `r` with every call appended to a log. -/
def traced {R : Type} (r : Repository R) : Repository (R × List Call) where
  CreateActor := fun a s =>
    ((r.CreateActor a s.1).1, ((r.CreateActor a s.1).2, s.2 ++ [Call.CreateActor a]))
  UpdateActor := fun a s =>
    ((r.UpdateActor a s.1).1, ((r.UpdateActor a s.1).2, s.2 ++ [Call.UpdateActor a]))
  DeleteActor := fun id s =>
    ((r.DeleteActor id s.1).1, ((r.DeleteActor id s.1).2, s.2 ++ [Call.DeleteActor id]))
  GetActors := fun s => ((r.GetActors s.1).1, ((r.GetActors s.1).2, s.2 ++ [Call.GetActors]))

end actor

namespace handlers

def ActorIdField : String := "actor_id"

/-- Go `type ActorHandlers struct`, over the state `R` of its repository, with
the codecs of the request models its handlers parse. -/
structure ActorHandlers (R : Type) where
  repository : actor.Repository R
  createActor : Codec request.CreateActor
  updateActor : Codec request.UpdateActor

/-- Go `ActorHandlers.CreateActor`.  Reading `createdActor.ID` panics for a
nil actor. -/
def ActorHandlers.CreateActor {R : Type} (ah : ActorHandlers R) : mux.ExtendedHandleFunc R :=
  fun r _ s =>
    if notPermitted r then
      (none, operate.SendError s ErrorUserNotPermitted http.StatusForbidden)
    else
      match parseRequestBody r.Body ah.createActor s.l with
      | (.error (code, err), l1) => (none, operate.SendError { s with l := l1 } err code)
      | (.ok createActor, l1) =>
        match ah.repository.CreateActor
            { ID := 0, Name := createActor.Name, Sex := createActor.Sex,
              Birthday := createActor.Birthday } s.repo with
        | ((_, some err), repo1) =>
          let s1 := operate.SendError { s with l := l1, repo := repo1 } ErrorUnknownError
            http.StatusInternalServerError
          (none, { s1 with
            l := s1.l.write .Error (.error (errors.Wrap err "can't create actor")) })
        | ((none, none), repo1) =>
          (some Panic.nilPointerDereference, { s with l := l1, repo := repo1 })
        | ((some createdActor, none), repo1) =>
          (none, operate.SendStatus { s with l := l1, repo := repo1 } http.StatusCreated
            (some (.actor { ID := createdActor.ID, Name := createdActor.Name,
                            Sex := createdActor.Sex, Birthday := createdActor.Birthday })))

/-- Go `ActorHandlers.DeleteActor`. -/
def ActorHandlers.DeleteActor {R : Type} (ah : ActorHandlers R) : mux.ExtendedHandleFunc R :=
  fun r params s =>
    if notPermitted r then
      (none, operate.SendError s ErrorUserNotPermitted http.StatusForbidden)
    else
      match params.GetUint64 ActorIdField with
      | (_, some err) =>
        (none, operate.SendError s (errors.Wrap err "try get actor id") http.StatusBadRequest)
      | (id, none) =>
        match ah.repository.DeleteActor id s.repo with
        | (some err, repo1) =>
          if errors.Is err .actorActorNotFound then
            (none, operate.SendError { s with repo := repo1 } ErrorActorNotFound
              http.StatusNotFound)
          else
            let s1 := operate.SendError { s with repo := repo1 } ErrorUnknownError
              http.StatusInternalServerError
            (none, { s1 with
              l := s1.l.write .Error (.error (errors.Wrap err "can't delete actor")) })
        | (none, repo1) =>
          (none, operate.SendStatus { s with repo := repo1 } http.StatusOK none)

/-- Go `ActorHandlers.UpdateActor`.  `response.FromRepositoryActorWithFilms`
panics for a nil actor. -/
def ActorHandlers.UpdateActor {R : Type} (ah : ActorHandlers R) : mux.ExtendedHandleFunc R :=
  fun r params s =>
    if notPermitted r then
      (none, operate.SendError s ErrorUserNotPermitted http.StatusForbidden)
    else
      match params.GetUint64 ActorIdField with
      | (_, some err) =>
        (none, operate.SendError s (errors.Wrap err "try get actor id") http.StatusBadRequest)
      | (id, none) =>
        match parseRequestBody r.Body ah.updateActor s.l with
        | (.error (code, err), l1) => (none, operate.SendError { s with l := l1 } err code)
        | (.ok updateActor, l1) =>
          match ah.repository.UpdateActor
              { ID := id, Name := updateActor.Name, Sex := updateActor.Sex,
                Birthday := updateActor.Birthday } s.repo with
          | ((_, some err), repo1) =>
            if errors.Is err .actorActorNotFound then
              (none, operate.SendError { s with l := l1, repo := repo1 } ErrorActorNotFound
                http.StatusNotFound)
            else
              let s1 := operate.SendError { s with l := l1, repo := repo1 } ErrorUnknownError
                http.StatusInternalServerError
              (none, { s1 with
                l := s1.l.write .Error (.error (errors.Wrap err "can't update actor")) })
          | ((none, none), repo1) =>
            (some Panic.nilPointerDereference, { s with l := l1, repo := repo1 })
          | ((some updatedActor, none), repo1) =>
            (none, operate.SendStatus { s with l := l1, repo := repo1 } http.StatusOK
              (some (.actorWithFilms (response.FromRepositoryActorWithFilms updatedActor))))

end handlers

namespace user

/-- The interface `user.Repository` in full, over a state `R`, as the handlers
hold it. -/
structure Storage (R : Type) where
  CreateUser : User → R → (Option User × Option GoError) × R
  UpdateUserRole : User → R → (Option User × Option GoError) × R
  DeleteUser : types.Id → R → Option GoError × R
  GetPasswordByLogin : String → R → (Option LoginUser × Option GoError) × R
  GetUserById : types.Id → R → (Option User × Option GoError) × R
  GetUsers : R → (Slice User × Option GoError) × R

end user

namespace handlers

def DefaultRole : String := "user"

def UserIdField : String := "user_id"

/-- Go `type UserHandlers struct`, over the state `R` behind its repository and
its session manager, with the codecs of the request models its handlers parse
and `GenerateFromPassword password`, the library call
`bcrypt.GenerateFromPassword([]byte(password), bcrypt.DefaultCost)`. -/
structure UserHandlers (R : Type) where
  repository : user.Storage R
  auth : auth.Manager R
  createUser : Codec request.CreateUser
  login : Codec request.Login
  updateRole : Codec request.UpdateRole
  GenerateFromPassword : String → Except GoError String

/-- Go `UserHandlers.CreateUser`.  Reading `createdUser.ID` panics for a nil
user. -/
def UserHandlers.CreateUser {R : Type} (uh : UserHandlers R) : mux.ExtendedHandleFunc R :=
  fun r _ s =>
    if notPermitted r then
      (none, operate.SendError s ErrorUserNotPermitted http.StatusForbidden)
    else
      match parseRequestBody r.Body uh.createUser s.l with
      | (.error (code, err), l1) => (none, operate.SendError { s with l := l1 } err code)
      | (.ok createUser, l1) =>
        match uh.GenerateFromPassword createUser.Password with
        | .error err =>
          let s1 := operate.SendError { s with l := l1 } ErrorUnknownError
            http.StatusInternalServerError
          (none, { s1 with
            l := s1.l.write .Warn (.error (errors.Wrap err "try encrypt password for user")) })
        | .ok enc =>
          let role := if createUser.Role = "" then DefaultRole else createUser.Role
          match uh.repository.CreateUser
              { ID := 0, Login := createUser.Login, Password := enc, Role := role } s.repo with
          | ((_, some err), repo1) =>
            if errors.Is err .loginAlreadyExists then
              let s1 := operate.SendError { s with l := l1, repo := repo1 }
                ErrorUserAlreadyExists http.StatusConflict
              (none, { s1 with
                l := s1.l.write .Info (.error (errors.Wrap err "can't create user")) })
            else
              let s1 := operate.SendError { s with l := l1, repo := repo1 } ErrorUnknownError
                http.StatusInternalServerError
              (none, { s1 with
                l := s1.l.write .Error (.error (errors.Wrap err "can't create user")) })
          | ((none, none), repo1) =>
            (some Panic.nilPointerDereference, { s with l := l1, repo := repo1 })
          | ((some createdUser, none), repo1) =>
            (none, operate.SendStatus { s with l := l1, repo := repo1 } http.StatusCreated
              (some (.user { ID := createdUser.ID, Login := createdUser.Login,
                             Role := createdUser.Role })))

/-- Go `UserHandlers.DeleteUser`. -/
def UserHandlers.DeleteUser {R : Type} (uh : UserHandlers R) : mux.ExtendedHandleFunc R :=
  fun r params s =>
    if notPermitted r then
      (none, operate.SendError s ErrorUserNotPermitted http.StatusForbidden)
    else
      match params.GetUint64 UserIdField with
      | (_, some err) =>
        (none, operate.SendError s (errors.Wrap err "try get user id") http.StatusBadRequest)
      | (id, none) =>
        match uh.repository.DeleteUser id s.repo with
        | (some err, repo1) =>
          if errors.Is err .userNotFound then
            (none, operate.SendError { s with repo := repo1 } ErrorUserNotFound
              http.StatusNotFound)
          else
            let s1 := operate.SendError { s with repo := repo1 } ErrorUnknownError
              http.StatusInternalServerError
            (none, { s1 with
              l := s1.l.write .Error (.error (errors.Wrap err "can't delete user")) })
        | (none, repo1) =>
          (none, operate.SendStatus { s with repo := repo1 } http.StatusOK none)

/-- Go `UserHandlers.UpdateUserRole`.  Reading `updatedUser.ID` panics for a
nil user. -/
def UserHandlers.UpdateUserRole {R : Type} (uh : UserHandlers R) : mux.ExtendedHandleFunc R :=
  fun r params s =>
    if notPermitted r then
      (none, operate.SendError s ErrorUserNotPermitted http.StatusForbidden)
    else
      match params.GetUint64 UserIdField with
      | (_, some err) =>
        (none, operate.SendError s (errors.Wrap err "try get user id") http.StatusBadRequest)
      | (id, none) =>
        match parseRequestBody r.Body uh.updateRole s.l with
        | (.error (code, err), l1) => (none, operate.SendError { s with l := l1 } err code)
        | (.ok updateRole, l1) =>
          match uh.repository.UpdateUserRole
              { ID := id, Login := "", Password := "", Role := updateRole.Role } s.repo with
          | ((_, some err), repo1) =>
            if errors.Is err .userNotFound then
              (none, operate.SendError { s with l := l1, repo := repo1 } ErrorUserNotFound
                http.StatusNotFound)
            else
              let s1 := operate.SendError { s with l := l1, repo := repo1 } ErrorUnknownError
                http.StatusInternalServerError
              (none, { s1 with
                l := s1.l.write .Error (.error (errors.Wrap err "can't update user")) })
          | ((none, none), repo1) =>
            (some Panic.nilPointerDereference, { s with l := l1, repo := repo1 })
          | ((some updatedUser, none), repo1) =>
            (none, operate.SendStatus { s with l := l1, repo := repo1 } http.StatusOK
              (some (.user { ID := updatedUser.ID, Login := updatedUser.Login,
                             Role := updatedUser.Role })))

/-- Go `UserHandlers.Login`. -/
def UserHandlers.Login {R : Type} (uh : UserHandlers R) : mux.ExtendedHandleFunc R :=
  fun r _ s =>
    match parseRequestBody r.Body uh.login s.l with
    | (.error (code, err), l1) => (none, operate.SendError { s with l := l1 } err code)
    | (.ok login, l1) =>
      match uh.auth.Login login.Login login.Password s.repo with
      | ((_, some err), repo1) =>
        if errors.Is err .incorrectPassword ∨ errors.Is err .userNotFound then
          let s1 := operate.SendError { s with l := l1, repo := repo1 }
            ErrorIncorrectLoginOrPassword http.StatusConflict
          (none, { s1 with
            l := s1.l.write .Info (.error (errors.Wrap err "inccorect login info")) })
        else
          (none, { s with
            repo := repo1,
            w := s.w.WriteHeader http.StatusInternalServerError,
            l := l1.write .Error (.error (errors.Wrap err "can't check login info")) })
      | ((sessionId, none), repo1) =>
        (none, operate.SendStatus
          { s with l := l1, repo := repo1,
                   w := http.SetCookie s.w
                     { Name := middleware.SessionField, Value := sessionId, Path := "/",
                       Expires := time.Add s.now auth.ExpiredSessionTime, HttpOnly := true } }
          http.StatusOK none)

/-- Go `UserHandlers.Logout`.  The block of `sessionId != nil` does not
return: the call `l.Panic` after it is the last statement of every run. -/
def UserHandlers.Logout {R : Type} (uh : UserHandlers R) : mux.ExtendedHandleFunc R :=
  fun r _ s =>
    let s2 : http.Exchange R :=
      match middleware.GetSession r with
      | some sessionId =>
        let s1 : http.Exchange R :=
          match uh.auth.Logout sessionId s.repo with
          | (some err, repo1) =>
            { s with repo := repo1,
                     l := s.l.write .Warn (.error (errors.Wrap err
                       ("try delete session id " ++ sessionId))) }
          | (none, repo1) =>
            { s with repo := repo1, l := s.l.write .Info (.text "logged out") }
        operate.SendStatus
          { s1 with w := http.SetCookie s1.w
                      { Name := middleware.SessionField, Value := "", Path := "/",
                        Expires := time.AddDays s1.now (-1), HttpOnly := true } }
          http.StatusOK none
      | none => s
    ((s2.l.Panic "no session was found in logout").1,
      { s2 with l := (s2.l.Panic "no session was found in logout").2 })

end handlers

/-! ## Sample data for worked examples -/

namespace sample

/-- A stand-in for `bcrypt.CompareHashAndPassword` in worked examples: the
hash of a password is the password after the marker `hash:`; an empty hash is
malformed. -/
def CompareHashAndPassword (hash password : String) : Option GoError :=
  if hash = "" then some (.sentinel (.foreign 2))
  else if hash = "hash:" ++ password then none
  else some auth.bcryptErrMismatchedHashAndPassword

def tables : pg.Tables where
  actors := [{ id := 1, name := "Timothee", sex := "male", birthday := 20020212 },
             { id := 2, name := "Zendaya", sex := "female", birthday := 19960901 }]
  films := [{ id := 1, name := "Dune", description := "sand", publish_date := 20210903,
              rating := 8 }]
  users := [{ id := 1, login := "admin", password := "hash:secret", role := "admin" }]
  film_actor := [(1, 1), (1, 2)]

def db : pg.State where
  committed := tables
  tx := none
  films_id_seq := 1

/-- A session store with a session of user 1 and a session of a user, 7, that
has no row in `users`. -/
def store : List redis.Entry :=
  [{ key := "t1", value := 1, ttl := auth.ExpiredSessionTime },
   { key := "t7", value := 7, ttl := auth.ExpiredSessionTime }]

/-- A request that only replaces the description of film 1 and its actors, by
actor 2. -/
def replaceActors : film.UpdateFilm where
  ID := 1
  Name := none
  Description := some "spice"
  DataPublish := none
  Rating := none
  Actors := some [2]
  UpdateActors := true

/-- A request that only clears the actors of film 1. -/
def clearActors : film.UpdateFilm where
  ID := 1
  Name := none
  Description := none
  DataPublish := none
  Rating := none
  Actors := some []
  UpdateActors := true

/-- A request on actor 1 with no field set. -/
def touchActor : actor.UpdateActor where
  ID := 1
  Name := none
  Sex := none
  Birthday := none

/-- A request that renames actor 2. -/
def renameActor : actor.UpdateActor where
  ID := 2
  Name := some "Z"
  Sex := none
  Birthday := none

/-- A request that renames an actor, 5, that has no row in `actors`. -/
def missingActor : actor.UpdateActor where
  ID := 5
  Name := some "Z"
  Sex := none
  Birthday := none

/-- A request that renames a film, 9, that has no row in `films`. -/
def missingFilm : film.UpdateFilm where
  ID := 9
  Name := some "Z"
  Description := none
  DataPublish := none
  Rating := none
  Actors := some [1]
  UpdateActors := true

/-- A film to create. -/
def arrival : film.Film where
  ID := 0
  Name := "Arrival"
  Description := ""
  DataPublish := { Time := 20161110 }
  Rating := 9

/-- A listing of the films with an actor of any name, best rating first. -/
def byActor : film.Params where
  OrderField := types.RatingField
  Order := types.DESC
  SearchField := types.ActorField
  SearchString := "*"

/-- A listing of the films whose name contains `Arrival`, by name. -/
def noMatch : film.Params where
  OrderField := types.NameField
  Order := types.ASC
  SearchField := types.FilmField
  SearchString := "Arrival"

/-- An engine with three actors, of whom actor 2 plays in no film, and two
films. -/
def cast : pg.State where
  committed :=
    { actors := [{ id := 1, name := "Timothee", sex := "male", birthday := 20020212 },
                 { id := 2, name := "Zendaya", sex := "female", birthday := 19960901 },
                 { id := 3, name := "Rebecca", sex := "female", birthday := 19831019 }],
      films := [{ id := 1, name := "Dune", description := "sand", publish_date := 20210903,
                  rating := 8 },
                { id := 2, name := "Wonka", description := "chocolate",
                  publish_date := 20231215, rating := 7 }],
      users := [],
      film_actor := [(1, 1), (2, 1), (1, 3)] }
  tx := none
  films_id_seq := 2

/-- The session manager over the PostgreSQL user repository and the Redis
session repository, every call logged. -/
def manager : auth.SessionManager (pg.State × List user.Call)
    (List redis.Entry × List session.Call) where
  users := user.traced (user.PostgresUser pg.DB)
  sessions := session.traced (session.RedisSession redis.memClient)
  CompareHashAndPassword := CompareHashAndPassword

/-- A network failure. -/
def down : GoError := .sentinel (.foreign 1)

/-- A database handle whose every call fails with `down`. -/
def downDB : sqlx.DB Unit where
  Beginx := fun d => (some down, d)
  Commit := fun d => (some down, d)
  Rollback := fun d => (some down, d)
  QueryRowx := fun _ _ d => (.error down, d)
  Queryx := fun _ _ d => (.error down, d)
  Exec := fun _ _ d => (.error down, d)

/-- The user of the sample data. -/
def admin : user.User where
  ID := 1
  Login := "admin"
  Password := ""
  Role := types.ADMIN

/-- A session manager as the mocks of the tests script it, counting its calls:
the password of `admin` is `secret`, there is no other login, the session `t1`
is the one of `admin`, the session `t0` does not exist, and for every other
session the store is down. -/
def sessions : auth.Manager Nat where
  Login := fun login password n =>
    if login = "admin" then
      if password = "secret" then (("t1", none), n + 1)
      else (("", some auth.ErrorIncorrectPassword), n + 1)
    else (("", some user.ErrorUserNotFound), n + 1)
  Logout := fun _ n => (none, n + 1)
  GetUserId := fun sessionId n =>
    if sessionId = "t1" then ((some admin, none), n + 1)
    else if sessionId = "t0" then
      ((none, some (errors.Wrap session.ErrorNoSession "try get session t0")), n + 1)
    else ((none, some (errors.Wrap down "try get session")), n + 1)

/-- The handler of the middleware tests: it answers the status 200. -/
def respondOK {R : Type} : mux.ExtendedHandleFunc R :=
  fun _ _ s => (none, { s with w := s.w.WriteHeader http.StatusOK })

/-- A request without cookies, context values, query, body or path values. -/
def bare : http.Request where
  Cookies := []
  ctx := { user_info := none, session_id := none }
  Query := []
  Body := .ok ""
  PathValues := []

/-- The session cookie with the value `value`, as read from a request. -/
def sessionCookie (value : String) : http.Cookie where
  Name := middleware.SessionField
  Value := value
  Path := ""
  Expires := 0
  HttpOnly := false

/-- A fresh exchange at the instant 1000 hours, on a logger that does not
panic. -/
def fresh {R : Type} (repo : R) : http.Exchange R where
  w := { Header := [], Code := none, Sent := [], Body := [] }
  l := { Panics := false, Calls := [] }
  now := 1000 * time.Hour
  repo := repo

/-- A codec for which no body is valid JSON. -/
def noJson {T : Type} : handlers.Codec T where
  validation := fun _ => some (.sentinel .evjsonInvalidJson)
  Unmarshal := fun _ => .error (.sentinel .evjsonInvalidJson)

/-- A film repository that holds no film and accepts no change. -/
def noFilms : film.Repository Unit where
  CreateFilm := fun _ _ u => ((none, some down), u)
  UpdateFilm := fun _ u => ((none, some film.ErrorFilmNotFound), u)
  DeleteFilm := fun _ u => (some film.ErrorFilmNotFound, u)
  GetFilms := fun _ u => ((some [], none), u)

/-- A codec that accepts every body and unmarshals it into `v`. -/
def reads {T : Type} (v : T) : handlers.Codec T where
  validation := fun _ => none
  Unmarshal := fun _ => .ok v

/-- A user repository that is down, counting its calls. -/
def noUsers : user.Storage Nat where
  CreateUser := fun _ n => ((none, some down), n + 1)
  UpdateUserRole := fun _ n => ((none, some down), n + 1)
  DeleteUser := fun _ n => (some down, n + 1)
  GetPasswordByLogin := fun _ n => ((none, some down), n + 1)
  GetUserById := fun _ n => ((none, some down), n + 1)
  GetUsers := fun n => ((none, some down), n + 1)

/-- The user handlers over `noUsers` and `sessions`, which read the login
request `login` from every body; the state counts the calls on both. -/
def userHandlers (login : request.Login) : handlers.UserHandlers Nat where
  repository := noUsers
  auth := sessions
  createUser := reads { Login := "eve", Password := "pw", Role := "admin" }
  login := reads login
  updateRole := reads { Role := "admin" }
  GenerateFromPassword := fun password => .ok ("hash:" ++ password)

/-- An actor repository that holds no actor and accepts no change. -/
def noActors : actor.Repository Unit where
  CreateActor := fun _ u => ((none, some down), u)
  UpdateActor := fun _ u => ((none, some actor.ErrorActorNotFound), u)
  DeleteActor := fun _ u => (some actor.ErrorActorNotFound, u)
  GetActors := fun u => ((some [], none), u)

/-- A request to change film 1, with a body, from the user `user`. -/
def changeFilm (user : Option user.User) : http.Request where
  Cookies := []
  ctx := { user_info := user, session_id := some "t1" }
  Query := []
  Body := .ok "body"
  PathValues := [("film_id", "1"), ("actor_id", "1"), ("user_id", "1")]

/-- A client of a key-value server whose every command fails with `down`. -/
def downClient : redis.Client Unit where
  Set := fun _ _ _ r => (some down, r)
  GetUint64 := fun _ r => ((0, some down), r)
  Expire := fun _ _ r => (some down, r)
  Del := fun _ r => (some down, r)

end sample

/-! # Theorems -/

/-! ## Errors -/

theorem errors_Is_Wrap (err : GoError) (msg : String) (t : Sentinel) :
    errors.Is (errors.Wrap err msg) t = errors.Is err t := rfl

/-! ## Session manager -/

/-- C1: when the session store resolves the token to user id `u` and the user
repository answers `GetUserById u` with an error that is `ErrorUserNotFound`,
`SessionManager.GetUserId` calls `Del` on the token (the session log grows by
the lookup and that `Del`, the store is the one `Del` leaves), and returns a nil
user with an error that is `ErrorNoSession` and is not `ErrorUserNotFound`. -/
theorem C1_GetUserId_orphaned_session {U S : Type} (users : user.Repository U)
    (sessions : session.Repository S) (cmp : String → String → Option GoError)
    (token : String) (u : types.Id) (us u1 : U) (ss s1 : S)
    (ulog : List user.Call) (slog : List session.Call)
    (usr : Option user.User) (e : GoError)
    (hget : sessions.GetUserId token auth.ExpiredSessionTime ss = ((u, none), s1))
    (husr : users.GetUserById u us = ((usr, some e), u1))
    (hnf : errors.Is e .userNotFound = true) :
    auth.SessionManager.GetUserId ⟨user.traced users, session.traced sessions, cmp⟩ token
        ((us, ulog), (ss, slog)) =
      ((none, some session.ErrorNoSession),
        ((u1, ulog ++ [user.Call.GetUserById u]),
         ((sessions.Del token s1).2,
          slog ++ [session.Call.GetUserId token auth.ExpiredSessionTime,
            session.Call.Del token]))) ∧
      errors.Is session.ErrorNoSession .noSession = true ∧
      errors.Is session.ErrorNoSession .userNotFound = false := by
  refine ⟨?_, rfl, rfl⟩
  simp [auth.SessionManager.GetUserId, session.traced, user.traced, hget, husr, hnf]

/-- Witness of C1 on the sample data: token `t7` resolves to user 7, who has no
row in `users`. -/
theorem C1_GetUserId_orphaned_session_witness :
    (session.RedisSession redis.memClient).GetUserId "t7" auth.ExpiredSessionTime sample.store =
      ((7, none), sample.store) ∧
    (user.PostgresUser pg.DB).GetUserById 7 sample.db =
      ((none, some user.ErrorUserNotFound), sample.db) ∧
    errors.Is user.ErrorUserNotFound .userNotFound = true ∧
    auth.SessionManager.GetUserId
        ⟨user.traced (user.PostgresUser pg.DB),
         session.traced (session.RedisSession redis.memClient),
         sample.CompareHashAndPassword⟩ "t7" ((sample.db, []), (sample.store, [])) =
      ((none, some session.ErrorNoSession),
        ((sample.db, [user.Call.GetUserById 7]),
         ([{ key := "t1", value := 1, ttl := auth.ExpiredSessionTime }],
          [session.Call.GetUserId "t7" auth.ExpiredSessionTime, session.Call.Del "t7"]))) :=
  ⟨by decide, by decide, by decide,
    (C1_GetUserId_orphaned_session (user.PostgresUser pg.DB)
      (session.RedisSession redis.memClient) sample.CompareHashAndPassword "t7" 7
      sample.db sample.db sample.store sample.store [] [] none user.ErrorUserNotFound
      (by decide) (by decide) (by decide)).1⟩

/-- C2: `SessionManager.Login` returns the error of `GetPasswordByLogin`, an
error that is `ErrorUserNotFound`, when the repository reports that the login
does not exist, and returns `ErrorIncorrectPassword`, which is not
`ErrorUserNotFound`, when the login exists and the comparison of the stored
hash with the password reports a mismatch; in both cases the token is the empty
string, the session store is left as it was and no call reaches it. -/
theorem C2_Login_failures {U S : Type} (users : user.Repository U)
    (sessions : session.Repository S) (cmp : String → String → Option GoError)
    (login password uuidNew : String) (us u1 : U) (ss : S)
    (ulog : List user.Call) (slog : List session.Call) :
    (∀ (lu : Option user.LoginUser) (e : GoError),
      users.GetPasswordByLogin login us = ((lu, some e), u1) →
      errors.Is e .userNotFound = true →
      auth.SessionManager.Login ⟨user.traced users, session.traced sessions, cmp⟩
          login password uuidNew ((us, ulog), (ss, slog)) =
        (.ok ("", some e),
          ((u1, ulog ++ [user.Call.GetPasswordByLogin login]), (ss, slog)))) ∧
    (∀ (usr : user.LoginUser) (e : GoError),
      users.GetPasswordByLogin login us = ((some usr, none), u1) →
      cmp usr.Password password = some e →
      errors.Is e .bcryptMismatchedHashAndPassword = true →
      auth.SessionManager.Login ⟨user.traced users, session.traced sessions, cmp⟩
          login password uuidNew ((us, ulog), (ss, slog)) =
        (.ok ("", some auth.ErrorIncorrectPassword),
          ((u1, ulog ++ [user.Call.GetPasswordByLogin login]), (ss, slog))) ∧
      errors.Is auth.ErrorIncorrectPassword .incorrectPassword = true ∧
      errors.Is auth.ErrorIncorrectPassword .userNotFound = false) := by
  refine ⟨?_, ?_⟩
  · intro lu e h _
    simp [auth.SessionManager.Login, user.traced, h]
  · intro usr e h hc hm
    refine ⟨?_, rfl, rfl⟩
    simp [auth.SessionManager.Login, user.traced, h, hc, hm]

/-- Witness of C2 on the sample data: login `bob` does not exist; login
`admin` exists and `wrong` is not its password. -/
theorem C2_Login_failures_witness :
    auth.SessionManager.Login
        ⟨user.traced (user.PostgresUser pg.DB),
         session.traced (session.RedisSession redis.memClient),
         sample.CompareHashAndPassword⟩ "bob" "wrong" "uuid-1"
        ((sample.db, []), (sample.store, [])) =
      (.ok ("", some user.ErrorUserNotFound),
        ((sample.db, [user.Call.GetPasswordByLogin "bob"]), (sample.store, []))) ∧
    auth.SessionManager.Login
        ⟨user.traced (user.PostgresUser pg.DB),
         session.traced (session.RedisSession redis.memClient),
         sample.CompareHashAndPassword⟩ "admin" "wrong" "uuid-1"
        ((sample.db, []), (sample.store, [])) =
      (.ok ("", some auth.ErrorIncorrectPassword),
        ((sample.db, [user.Call.GetPasswordByLogin "admin"]), (sample.store, []))) :=
  ⟨(C2_Login_failures (user.PostgresUser pg.DB) (session.RedisSession redis.memClient)
      sample.CompareHashAndPassword "bob" "wrong" "uuid-1" sample.db sample.db sample.store
      [] []).1 none user.ErrorUserNotFound (by decide) (by decide),
   ((C2_Login_failures (user.PostgresUser pg.DB) (session.RedisSession redis.memClient)
      sample.CompareHashAndPassword "admin" "wrong" "uuid-1" sample.db sample.db sample.store
      [] []).2 { ID := 1, Password := "hash:secret" } auth.bcryptErrMismatchedHashAndPassword
      (by decide) (by decide) (by decide)).1⟩

/-- C3: when the stored hash of the login matches the password and `Set`
succeeds, `SessionManager.Login` makes exactly one call on the session store,
`Set` with the generated token, the user id that `GetPasswordByLogin` returned
and `ExpiredSessionTime`, which is 48 hours, and returns that token with a nil
error. -/
theorem C3_Login_success {U S : Type} (users : user.Repository U)
    (sessions : session.Repository S) (cmp : String → String → Option GoError)
    (login password uuidNew : String) (us u1 : U) (ss s1 : S)
    (ulog : List user.Call) (slog : List session.Call) (usr : user.LoginUser)
    (hget : users.GetPasswordByLogin login us = ((some usr, none), u1))
    (hcmp : cmp usr.Password password = none)
    (hset : sessions.Set uuidNew usr.ID auth.ExpiredSessionTime ss = (none, s1)) :
    auth.SessionManager.Login ⟨user.traced users, session.traced sessions, cmp⟩
        login password uuidNew ((us, ulog), (ss, slog)) =
      (.ok (uuidNew, none),
        ((u1, ulog ++ [user.Call.GetPasswordByLogin login]),
         (s1, slog ++ [session.Call.Set uuidNew usr.ID auth.ExpiredSessionTime]))) ∧
    auth.ExpiredSessionTime = 48 * (60 * 60 * 1000000000) := by
  refine ⟨?_, by decide⟩
  simp [auth.SessionManager.Login, user.traced, session.traced, hget, hcmp, hset]

/-- Witness of C3 on the sample data: `secret` is the password of `admin`. -/
theorem C3_Login_success_witness :
    (user.PostgresUser pg.DB).GetPasswordByLogin "admin" sample.db =
      ((some { ID := 1, Password := "hash:secret" }, none), sample.db) ∧
    sample.CompareHashAndPassword "hash:secret" "secret" = none ∧
    auth.SessionManager.Login
        ⟨user.traced (user.PostgresUser pg.DB),
         session.traced (session.RedisSession redis.memClient),
         sample.CompareHashAndPassword⟩ "admin" "secret" "uuid-1"
        ((sample.db, []), (sample.store, [])) =
      (.ok ("uuid-1", none),
        ((sample.db, [user.Call.GetPasswordByLogin "admin"]),
         ({ key := "uuid-1", value := 1, ttl := auth.ExpiredSessionTime } :: sample.store,
          [session.Call.Set "uuid-1" 1 auth.ExpiredSessionTime]))) :=
  ⟨by decide, by decide,
    (C3_Login_success (user.PostgresUser pg.DB) (session.RedisSession redis.memClient)
      sample.CompareHashAndPassword "admin" "secret" "uuid-1" sample.db sample.db sample.store
      ({ key := "uuid-1", value := 1, ttl := auth.ExpiredSessionTime } :: sample.store)
      [] [] { ID := 1, Password := "hash:secret" } (by decide) (by decide) (by decide)).1⟩

/-! ## Session manager over the key-value engine -/

/-- C4: over a session store that is a key-to-user-id map, and every user
repository that answers `GetPasswordByLogin l` with id `u` and a hash matching
`p`, and `GetUserById u` with a user record of id `u`: `Login l p` returns its
token `t` with a nil error, and `GetUserId t` on the state `Login` leaves
succeeds with that user record, whose id is `u`. -/
theorem C4_Login_GetUserId_round_trip {U : Type} (users : user.Repository U)
    (cmp : String → String → Option GoError) (l p t hash : String) (u : types.Id)
    (us u1 u2 : U) (ss : List redis.Entry) (usr : user.User)
    (hlogin : users.GetPasswordByLogin l us = ((some { ID := u, Password := hash }, none), u1))
    (hcmp : cmp hash p = none)
    (huser : users.GetUserById u u1 = ((some usr, none), u2))
    (hid : usr.ID = u) :
    (auth.SessionManager.Login ⟨users, session.RedisSession redis.memClient, cmp⟩
        l p t (us, ss)).1 = .ok (t, none) ∧
    (auth.SessionManager.GetUserId ⟨users, session.RedisSession redis.memClient, cmp⟩ t
        (auth.SessionManager.Login ⟨users, session.RedisSession redis.memClient, cmp⟩
          l p t (us, ss)).2).1 = (some usr, none) ∧
    usr.ID = u := by
  refine ⟨?_, ?_, hid⟩
  · simp [auth.SessionManager.Login, session.RedisSession, session.RedisSession.Set,
      redis.memClient, hlogin, hcmp]
  · simp [auth.SessionManager.Login, auth.SessionManager.GetUserId, session.RedisSession,
      session.RedisSession.Set, session.RedisSession.GetUserId, redis.memClient, hlogin, hcmp,
      huser]

/-- Witness of C4 on the sample data: `admin` logs in with `secret`. -/
theorem C4_Login_GetUserId_round_trip_witness :
    (user.PostgresUser pg.DB).GetPasswordByLogin "admin" sample.db =
      ((some { ID := 1, Password := "hash:secret" }, none), sample.db) ∧
    sample.CompareHashAndPassword "hash:secret" "secret" = none ∧
    (user.PostgresUser pg.DB).GetUserById 1 sample.db =
      ((some { ID := 1, Login := "admin", Password := "", Role := "admin" }, none),
        sample.db) ∧
    (auth.SessionManager.GetUserId
        ⟨user.PostgresUser pg.DB, session.RedisSession redis.memClient,
         sample.CompareHashAndPassword⟩ "uuid-1"
        (auth.SessionManager.Login
          ⟨user.PostgresUser pg.DB, session.RedisSession redis.memClient,
           sample.CompareHashAndPassword⟩ "admin" "secret" "uuid-1"
          (sample.db, sample.store)).2).1 =
      (some { ID := 1, Login := "admin", Password := "", Role := "admin" }, none) :=
  ⟨by decide, by decide, by decide,
    (C4_Login_GetUserId_round_trip (user.PostgresUser pg.DB) sample.CompareHashAndPassword
      "admin" "secret" "uuid-1" "hash:secret" 1 sample.db sample.db sample.db sample.store
      { ID := 1, Login := "admin", Password := "", Role := "admin" }
      (by decide) (by decide) (by decide) rfl).2.1⟩

/-- C7: for `DeleteActor`, `DeleteFilm` and `DeleteUser`, over every database
handle: when `Exec` of the delete statement succeeds and `RowsAffected` reports
zero rows, the call returns `ErrorActorNotFound`, `ErrorFilmNotFound` or
`ErrorUserNotFound` (wrapped with the id), an error that is the respective
not-found error; when it reports one row the call returns nil. -/
theorem C7_delete_affected_rows {D : Type} (db : sqlx.DB D) (id : types.Id) (d d1 : D) :
    (db.Exec .actorDeleteActor [.id id] d = (.ok { RowsAffected := (0, none) }, d1) →
      actor.PostgresActor.DeleteActor db id d =
        (some (errors.Wrap actor.ErrorActorNotFound ("with id " ++ toString id)), d1) ∧
      errors.Is (errors.Wrap actor.ErrorActorNotFound ("with id " ++ toString id))
        .actorActorNotFound = true) ∧
    (db.Exec .filmDeleteFilm [.id id] d = (.ok { RowsAffected := (0, none) }, d1) →
      film.PostgresFilm.DeleteFilm db id d =
        (some (errors.Wrap film.ErrorFilmNotFound ("with id " ++ toString id)), d1) ∧
      errors.Is (errors.Wrap film.ErrorFilmNotFound ("with id " ++ toString id))
        .filmFilmNotFound = true) ∧
    (db.Exec .userDeleteUser [.id id] d = (.ok { RowsAffected := (0, none) }, d1) →
      user.PostgresUser.DeleteUser db id d =
        (some (errors.Wrap user.ErrorUserNotFound ("with id " ++ toString id)), d1) ∧
      errors.Is (errors.Wrap user.ErrorUserNotFound ("with id " ++ toString id))
        .userNotFound = true) ∧
    (db.Exec .actorDeleteActor [.id id] d = (.ok { RowsAffected := (1, none) }, d1) →
      actor.PostgresActor.DeleteActor db id d = (none, d1)) ∧
    (db.Exec .filmDeleteFilm [.id id] d = (.ok { RowsAffected := (1, none) }, d1) →
      film.PostgresFilm.DeleteFilm db id d = (none, d1)) ∧
    (db.Exec .userDeleteUser [.id id] d = (.ok { RowsAffected := (1, none) }, d1) →
      user.PostgresUser.DeleteUser db id d = (none, d1)) := by
  refine ⟨?_, ?_, ?_, ?_, ?_, ?_⟩
  · intro h
    refine ⟨?_, rfl⟩
    simp [actor.PostgresActor.DeleteActor, h]
  · intro h
    refine ⟨?_, rfl⟩
    simp [film.PostgresFilm.DeleteFilm, h]
  · intro h
    refine ⟨?_, rfl⟩
    simp [user.PostgresUser.DeleteUser, h]
  · intro h
    simp [actor.PostgresActor.DeleteActor, h]
  · intro h
    simp [film.PostgresFilm.DeleteFilm, h]
  · intro h
    simp [user.PostgresUser.DeleteUser, h]

/-- Witness of C7 on the sample data: there is no actor 9, and one actor 1. -/
theorem C7_delete_affected_rows_witness :
    (actor.PostgresActor.DeleteActor pg.DB 9 sample.db).1 =
      some (errors.Wrap actor.ErrorActorNotFound ("with id " ++ toString 9)) ∧
    (actor.PostgresActor.DeleteActor pg.DB 1 sample.db).1 = none :=
  ⟨congrArg Prod.fst ((C7_delete_affected_rows pg.DB 9 sample.db sample.db).1
      (by decide)).1,
   congrArg Prod.fst ((C7_delete_affected_rows pg.DB 1 sample.db
      (pg.DB.Exec .actorDeleteActor [.id 1] sample.db).2).2.2.2.1 (by decide))⟩

/-! ## Films -/

theorem pg_QueryRowx_filmCreateQuery (c t : pg.Tables) (seq : Nat) (flm : film.Film)
    (hfresh : ∀ f ∈ t.films, f.id ≠ seq + 1) :
    pg.DB.QueryRowx .filmCreateQuery
        [.string flm.Name, .string flm.Description, .formattedTime flm.DataPublish,
         .rating flm.Rating] { committed := c, tx := some t, films_id_seq := seq } =
      (.ok (.film (seq + 1) flm.Name flm.Description flm.DataPublish.Time flm.Rating),
        { committed := c,
          tx := some { t with films := t.films ++
            [{ id := seq + 1, name := flm.Name, description := flm.Description,
               publish_date := flm.DataPublish.Time, rating := flm.Rating }] },
          films_id_seq := seq + 1 }) := by
  have hany : t.films.any (fun f => decide (f.id = seq + 1)) = false := by
    simp only [List.any_eq_false, decide_eq_true_eq]
    exact hfresh
  simp only [pg.DB, pg.run, pg.statement, hany, Bool.false_eq_true, if_false, pg.filmRecord]

theorem pg_Exec_filmAddActors_missing (c t : pg.Tables) (seq : Nat) (filmId : types.Id)
    (actors : Slice types.Id) (a : types.Id)
    (ha : a ∈ Slice.toList actors) (hmiss : ∀ r ∈ t.actors, r.id ≠ a) :
    pg.DB.Exec .filmAddActors [.id filmId, .idArray actors]
        { committed := c, tx := some t, films_id_seq := seq } =
      (.error (.pq "23503" "film_actor_actor_id_fkey"),
        { committed := c, tx := some t, films_id_seq := seq }) := by
  have hall : (Slice.toList actors).all
      (fun a => (t.actors.any (fun r => decide (r.id = a)))) = false := by
    rw [List.all_eq_false]
    refine ⟨a, ha, ?_⟩
    simp only [Bool.not_eq_true, List.any_eq_false, decide_eq_true_eq]
    exact hmiss
  simp only [pg.DB, pg.run, pg.statement, hall, Bool.false_eq_true, if_false]

theorem Slice_len_ne_zero_of_mem {α : Type} (s : Slice α) (a : α) (ha : a ∈ Slice.toList s) :
    Slice.len s ≠ 0 := by
  cases s with
  | none => simp [Slice.toList] at ha
  | some xs =>
    simp only [Slice.toList] at ha
    simp only [Slice.len]
    exact (List.length_pos_iff_exists_mem.mpr ⟨a, ha⟩).ne'

theorem pg_CreateFilm_missing_actor (s : pg.State) (flm : film.Film)
    (actors : Slice types.Id) (a : types.Id) (htx : s.tx = none)
    (hfresh : ∀ f ∈ s.committed.films, f.id ≠ s.films_id_seq + 1)
    (ha : a ∈ Slice.toList actors) (hmiss : ∀ r ∈ s.committed.actors, r.id ≠ a) :
    film.PostgresFilm.CreateFilm pg.DB flm actors s =
      ((none, some (errors.Wrap film.ErrorActorNotFound "can't create actors for film")),
        { committed := s.committed, tx := none, films_id_seq := s.films_id_seq + 1 }) := by
  obtain ⟨committed, tx, seq⟩ := s
  simp only at htx hfresh hmiss
  subst htx
  have hlen := Slice_len_ne_zero_of_mem actors a ha
  have hbegin : pg.DB.Beginx { committed := committed, tx := none, films_id_seq := seq } =
      (none, { committed := committed, tx := some committed, films_id_seq := seq }) := rfl
  have hexec := pg_Exec_filmAddActors_missing committed
    { committed with films := committed.films ++
        [{ id := seq + 1, name := flm.Name, description := flm.Description,
           publish_date := flm.DataPublish.Time, rating := flm.Rating }] }
    (seq + 1) (seq + 1) actors a ha hmiss
  simp only [film.PostgresFilm.CreateFilm, hbegin,
    pg_QueryRowx_filmCreateQuery committed committed seq flm hfresh, Except.bind,
    film.scanFilm, hlen, ne_eq, not_false_eq_true, if_true, hexec]
  rfl

/-- C8: `CreateFilm` is atomic when the insert of the associations hits the
foreign key on `actor_id`.  Over every database handle: when `Beginx` and the
insert of the film succeed, the actor list is not empty and `Exec` of
`addActors` fails with a driver error of code `23503` and constraint
`film_actor_actor_id_fkey`, the call returns `ErrorActorNotFound` (wrapped), and
the calls on the handle are `Beginx`, the film insert, the association insert
and `Rollback`: `Commit` is not among them.  Over the relational engine: with
no open transaction, a fresh film id and an actor id that has no row in
`actors`, the call returns that error and leaves the committed tables as they
were, with no transaction open. -/
theorem C8_CreateFilm_atomicity {D : Type} (db : sqlx.DB D) (flm : film.Film)
    (actors : Slice types.Id) (d d1 d2 d3 : D) (log : List sqlx.Call)
    (id : types.Id) (name description : String) (publishDate : time.Time)
    (rating : types.Rating) (e : GoError) (s : pg.State) (a : types.Id) :
    (db.Beginx d = (none, d1) →
      db.QueryRowx .filmCreateQuery
          [.string flm.Name, .string flm.Description, .formattedTime flm.DataPublish,
           .rating flm.Rating] d1 =
        (.ok (.film id name description publishDate rating), d2) →
      Slice.len actors ≠ 0 →
      db.Exec .filmAddActors [.id id, .idArray actors] d2 = (.error e, d3) →
      errors.AsPq e = some (film.actorIdConflictCode, film.actorIdConstraintName) →
      film.PostgresFilm.CreateFilm (sqlx.traced db) flm actors (d, log) =
        ((none, some (errors.Wrap film.ErrorActorNotFound "can't create actors for film")),
          ((db.Rollback d3).2,
           log ++ [sqlx.Call.Beginx,
             sqlx.Call.QueryRowx .filmCreateQuery
               [.string flm.Name, .string flm.Description, .formattedTime flm.DataPublish,
                .rating flm.Rating],
             sqlx.Call.Exec .filmAddActors [.id id, .idArray actors],
             sqlx.Call.Rollback])) ∧
      errors.Is (errors.Wrap film.ErrorActorNotFound "can't create actors for film")
        .filmActorNotFound = true ∧
      sqlx.Call.Commit ∉
        [sqlx.Call.Beginx,
         sqlx.Call.QueryRowx .filmCreateQuery
           [.string flm.Name, .string flm.Description, .formattedTime flm.DataPublish,
            .rating flm.Rating],
         sqlx.Call.Exec .filmAddActors [.id id, .idArray actors],
         sqlx.Call.Rollback]) ∧
    (s.tx = none →
      (∀ f ∈ s.committed.films, f.id ≠ s.films_id_seq + 1) →
      a ∈ Slice.toList actors →
      (∀ r ∈ s.committed.actors, r.id ≠ a) →
      film.PostgresFilm.CreateFilm pg.DB flm actors s =
        ((none, some (errors.Wrap film.ErrorActorNotFound "can't create actors for film")),
          { committed := s.committed, tx := none, films_id_seq := s.films_id_seq + 1 })) := by
  refine ⟨?_, pg_CreateFilm_missing_actor s flm actors a⟩
  intro hbegin hcreate hlen hexec hfk
  refine ⟨?_, rfl, by simp⟩
  simp [film.PostgresFilm.CreateFilm, sqlx.traced, hbegin, hcreate, hlen, hexec,
    film.scanFilm, Except.bind, film.checkActorConflictError, hfk]

/-- Witness of C8 on the sample data: a film with actors 1 and 9, where actor 9
has no row in `actors`; logged on the engine, and on the engine itself. -/
theorem C8_CreateFilm_atomicity_witness :
    film.PostgresFilm.CreateFilm (sqlx.traced pg.DB)
        { ID := 0, Name := "Arrival", Description := "", DataPublish := { Time := 20161110 },
          Rating := 9 } (some [1, 9]) (sample.db, []) =
      ((none, some (errors.Wrap film.ErrorActorNotFound "can't create actors for film")),
        ({ committed := sample.tables, tx := none, films_id_seq := 2 },
         [sqlx.Call.Beginx,
          sqlx.Call.QueryRowx .filmCreateQuery
            [.string "Arrival", .string "", .formattedTime { Time := 20161110 }, .rating 9],
          sqlx.Call.Exec .filmAddActors [.id 2, .idArray (some [1, 9])],
          sqlx.Call.Rollback])) ∧
    film.PostgresFilm.CreateFilm pg.DB
        { ID := 0, Name := "Arrival", Description := "", DataPublish := { Time := 20161110 },
          Rating := 9 } (some [1, 9]) sample.db =
      ((none, some (errors.Wrap film.ErrorActorNotFound "can't create actors for film")),
        { committed := sample.tables, tx := none, films_id_seq := 2 }) :=
  ⟨((C8_CreateFilm_atomicity pg.DB
      { ID := 0, Name := "Arrival", Description := "", DataPublish := { Time := 20161110 },
        Rating := 9 } (some [1, 9]) sample.db
      { committed := sample.tables, tx := some sample.tables, films_id_seq := 1 }
      (pg.DB.QueryRowx .filmCreateQuery
        [.string "Arrival", .string "", .formattedTime { Time := 20161110 }, .rating 9]
        { committed := sample.tables, tx := some sample.tables, films_id_seq := 1 }).2
      (pg.DB.QueryRowx .filmCreateQuery
        [.string "Arrival", .string "", .formattedTime { Time := 20161110 }, .rating 9]
        { committed := sample.tables, tx := some sample.tables, films_id_seq := 1 }).2
      [] 2 "Arrival" "" 20161110 9 (.pq "23503" "film_actor_actor_id_fkey") sample.db 9).1
      (by decide) (by decide) (by decide) (by decide) (by decide)).1,
   (C8_CreateFilm_atomicity pg.DB
      { ID := 0, Name := "Arrival", Description := "", DataPublish := { Time := 20161110 },
        Rating := 9 } (some [1, 9]) sample.db sample.db sample.db sample.db
      [] 2 "Arrival" "" 20161110 9 (.pq "23503" "film_actor_actor_id_fkey") sample.db 9).2
      (by decide) (by decide) (by decide) (by decide)⟩

/-! ## Updates on the relational engine -/

theorem Slice_appendAll_some {α : Type} (l xs : List α) :
    Slice.appendAll (some xs) l = some (xs ++ l) := by
  induction l generalizing xs with
  | nil => simp [Slice.appendAll]
  | cons x l ih =>
    have h := ih (xs ++ [x])
    simp only [Slice.appendAll, List.foldl_cons, Slice.append] at h ⊢
    rw [h]
    simp

theorem sqlx_scanAll_map {α β : Type} (scan : sqlx.Record → Except GoError β)
    (record : α → sqlx.Record) (conv : α → β) (h : ∀ a, scan (record a) = .ok (conv a))
    (l : List α) (acc : Slice β) :
    sqlx.scanAll scan (l.map record) acc = .ok (Slice.appendAll acc (l.map conv)) := by
  induction l generalizing acc with
  | nil => rfl
  | cons x l ih =>
    simp only [List.map_cons, sqlx.scanAll, h, ih]
    rfl

theorem filter_map_update_head {α : Type} (p : α → Bool) (g : α → α)
    (hg : ∀ x, p (g x) = p x) (l : List α) (x0 : α) (h : l.find? p = some x0) :
    ∃ rest, (l.map g).filter p = g x0 :: rest := by
  induction l with
  | nil => simp at h
  | cons x l ih =>
    by_cases hp : p x = true
    · simp only [List.find?_cons, hp, Option.some.injEq] at h
      subst h
      exact ⟨(l.map g).filter p, by simp [List.filter_cons, hg, hp]⟩
    · simp only [List.find?_cons, hp] at h
      obtain ⟨rest, hrest⟩ := ih h
      exact ⟨rest, by simp [List.filter_cons, hg, hp, hrest]⟩

theorem pg_updateFilmRow_id (id : types.Id) (name description : sql.Null String)
    (publishDate : sql.NullTime) (rating : sql.NullInt64) (f : pg.FilmRow) :
    (pg.updateFilmRow id name description publishDate rating f).id = f.id := by
  unfold pg.updateFilmRow
  split <;> rfl

theorem pg_updateActorRow_id (id : types.Id) (name sex : sql.NullString)
    (birthday : sql.NullTime) (a : pg.ActorRow) :
    (pg.updateActorRow id name sex birthday a).id = a.id := by
  unfold pg.updateActorRow
  split <;> rfl

theorem pg_QueryRowx_filmUpdateFilms (c t : pg.Tables) (seq : Nat) (id : types.Id)
    (name description : sql.Null String) (publishDate : sql.NullTime) (rating : sql.NullInt64)
    (f0 : pg.FilmRow) (h : t.films.find? (fun f => decide (f.id = id)) = some f0) :
    pg.DB.QueryRowx .filmUpdateFilms
        [.id id, .nullOfString name, .nullOfString description, .nullTime publishDate,
         .nullInt64 rating] { committed := c, tx := some t, films_id_seq := seq } =
      (.ok (pg.filmRecord (pg.updateFilmRow id name description publishDate rating f0)),
        { committed := c,
          tx := some
            { t with films := t.films.map (pg.updateFilmRow id name description publishDate rating) },
          films_id_seq := seq }) := by
  obtain ⟨rest, hrest⟩ := filter_map_update_head (fun f => decide (f.id = id))
    (pg.updateFilmRow id name description publishDate rating)
    (fun x => by simp only [pg_updateFilmRow_id]) t.films f0 h
  simp only [pg.DB, pg.run, pg.statement, hrest, List.map_cons]

theorem pg_QueryRowx_actorUpdateActors (c t : pg.Tables) (seq : Nat) (id : types.Id)
    (name sex : sql.NullString) (birthday : sql.NullTime)
    (a0 : pg.ActorRow) (h : t.actors.find? (fun a => decide (a.id = id)) = some a0) :
    pg.DB.QueryRowx .actorUpdateActors
        [.id id, .nullString name, .nullString sex, .nullTime birthday]
        { committed := c, tx := some t, films_id_seq := seq } =
      (.ok (pg.actorRecord (pg.updateActorRow id name sex birthday a0)),
        { committed := c,
          tx := some { t with actors := t.actors.map (pg.updateActorRow id name sex birthday) },
          films_id_seq := seq }) := by
  obtain ⟨rest, hrest⟩ := filter_map_update_head (fun a => decide (a.id = id))
    (pg.updateActorRow id name sex birthday)
    (fun x => by simp only [pg_updateActorRow_id]) t.actors a0 h
  simp only [pg.DB, pg.run, pg.statement, hrest, List.map_cons]

theorem pg_getActors (c t : pg.Tables) (seq : Nat) (filmId : types.Id) :
    film.getActors pg.DB filmId { committed := c, tx := some t, films_id_seq := seq } =
      ((some ((pg.actorsOfFilm t filmId).map pg.toFilmActor), none),
        { committed := c, tx := some t, films_id_seq := seq }) := by
  simp only [film.getActors, pg.DB, pg.run, pg.statement,
    sqlx_scanAll_map film.scanActor pg.actorRecord pg.toFilmActor (fun _ => rfl),
    Slice_appendAll_some, List.nil_append]

theorem pg_Exec_filmDeleteActors (c t : pg.Tables) (seq : Nat) (filmId : types.Id) :
    pg.DB.Exec .filmDeleteActors [.id filmId]
        { committed := c, tx := some t, films_id_seq := seq } =
      (.ok { RowsAffected :=
          (((t.film_actor.filter (fun p => decide (p.1 = filmId))).length : Nat), none) },
        { committed := c,
          tx := some { t with film_actor := t.film_actor.filter (fun p => p.1 ≠ filmId) },
          films_id_seq := seq }) := rfl

theorem pg_Exec_filmAddActors_ok (c t : pg.Tables) (seq : Nat) (filmId : types.Id)
    (actors : Slice types.Id)
    (h : ∀ a ∈ Slice.toList actors, ∃ r ∈ t.actors, r.id = a) :
    pg.DB.Exec .filmAddActors [.id filmId, .idArray actors]
        { committed := c, tx := some t, films_id_seq := seq } =
      (.ok { RowsAffected := (((Slice.toList actors).length : Nat), none) },
        { committed := c,
          tx := some
            { t with film_actor := t.film_actor ++ (Slice.toList actors).map (fun a => (filmId, a)) },
          films_id_seq := seq }) := by
  have hall : (Slice.toList actors).all
      (fun a => (t.actors.any (fun r => decide (r.id = a)))) = true := by
    simp only [List.all_eq_true, List.any_eq_true, decide_eq_true_eq]
    exact h
  simp only [pg.DB, pg.run, pg.statement, hall, if_true]

theorem Slice_toList_of_len_zero {α : Type} (s : Slice α) (h : Slice.len s = 0) :
    Slice.toList s = [] := by
  cases s with
  | none => rfl
  | some xs =>
    simp only [Slice.len, List.length_eq_zero] at h
    simp [Slice.toList, h]

theorem pg_UpdateFilm (s : pg.State) (upd : film.UpdateFilm) (f0 : pg.FilmRow)
    (htx : s.tx = none)
    (hfilm : s.committed.films.find? (fun f => decide (f.id = upd.ID)) = some f0)
    (hactors : upd.UpdateActors = true →
      ∀ a ∈ Slice.toList upd.Actors, ∃ r ∈ s.committed.actors, r.id = a) :
    film.PostgresFilm.UpdateFilm pg.DB upd s =
      ((some
          { toFilm := pg.toFilm (pg.updateFilmRow upd.ID (film.getNull upd.Name)
              (film.getNull upd.Description) (film.nullPublishDate upd.DataPublish)
              (film.nullRating upd.Rating) f0),
            Actors := some ((pg.actorsOfFilm
              { s.committed with
                film_actor :=
                  if upd.UpdateActors = true then
                    s.committed.film_actor.filter (fun p => p.1 ≠ upd.ID) ++
                      (Slice.toList upd.Actors).map (fun a => (upd.ID, a))
                  else s.committed.film_actor } upd.ID).map pg.toFilmActor) },
        none),
       { committed :=
           { actors := s.committed.actors,
             films := s.committed.films.map (pg.updateFilmRow upd.ID (film.getNull upd.Name)
               (film.getNull upd.Description) (film.nullPublishDate upd.DataPublish)
               (film.nullRating upd.Rating)),
             users := s.committed.users,
             film_actor :=
               if upd.UpdateActors = true then
                 s.committed.film_actor.filter (fun p => p.1 ≠ upd.ID) ++
                   (Slice.toList upd.Actors).map (fun a => (upd.ID, a))
               else s.committed.film_actor },
         tx := none,
         films_id_seq := s.films_id_seq }) := by
  obtain ⟨c, tx, seq⟩ := s
  simp only at htx hfilm hactors
  subst htx
  have hbegin : pg.DB.Beginx { committed := c, tx := none, films_id_seq := seq } =
      (none, { committed := c, tx := some c, films_id_seq := seq }) := rfl
  have hid : (pg.updateFilmRow upd.ID (film.getNull upd.Name)
      (film.getNull upd.Description) (film.nullPublishDate upd.DataPublish)
      (film.nullRating upd.Rating) f0).id = upd.ID := by
    rw [pg_updateFilmRow_id]
    have := List.find?_some hfilm
    simpa using this
  simp only [film.PostgresFilm.UpdateFilm, hbegin,
    pg_QueryRowx_filmUpdateFilms c c seq upd.ID _ _ _ _ f0 hfilm, Except.bind,
    film.scanFilm, pg.filmRecord, pg.toFilm]
  simp only [pg_updateFilmRow_id] at hid ⊢
  simp only [hid]
  cases hflag : upd.UpdateActors with
  | false =>
    simp only [Bool.false_eq_true, if_false, pg_getActors]
    rfl
  | true =>
    simp only [if_true, pg_Exec_filmDeleteActors]
    by_cases hlen : Slice.len upd.Actors = 0
    · simp only [hlen, ne_eq, not_true_eq_false, if_false, pg_getActors,
        Slice_toList_of_len_zero _ hlen, List.map_nil, List.append_nil]
      rfl
    · have hadd := pg_Exec_filmAddActors_ok c
        { actors := c.actors,
          films := c.films.map (pg.updateFilmRow upd.ID (film.getNull upd.Name)
            (film.getNull upd.Description) (film.nullPublishDate upd.DataPublish)
            (film.nullRating upd.Rating)),
          users := c.users,
          film_actor := c.film_actor.filter (fun p => p.1 ≠ upd.ID) }
        seq upd.ID upd.Actors (hactors hflag)
      simp only [hlen, ne_eq, not_false_eq_true, if_true, hadd, pg_getActors]
      rfl

theorem pg_UpdateActor (s : pg.State) (upd : actor.UpdateActor) (a0 : pg.ActorRow)
    (htx : s.tx = none)
    (hactor : s.committed.actors.find? (fun a => decide (a.id = upd.ID)) = some a0) :
    actor.PostgresActor.UpdateActor pg.DB upd s =
      ((some
          { toActor := pg.toActor (pg.updateActorRow upd.ID (actor.getNullString upd.Name)
              (actor.getNullString upd.Sex) (actor.nullBirthday upd.Birthday) a0),
            Films := Slice.appendAll none ((pg.filmsOfActor s.committed upd.ID).map pg.toFilm) },
        none),
       { committed :=
           { actors := s.committed.actors.map (pg.updateActorRow upd.ID
               (actor.getNullString upd.Name) (actor.getNullString upd.Sex)
               (actor.nullBirthday upd.Birthday)),
             films := s.committed.films,
             users := s.committed.users,
             film_actor := s.committed.film_actor },
         tx := none,
         films_id_seq := s.films_id_seq }) := by
  obtain ⟨c, tx, seq⟩ := s
  simp only at htx hactor
  subst htx
  have hbegin : pg.DB.Beginx { committed := c, tx := none, films_id_seq := seq } =
      (none, { committed := c, tx := some c, films_id_seq := seq }) := rfl
  have hquery : ∀ t : pg.Tables,
      pg.DB.Queryx .actorGetActorFilms [.id upd.ID]
          { committed := c, tx := some t, films_id_seq := seq } =
        (.ok { rows := (pg.filmsOfActor t upd.ID).map pg.filmRecord, Err := none },
          { committed := c, tx := some t, films_id_seq := seq }) := fun _ => rfl
  simp only [actor.PostgresActor.UpdateActor, hbegin,
    pg_QueryRowx_actorUpdateActors c c seq upd.ID _ _ _ a0 hactor, Except.bind,
    actor.scanActor, pg.actorRecord, hquery,
    sqlx_scanAll_map film.scanFilm pg.filmRecord pg.toFilm (fun _ => rfl)]
  rfl

theorem pg_updateFilmRow_requested (upd : film.UpdateFilm) (f : pg.FilmRow) :
    pg.updateFilmRow upd.ID (film.getNull upd.Name) (film.getNull upd.Description)
        (film.nullPublishDate upd.DataPublish) (film.nullRating upd.Rating) f =
      if f.id = upd.ID then pg.requestedFilmRow upd f else f := by
  obtain ⟨id, name, description, dataPublish, rating, actors, flag⟩ := upd
  cases name <;> cases description <;> cases dataPublish <;> cases rating <;>
    simp [pg.updateFilmRow, pg.requestedFilmRow, pg.coalesce, film.getNull,
      film.nullPublishDate, film.nullRating]

theorem pg_updateActorRow_requested (upd : actor.UpdateActor) (a : pg.ActorRow) :
    pg.updateActorRow upd.ID (actor.getNullString upd.Name) (actor.getNullString upd.Sex)
        (actor.nullBirthday upd.Birthday) a =
      if a.id = upd.ID then pg.requestedActorRow upd a else a := by
  obtain ⟨id, name, sex, birthday⟩ := upd
  cases name <;> cases sex <;> cases birthday <;>
    simp [pg.updateActorRow, pg.requestedActorRow, pg.coalesce, actor.getNullString,
      actor.nullBirthday]

theorem pg_actorsOfFilm_cleared (t : pg.Tables) (filmId : types.Id)
    (h : ∀ p ∈ t.film_actor, p.1 ≠ filmId) : pg.actorsOfFilm t filmId = [] := by
  have hnil : t.film_actor.filter (fun p => decide (p.1 = filmId)) = [] := by
    simp only [List.filter_eq_nil_iff, decide_eq_true_eq]
    exact h
  simp only [pg.actorsOfFilm, hnil, List.flatMap_nil]

/-- C9: association replacement in `UpdateFilm`.  Over every database handle,
when every step succeeds: the calls on the handle are `Beginx`, the update of
the film, then, only when `UpdateActors` is set, `Exec` of `deleteActors` on
the film followed, only when `Actors` is not empty, by `Exec` of `addActors`
with exactly `Actors`, then the query `getFilmActors` and `Commit`; the actor
list returned is the one scanned from that query.  Over the relational engine,
for an existing film whose requested actors exist: the call succeeds; with
`UpdateActors` set the associations of the film become exactly `Actors` (the
other films keep theirs), otherwise `film_actor` is left as it was; the actor
list returned is the one the committed tables hold; and with `UpdateActors` set
and `Actors` empty it is the empty, non-nil list and no association of the
film is left. -/
theorem C9_UpdateFilm_association_replacement {D : Type} (db : sqlx.DB D)
    (upd : film.UpdateFilm) (d d1 d2 d3 d4 d5 d6 : D) (log : List sqlx.Call)
    (id : types.Id) (name description : String) (publishDate : time.Time)
    (rating : types.Rating) (r1 r2 : sql.Result) (rows : List sqlx.Record)
    (actors : Slice film.Actor) (s : pg.State) (f0 : pg.FilmRow) :
    (db.Beginx d = (none, d1) →
      db.QueryRowx .filmUpdateFilms
          [.id upd.ID, .nullOfString (film.getNull upd.Name),
           .nullOfString (film.getNull upd.Description),
           .nullTime (film.nullPublishDate upd.DataPublish),
           .nullInt64 (film.nullRating upd.Rating)] d1 =
        (.ok (.film id name description publishDate rating), d2) →
      (if upd.UpdateActors = true then
          db.Exec .filmDeleteActors [.id id] d2 = (.ok r1, d3)
        else d3 = d2) →
      (if upd.UpdateActors = true ∧ Slice.len upd.Actors ≠ 0 then
          db.Exec .filmAddActors [.id id, .idArray upd.Actors] d3 = (.ok r2, d4)
        else d4 = d3) →
      db.Queryx .filmGetFilmActors [.id id] d4 = (.ok { rows := rows, Err := none }, d5) →
      sqlx.scanAll film.scanActor rows (some []) = .ok actors →
      db.Commit d5 = (none, d6) →
      film.PostgresFilm.UpdateFilm (sqlx.traced db) upd (d, log) =
        ((some { ID := id, Name := name, Description := description,
                 DataPublish := { Time := publishDate }, Rating := rating,
                 Actors := actors }, none),
          (d6,
           log ++
             [sqlx.Call.Beginx,
              sqlx.Call.QueryRowx .filmUpdateFilms
                [.id upd.ID, .nullOfString (film.getNull upd.Name),
                 .nullOfString (film.getNull upd.Description),
                 .nullTime (film.nullPublishDate upd.DataPublish),
                 .nullInt64 (film.nullRating upd.Rating)]] ++
             (if upd.UpdateActors = true then
                sqlx.Call.Exec .filmDeleteActors [.id id] ::
                  (if Slice.len upd.Actors ≠ 0 then
                     [sqlx.Call.Exec .filmAddActors [.id id, .idArray upd.Actors]]
                   else [])
              else []) ++
             [sqlx.Call.Queryx .filmGetFilmActors [.id id], sqlx.Call.Commit]))) ∧
    (s.tx = none →
      s.committed.films.find? (fun f => decide (f.id = upd.ID)) = some f0 →
      (upd.UpdateActors = true →
        ∀ a ∈ Slice.toList upd.Actors, ∃ r ∈ s.committed.actors, r.id = a) →
      ∃ res st,
        film.PostgresFilm.UpdateFilm pg.DB upd s = ((some res, none), st) ∧
        st.tx = none ∧
        st.committed.film_actor =
          (if upd.UpdateActors = true then
             s.committed.film_actor.filter (fun p => p.1 ≠ upd.ID) ++
               (Slice.toList upd.Actors).map (fun a => (upd.ID, a))
           else s.committed.film_actor) ∧
        res.Actors = some ((pg.actorsOfFilm st.committed upd.ID).map pg.toFilmActor) ∧
        (upd.UpdateActors = true → Slice.len upd.Actors = 0 →
          res.Actors = some [] ∧ ∀ p ∈ st.committed.film_actor, p.1 ≠ upd.ID)) := by
  refine ⟨?_, ?_⟩
  · intro hbegin hupd hdel hadd hread hscan hcommit
    cases hflag : upd.UpdateActors with
    | false =>
      simp only [hflag, Bool.false_eq_true, if_false, false_and] at hdel hadd
      subst hadd
      subst hdel
      simp [film.PostgresFilm.UpdateFilm, film.getActors, sqlx.traced, hbegin, hupd, hflag,
        hread, hscan, hcommit, film.scanFilm, Except.bind]
    | true =>
      simp only [hflag, if_true, true_and] at hdel hadd
      by_cases hlen : Slice.len upd.Actors = 0
      · simp only [hlen, ne_eq, not_true_eq_false, if_false] at hadd
        subst hadd
        simp [film.PostgresFilm.UpdateFilm, film.getActors, sqlx.traced, hbegin, hupd, hflag,
          hdel, hlen, hread, hscan, hcommit, film.scanFilm, Except.bind]
      · simp only [hlen, ne_eq, not_false_eq_true, if_true] at hadd
        simp [film.PostgresFilm.UpdateFilm, film.getActors, sqlx.traced, hbegin, hupd, hflag,
          hdel, hadd, hlen, hread, hscan, hcommit, film.scanFilm, Except.bind]
  · intro htx hfilm hactors
    refine ⟨_, _, pg_UpdateFilm s upd f0 htx hfilm hactors, rfl, rfl, rfl, ?_⟩
    intro hflag hlen
    have hclear : ∀ p ∈ s.committed.film_actor.filter (fun p => p.1 ≠ upd.ID) ++
        (Slice.toList upd.Actors).map (fun a => (upd.ID, a)), p.1 ≠ upd.ID := by
      intro p hp
      simp only [Slice_toList_of_len_zero _ hlen, List.map_nil, List.append_nil,
        List.mem_filter, decide_eq_true_eq] at hp
      exact hp.2
    simp only [hflag, if_true]
    refine ⟨?_, hclear⟩
    rw [pg_actorsOfFilm_cleared _ upd.ID (by simpa [hflag] using hclear)]
    rfl

/-- Witness of C9 on the sample data: the actors of film 1 are replaced by
actor 2, logged on the engine; and the actors of film 1 are cleared. -/
theorem C9_UpdateFilm_association_replacement_witness :
    film.PostgresFilm.UpdateFilm (sqlx.traced pg.DB) sample.replaceActors (sample.db, []) =
      ((some { ID := 1, Name := "Dune", Description := "spice",
               DataPublish := { Time := 20210903 }, Rating := 8,
               Actors := some [{ ID := 2, Name := "Zendaya", Sex := "female",
                                 Birthday := { Time := 19960901 } }] }, none),
        ({ committed :=
             { sample.tables with
               films := [{ id := 1, name := "Dune", description := "spice",
                           publish_date := 20210903, rating := 8 }],
               film_actor := [(1, 2)] },
           tx := none, films_id_seq := 1 },
         [sqlx.Call.Beginx,
          sqlx.Call.QueryRowx .filmUpdateFilms
            [.id 1, .nullOfString { V := "", Valid := false },
             .nullOfString { V := "spice", Valid := true },
             .nullTime { Time := 0, Valid := false },
             .nullInt64 { Int64 := 0, Valid := false }],
          sqlx.Call.Exec .filmDeleteActors [.id 1],
          sqlx.Call.Exec .filmAddActors [.id 1, .idArray (some [2])],
          sqlx.Call.Queryx .filmGetFilmActors [.id 1],
          sqlx.Call.Commit])) ∧
    ∃ res st,
      film.PostgresFilm.UpdateFilm pg.DB sample.clearActors sample.db = ((some res, none), st) ∧
      res.Actors = some [] ∧ ∀ p ∈ st.committed.film_actor, p.1 ≠ 1 := by
  have hA := (C9_UpdateFilm_association_replacement pg.DB sample.replaceActors sample.db
    { committed := sample.tables, tx := some sample.tables, films_id_seq := 1 }
    { committed := sample.tables,
      tx := some { sample.tables with
        films := [{ id := 1, name := "Dune", description := "spice",
                    publish_date := 20210903, rating := 8 }] },
      films_id_seq := 1 }
    { committed := sample.tables,
      tx := some { sample.tables with
        films := [{ id := 1, name := "Dune", description := "spice",
                    publish_date := 20210903, rating := 8 }],
        film_actor := [] },
      films_id_seq := 1 }
    { committed := sample.tables,
      tx := some { sample.tables with
        films := [{ id := 1, name := "Dune", description := "spice",
                    publish_date := 20210903, rating := 8 }],
        film_actor := [(1, 2)] },
      films_id_seq := 1 }
    { committed := sample.tables,
      tx := some { sample.tables with
        films := [{ id := 1, name := "Dune", description := "spice",
                    publish_date := 20210903, rating := 8 }],
        film_actor := [(1, 2)] },
      films_id_seq := 1 }
    { committed := { sample.tables with
        films := [{ id := 1, name := "Dune", description := "spice",
                    publish_date := 20210903, rating := 8 }],
        film_actor := [(1, 2)] },
      tx := none, films_id_seq := 1 }
    [] 1 "Dune" "spice" 20210903 8 { RowsAffected := (2, none) } { RowsAffected := (1, none) }
    [.actor 2 "Zendaya" "female" 19960901]
    (some [{ ID := 2, Name := "Zendaya", Sex := "female", Birthday := { Time := 19960901 } }])
    sample.db { id := 1, name := "Dune", description := "sand", publish_date := 20210903,
                rating := 8 }).1
    (by decide) (by decide) (by decide) (by decide) (by decide) (by decide) (by decide)
  obtain ⟨res, st, hrun, _, _, _, hclear⟩ :=
    (C9_UpdateFilm_association_replacement pg.DB sample.clearActors sample.db sample.db
      sample.db sample.db sample.db sample.db sample.db [] 1 "" "" 0 0
      { RowsAffected := (0, none) } { RowsAffected := (0, none) } [] none sample.db
      { id := 1, name := "Dune", description := "sand", publish_date := 20210903,
        rating := 8 }).2
      (by decide) (by decide) (by decide)
  exact ⟨hA, res, st, hrun, hclear (by decide) (by decide)⟩

/-! ## Partial updates -/

theorem UpdateActor_bound_arguments {D : Type} (db : sqlx.DB D) (upd : actor.UpdateActor)
    (d d1 : D) (log : List sqlx.Call) (h : db.Beginx d = (none, d1)) :
    ((actor.PostgresActor.UpdateActor (sqlx.traced db) upd (d, log)).2.2).take
        (log.length + 2) =
      log ++ [sqlx.Call.Beginx,
        sqlx.Call.QueryRowx .actorUpdateActors
          [.id upd.ID, .nullString (actor.getNullString upd.Name),
           .nullString (actor.getNullString upd.Sex),
           .nullTime (actor.nullBirthday upd.Birthday)]] := by
  rcases hq : db.QueryRowx .actorUpdateActors
      [.id upd.ID, .nullString (actor.getNullString upd.Name),
       .nullString (actor.getNullString upd.Sex),
       .nullTime (actor.nullBirthday upd.Birthday)] d1 with ⟨res, d2⟩
  simp only [actor.PostgresActor.UpdateActor, sqlx.traced, h, hq]
  cases hres : res.bind actor.scanActor with
  | error e =>
    by_cases hnr : errors.Is e .sqlErrNoRows = true <;>
      simp [hnr, List.take_append_eq_append_take]
  | ok a =>
    rcases hqx : db.Queryx .actorGetActorFilms [.id upd.ID] d2 with ⟨r, d3⟩
    cases r with
    | error e => simp [List.take_append_eq_append_take]
    | ok rows =>
      simp only []
      cases hscan : sqlx.scanAll film.scanFilm rows.rows none with
      | error e => simp [List.take_append_eq_append_take]
      | ok films =>
        cases herr : rows.Err with
        | some e => simp [List.take_append_eq_append_take]
        | none =>
          rcases hc : db.Commit d3 with ⟨ce, d4⟩
          cases ce <;> simp [hc, List.take_append_eq_append_take]

theorem sqlx_traced_Beginx {D : Type} (db : sqlx.DB D) (d : D) (log : List sqlx.Call) :
    (sqlx.traced db).Beginx (d, log) =
      ((db.Beginx d).1, ((db.Beginx d).2, log ++ [sqlx.Call.Beginx])) := rfl

theorem sqlx_traced_Commit {D : Type} (db : sqlx.DB D) (d : D) (log : List sqlx.Call) :
    (sqlx.traced db).Commit (d, log) =
      ((db.Commit d).1, ((db.Commit d).2, log ++ [sqlx.Call.Commit])) := rfl

theorem sqlx_traced_Rollback {D : Type} (db : sqlx.DB D) (d : D) (log : List sqlx.Call) :
    (sqlx.traced db).Rollback (d, log) =
      ((db.Rollback d).1, ((db.Rollback d).2, log ++ [sqlx.Call.Rollback])) := rfl

theorem sqlx_traced_QueryRowx {D : Type} (db : sqlx.DB D) (q : sqlx.Query)
    (args : List sqlx.Arg) (d : D) (log : List sqlx.Call) :
    (sqlx.traced db).QueryRowx q args (d, log) =
      ((db.QueryRowx q args d).1,
        ((db.QueryRowx q args d).2, log ++ [sqlx.Call.QueryRowx q args])) := rfl

theorem sqlx_traced_Queryx {D : Type} (db : sqlx.DB D) (q : sqlx.Query)
    (args : List sqlx.Arg) (d : D) (log : List sqlx.Call) :
    (sqlx.traced db).Queryx q args (d, log) =
      ((db.Queryx q args d).1, ((db.Queryx q args d).2, log ++ [sqlx.Call.Queryx q args])) := rfl

theorem sqlx_traced_Exec {D : Type} (db : sqlx.DB D) (q : sqlx.Query)
    (args : List sqlx.Arg) (d : D) (log : List sqlx.Call) :
    (sqlx.traced db).Exec q args (d, log) =
      ((db.Exec q args d).1, ((db.Exec q args d).2, log ++ [sqlx.Call.Exec q args])) := rfl

theorem getActors_traced_log {D : Type} (db : sqlx.DB D) (filmId : types.Id) (d0 : D)
    (pre : List sqlx.Call) :
    (film.getActors (sqlx.traced db) filmId (d0, pre)).2.2 =
      pre ++ [sqlx.Call.Queryx .filmGetFilmActors [.id filmId]] := by
  rcases hqx : db.Queryx .filmGetFilmActors [.id filmId] d0 with ⟨r, d1⟩
  simp only [film.getActors, sqlx.traced, hqx]
  cases r with
  | error e => rfl
  | ok rows =>
    simp only []
    cases hscan : sqlx.scanAll film.scanActor rows.rows (some []) with
    | error e => rfl
    | ok actors =>
      cases herr : rows.Err with
      | some e => rfl
      | none => rfl

theorem UpdateFilm_bound_arguments {D : Type} (db : sqlx.DB D) (upd : film.UpdateFilm)
    (d d1 : D) (log : List sqlx.Call) (h : db.Beginx d = (none, d1)) :
    ((film.PostgresFilm.UpdateFilm (sqlx.traced db) upd (d, log)).2.2).take
        (log.length + 2) =
      log ++ [sqlx.Call.Beginx,
        sqlx.Call.QueryRowx .filmUpdateFilms
          [.id upd.ID, .nullOfString (film.getNull upd.Name),
           .nullOfString (film.getNull upd.Description),
           .nullTime (film.nullPublishDate upd.DataPublish),
           .nullInt64 (film.nullRating upd.Rating)]] := by
  rcases hq : db.QueryRowx .filmUpdateFilms
      [.id upd.ID, .nullOfString (film.getNull upd.Name),
       .nullOfString (film.getNull upd.Description),
       .nullTime (film.nullPublishDate upd.DataPublish),
       .nullInt64 (film.nullRating upd.Rating)] d1 with ⟨res, d2⟩
  simp only [film.PostgresFilm.UpdateFilm, sqlx_traced_Beginx, sqlx_traced_QueryRowx,
    sqlx_traced_Exec, sqlx_traced_Rollback, h, hq]
  cases hres : res.bind film.scanFilm with
  | error e =>
    by_cases hnr : errors.Is e .sqlErrNoRows = true <;>
      simp [hnr, List.take_append_eq_append_take]
  | ok f =>
    simp only []
    cases hflag : upd.UpdateActors with
    | false =>
      simp only [Bool.false_eq_true, if_false]
      split
      · rename_i fa err d5 heq
        have hlog := congrArg (fun r => r.2.2) heq
        simp only [getActors_traced_log] at hlog
        obtain ⟨d5a, d5l⟩ := d5
        simp only at hlog
        subst hlog
        simp [sqlx_traced_Rollback, List.take_append_eq_append_take]
      · rename_i fa d5 heq
        have hlog := congrArg (fun r => r.2.2) heq
        simp only [getActors_traced_log] at hlog
        obtain ⟨d5a, d5l⟩ := d5
        simp only at hlog
        subst hlog
        rcases hc : db.Commit d5a with ⟨ce, d6⟩
        cases ce <;> simp [sqlx_traced_Commit, hc, List.take_append_eq_append_take]
    | true =>
      simp only [if_true]
      rcases hdel : db.Exec .filmDeleteActors [.id f.ID] d2 with ⟨r, d3⟩
      cases r with
      | error e => simp [sqlx_traced_Rollback, List.take_append_eq_append_take]
      | ok r1 =>
        simp only []
        by_cases hlen : Slice.len upd.Actors = 0
        · simp only [hlen, ne_eq, not_true_eq_false, if_false]
          split
          · rename_i fa err d5 heq
            have hlog := congrArg (fun r => r.2.2) heq
            simp only [getActors_traced_log] at hlog
            obtain ⟨d5a, d5l⟩ := d5
            simp only at hlog
            subst hlog
            simp [sqlx_traced_Rollback, List.take_append_eq_append_take]
          · rename_i fa d5 heq
            have hlog := congrArg (fun r => r.2.2) heq
            simp only [getActors_traced_log] at hlog
            obtain ⟨d5a, d5l⟩ := d5
            simp only at hlog
            subst hlog
            rcases hc : db.Commit d5a with ⟨ce, d6⟩
            cases ce <;> simp [sqlx_traced_Commit, hc, List.take_append_eq_append_take]
        · simp only [hlen, ne_eq, not_false_eq_true, if_true]
          rcases hadd : db.Exec .filmAddActors [.id f.ID, .idArray upd.Actors] d3 with ⟨r, d4⟩
          simp only [sqlx_traced_Exec, hadd]
          cases r with
          | error e => simp [sqlx_traced_Rollback, List.take_append_eq_append_take]
          | ok r2 =>
            simp only []
            split
            · rename_i fa err d5 heq
              have hlog := congrArg (fun r => r.2.2) heq
              simp only [getActors_traced_log] at hlog
              obtain ⟨d5a, d5l⟩ := d5
              simp only at hlog
              subst hlog
              simp [sqlx_traced_Rollback, List.take_append_eq_append_take]
            · rename_i fa d5 heq
              have hlog := congrArg (fun r => r.2.2) heq
              simp only [getActors_traced_log] at hlog
              obtain ⟨d5a, d5l⟩ := d5
              simp only at hlog
              subst hlog
              rcases hc : db.Commit d5a with ⟨ce, d6⟩
              cases ce <;> simp [sqlx_traced_Commit, hc, List.take_append_eq_append_take]

theorem pg_requestedActorRow_none (upd : actor.UpdateActor) (a : pg.ActorRow)
    (hn : upd.Name = none) (hs : upd.Sex = none) (hb : upd.Birthday = none) :
    pg.requestedActorRow upd a = a := by
  simp [pg.requestedActorRow, hn, hs, hb]

/-- C10: partial update.  `UpdateActor` and `UpdateFilm` bind to the update
statement, right after `Beginx`, the id and one nullable argument per scalar
field: not valid (SQL NULL) when the field is nil, valid with the value of the
field when it is present.  Under the `COALESCE` of the statement a row with the
id becomes the row the request asks for (supplied value for a present field,
stored value for an absent one) and every other row is left as it is.  Over the
relational engine, for an existing actor or film, the call succeeds, returns
that row and commits exactly that change to the table; and an update of an
existing actor with no field set succeeds and leaves the engine as it was. -/
theorem C10_partial_update {D : Type} (db : sqlx.DB D) (ua : actor.UpdateActor)
    (uf : film.UpdateFilm) (d d1 : D) (log : List sqlx.Call) (s : pg.State)
    (a0 : pg.ActorRow) (f0 : pg.FilmRow) :
    (db.Beginx d = (none, d1) →
      ((actor.PostgresActor.UpdateActor (sqlx.traced db) ua (d, log)).2.2).take
          (log.length + 2) =
        log ++ [sqlx.Call.Beginx,
          sqlx.Call.QueryRowx .actorUpdateActors
            [.id ua.ID, .nullString (actor.getNullString ua.Name),
             .nullString (actor.getNullString ua.Sex),
             .nullTime (actor.nullBirthday ua.Birthday)]] ∧
      ((film.PostgresFilm.UpdateFilm (sqlx.traced db) uf (d, log)).2.2).take
          (log.length + 2) =
        log ++ [sqlx.Call.Beginx,
          sqlx.Call.QueryRowx .filmUpdateFilms
            [.id uf.ID, .nullOfString (film.getNull uf.Name),
             .nullOfString (film.getNull uf.Description),
             .nullTime (film.nullPublishDate uf.DataPublish),
             .nullInt64 (film.nullRating uf.Rating)]]) ∧
    (actor.getNullString none = { String := "", Valid := false } ∧
      (∀ v, actor.getNullString (some v) = { String := v, Valid := true }) ∧
      actor.nullBirthday none = { Time := 0, Valid := false } ∧
      (∀ v, actor.nullBirthday (some v) = { Time := v.Time, Valid := true }) ∧
      film.getNull (none : Option String) = { V := "", Valid := false } ∧
      (∀ v : String, film.getNull (some v) = { V := v, Valid := true }) ∧
      film.nullPublishDate none = { Time := 0, Valid := false } ∧
      (∀ v, film.nullPublishDate (some v) = { Time := v.Time, Valid := true }) ∧
      film.nullRating none = { Int64 := 0, Valid := false } ∧
      (∀ v, film.nullRating (some v) = { Int64 := Int.ofNat v, Valid := true })) ∧
    (∀ a, pg.updateActorRow ua.ID (actor.getNullString ua.Name)
        (actor.getNullString ua.Sex) (actor.nullBirthday ua.Birthday) a =
      if a.id = ua.ID then pg.requestedActorRow ua a else a) ∧
    (∀ f, pg.updateFilmRow uf.ID (film.getNull uf.Name) (film.getNull uf.Description)
        (film.nullPublishDate uf.DataPublish) (film.nullRating uf.Rating) f =
      if f.id = uf.ID then pg.requestedFilmRow uf f else f) ∧
    (s.tx = none →
      s.committed.actors.find? (fun a => decide (a.id = ua.ID)) = some a0 →
      actor.PostgresActor.UpdateActor pg.DB ua s =
        ((some { toActor := pg.toActor (pg.requestedActorRow ua a0),
                 Films := Slice.appendAll none
                   ((pg.filmsOfActor s.committed ua.ID).map pg.toFilm) }, none),
         { committed :=
             { actors := s.committed.actors.map
                 (fun a => if a.id = ua.ID then pg.requestedActorRow ua a else a),
               films := s.committed.films,
               users := s.committed.users,
               film_actor := s.committed.film_actor },
           tx := none,
           films_id_seq := s.films_id_seq })) ∧
    (s.tx = none →
      s.committed.films.find? (fun f => decide (f.id = uf.ID)) = some f0 →
      (uf.UpdateActors = true →
        ∀ a ∈ Slice.toList uf.Actors, ∃ r ∈ s.committed.actors, r.id = a) →
      ∃ res st,
        film.PostgresFilm.UpdateFilm pg.DB uf s = ((some res, none), st) ∧
        res.toFilm = pg.toFilm (pg.requestedFilmRow uf f0) ∧
        st.tx = none ∧
        st.committed.films = s.committed.films.map
          (fun f => if f.id = uf.ID then pg.requestedFilmRow uf f else f) ∧
        st.committed.actors = s.committed.actors ∧
        st.committed.users = s.committed.users) ∧
    (s.tx = none →
      s.committed.actors.find? (fun a => decide (a.id = ua.ID)) = some a0 →
      ua.Name = none → ua.Sex = none → ua.Birthday = none →
      actor.PostgresActor.UpdateActor pg.DB ua s =
        ((some { toActor := pg.toActor a0,
                 Films := Slice.appendAll none
                   ((pg.filmsOfActor s.committed ua.ID).map pg.toFilm) }, none), s)) := by
  have hA : ∀ a, pg.updateActorRow ua.ID (actor.getNullString ua.Name)
      (actor.getNullString ua.Sex) (actor.nullBirthday ua.Birthday) a =
      if a.id = ua.ID then pg.requestedActorRow ua a else a :=
    pg_updateActorRow_requested ua
  have hF : ∀ f, pg.updateFilmRow uf.ID (film.getNull uf.Name) (film.getNull uf.Description)
      (film.nullPublishDate uf.DataPublish) (film.nullRating uf.Rating) f =
      if f.id = uf.ID then pg.requestedFilmRow uf f else f :=
    pg_updateFilmRow_requested uf
  have hAmap : pg.updateActorRow ua.ID (actor.getNullString ua.Name)
      (actor.getNullString ua.Sex) (actor.nullBirthday ua.Birthday) =
      fun a => if a.id = ua.ID then pg.requestedActorRow ua a else a := funext hA
  have hFmap : pg.updateFilmRow uf.ID (film.getNull uf.Name) (film.getNull uf.Description)
      (film.nullPublishDate uf.DataPublish) (film.nullRating uf.Rating) =
      fun f => if f.id = uf.ID then pg.requestedFilmRow uf f else f := funext hF
  have hrun : s.tx = none →
      s.committed.actors.find? (fun a => decide (a.id = ua.ID)) = some a0 →
      actor.PostgresActor.UpdateActor pg.DB ua s =
        ((some { toActor := pg.toActor (pg.requestedActorRow ua a0),
                 Films := Slice.appendAll none
                   ((pg.filmsOfActor s.committed ua.ID).map pg.toFilm) }, none),
         { committed :=
             { actors := s.committed.actors.map
                 (fun a => if a.id = ua.ID then pg.requestedActorRow ua a else a),
               films := s.committed.films,
               users := s.committed.users,
               film_actor := s.committed.film_actor },
           tx := none,
           films_id_seq := s.films_id_seq }) := by
    intro htx hfind
    have hid : a0.id = ua.ID := by simpa using List.find?_some hfind
    rw [pg_UpdateActor s ua a0 htx hfind, hAmap]
    simp only [hid, if_true]
  refine ⟨fun h => ⟨UpdateActor_bound_arguments db ua d d1 log h,
      UpdateFilm_bound_arguments db uf d d1 log h⟩,
    ⟨rfl, fun _ => rfl, rfl, fun _ => rfl, rfl, fun _ => rfl, rfl, fun _ => rfl, rfl,
      fun _ => rfl⟩, hA, hF, hrun, ?_, ?_⟩
  · intro htx hfind hactors
    have hid : f0.id = uf.ID := by simpa using List.find?_some hfind
    refine ⟨_, _, pg_UpdateFilm s uf f0 htx hfind hactors, ?_, rfl, ?_, rfl, rfl⟩
    · simp only [hF, hid, if_true]
    · simp only [hFmap]
  · intro htx hfind hn hs hb
    rw [hrun htx hfind]
    obtain ⟨c, tx, seq⟩ := s
    simp only at htx
    subst htx
    have hmap : c.actors.map
        (fun a => if a.id = ua.ID then pg.requestedActorRow ua a else a) = c.actors := by
      simp [pg_requestedActorRow_none ua _ hn hs hb]
    simp only [hmap]
    rw [pg_requestedActorRow_none ua a0 hn hs hb]

/-- Witness of C10 on the sample data: a request on actor 1 with no field set
leaves the engine as it was; a request that renames actor 2 changes that name
only. -/
theorem C10_partial_update_witness :
    actor.PostgresActor.UpdateActor pg.DB sample.touchActor sample.db =
      ((some { ID := 1, Name := "Timothee", Sex := "male", Birthday := { Time := 20020212 },
               Films := some [{ ID := 1, Name := "Dune", Description := "sand",
                                DataPublish := { Time := 20210903 }, Rating := 8 }] }, none),
        sample.db) ∧
    actor.PostgresActor.UpdateActor pg.DB sample.renameActor sample.db =
      ((some { ID := 2, Name := "Z", Sex := "female", Birthday := { Time := 19960901 },
               Films := some [{ ID := 1, Name := "Dune", Description := "sand",
                                DataPublish := { Time := 20210903 }, Rating := 8 }] }, none),
        { committed :=
            { sample.tables with
              actors := [{ id := 1, name := "Timothee", sex := "male", birthday := 20020212 },
                         { id := 2, name := "Z", sex := "female", birthday := 19960901 }] },
          tx := none, films_id_seq := 1 }) :=
  ⟨(C10_partial_update pg.DB sample.touchActor sample.replaceActors sample.db sample.db []
      sample.db { id := 1, name := "Timothee", sex := "male", birthday := 20020212 }
      { id := 1, name := "Dune", description := "sand", publish_date := 20210903,
        rating := 8 }).2.2.2.2.2.2 (by decide) (by decide) rfl rfl rfl,
   (C10_partial_update pg.DB sample.renameActor sample.replaceActors sample.db sample.db []
      sample.db { id := 2, name := "Zendaya", sex := "female", birthday := 19960901 }
      { id := 1, name := "Dune", description := "sand", publish_date := 20210903,
        rating := 8 }).2.2.2.2.1 (by decide) (by decide)⟩

/-! ## Updates of a missing row -/

theorem filter_map_update_nil {α : Type} (p : α → Bool) (g : α → α)
    (hg : ∀ x, p (g x) = p x) (l : List α) (h : ∀ x ∈ l, p x = false) :
    (l.map g).filter p = [] := by
  simp only [List.filter_eq_nil_iff, List.mem_map, forall_exists_index, and_imp,
    Bool.not_eq_true]
  intro y x hx hy
  subst hy
  rw [hg]
  exact h x hx

theorem pg_UpdateActor_missing (s : pg.State) (upd : actor.UpdateActor) (htx : s.tx = none)
    (hmiss : ∀ a ∈ s.committed.actors, a.id ≠ upd.ID) :
    actor.PostgresActor.UpdateActor pg.DB upd s =
      ((none, some actor.ErrorActorNotFound), s) := by
  obtain ⟨c, tx, seq⟩ := s
  simp only at htx hmiss
  subst htx
  have hnil := filter_map_update_nil (fun a => decide (a.id = upd.ID))
    (pg.updateActorRow upd.ID (actor.getNullString upd.Name) (actor.getNullString upd.Sex)
      (actor.nullBirthday upd.Birthday))
    (fun x => by simp only [pg_updateActorRow_id]) c.actors
    (fun x hx => by simpa using hmiss x hx)
  simp only [actor.PostgresActor.UpdateActor, pg.DB, pg.run, pg.statement, hnil, List.map_nil,
    Except.bind]
  rfl

theorem pg_UpdateFilm_missing (s : pg.State) (upd : film.UpdateFilm) (htx : s.tx = none)
    (hmiss : ∀ f ∈ s.committed.films, f.id ≠ upd.ID) :
    film.PostgresFilm.UpdateFilm pg.DB upd s = ((none, some film.ErrorFilmNotFound), s) := by
  obtain ⟨c, tx, seq⟩ := s
  simp only at htx hmiss
  subst htx
  have hnil := filter_map_update_nil (fun f => decide (f.id = upd.ID))
    (pg.updateFilmRow upd.ID (film.getNull upd.Name) (film.getNull upd.Description)
      (film.nullPublishDate upd.DataPublish) (film.nullRating upd.Rating))
    (fun x => by simp only [pg_updateFilmRow_id]) c.films
    (fun x hx => by simpa using hmiss x hx)
  simp only [film.PostgresFilm.UpdateFilm, pg.DB, pg.run, pg.statement, hnil, List.map_nil,
    Except.bind]
  rfl

/-- C11: an update of a missing row.  Over every database handle: when
`Beginx` succeeds and the update statement of `UpdateActor` or `UpdateFilm`
answers `sql.ErrNoRows`, the call returns `ErrorActorNotFound` or
`ErrorFilmNotFound`, and the calls on the handle are `Beginx`, the update and
`Rollback`: no other statement and no `Commit` is issued.  Over the relational
engine: with no transaction open and no row with the id of the request, the
call returns that error and leaves the engine as it was. -/
theorem C11_update_of_missing_row {D : Type} (db : sqlx.DB D) (ua : actor.UpdateActor)
    (uf : film.UpdateFilm) (d d1 d2 : D) (log : List sqlx.Call) (e : GoError)
    (s : pg.State) :
    (db.Beginx d = (none, d1) →
      db.QueryRowx .actorUpdateActors
          [.id ua.ID, .nullString (actor.getNullString ua.Name),
           .nullString (actor.getNullString ua.Sex),
           .nullTime (actor.nullBirthday ua.Birthday)] d1 = (.error e, d2) →
      errors.Is e .sqlErrNoRows = true →
      actor.PostgresActor.UpdateActor (sqlx.traced db) ua (d, log) =
        ((none, some actor.ErrorActorNotFound),
          ((db.Rollback d2).2,
           log ++ [sqlx.Call.Beginx,
             sqlx.Call.QueryRowx .actorUpdateActors
               [.id ua.ID, .nullString (actor.getNullString ua.Name),
                .nullString (actor.getNullString ua.Sex),
                .nullTime (actor.nullBirthday ua.Birthday)],
             sqlx.Call.Rollback])) ∧
      errors.Is actor.ErrorActorNotFound .actorActorNotFound = true) ∧
    (db.Beginx d = (none, d1) →
      db.QueryRowx .filmUpdateFilms
          [.id uf.ID, .nullOfString (film.getNull uf.Name),
           .nullOfString (film.getNull uf.Description),
           .nullTime (film.nullPublishDate uf.DataPublish),
           .nullInt64 (film.nullRating uf.Rating)] d1 = (.error e, d2) →
      errors.Is e .sqlErrNoRows = true →
      film.PostgresFilm.UpdateFilm (sqlx.traced db) uf (d, log) =
        ((none, some film.ErrorFilmNotFound),
          ((db.Rollback d2).2,
           log ++ [sqlx.Call.Beginx,
             sqlx.Call.QueryRowx .filmUpdateFilms
               [.id uf.ID, .nullOfString (film.getNull uf.Name),
                .nullOfString (film.getNull uf.Description),
                .nullTime (film.nullPublishDate uf.DataPublish),
                .nullInt64 (film.nullRating uf.Rating)],
             sqlx.Call.Rollback])) ∧
      errors.Is film.ErrorFilmNotFound .filmFilmNotFound = true) ∧
    (s.tx = none → (∀ a ∈ s.committed.actors, a.id ≠ ua.ID) →
      actor.PostgresActor.UpdateActor pg.DB ua s =
        ((none, some actor.ErrorActorNotFound), s)) ∧
    (s.tx = none → (∀ f ∈ s.committed.films, f.id ≠ uf.ID) →
      film.PostgresFilm.UpdateFilm pg.DB uf s = ((none, some film.ErrorFilmNotFound), s)) := by
  refine ⟨?_, ?_, pg_UpdateActor_missing s ua, pg_UpdateFilm_missing s uf⟩
  · intro hb hq he
    refine ⟨?_, rfl⟩
    simp [actor.PostgresActor.UpdateActor, sqlx.traced, hb, hq, he, Except.bind]
  · intro hb hq he
    refine ⟨?_, rfl⟩
    simp [film.PostgresFilm.UpdateFilm, sqlx.traced, hb, hq, he, Except.bind]

/-- Witness of C11 on the sample data: actor 5 and film 9 have no row. -/
theorem C11_update_of_missing_row_witness :
    actor.PostgresActor.UpdateActor (sqlx.traced pg.DB) sample.missingActor (sample.db, []) =
      ((none, some actor.ErrorActorNotFound),
        (sample.db,
         [sqlx.Call.Beginx,
          sqlx.Call.QueryRowx .actorUpdateActors
            [.id 5, .nullString { String := "Z", Valid := true },
             .nullString { String := "", Valid := false },
             .nullTime { Time := 0, Valid := false }],
          sqlx.Call.Rollback])) ∧
    film.PostgresFilm.UpdateFilm pg.DB sample.missingFilm sample.db =
      ((none, some film.ErrorFilmNotFound), sample.db) :=
  ⟨((C11_update_of_missing_row pg.DB sample.missingActor sample.missingFilm sample.db
      { committed := sample.tables, tx := some sample.tables, films_id_seq := 1 }
      { committed := sample.tables, tx := some sample.tables, films_id_seq := 1 }
      [] sql.ErrNoRows sample.db).1 (by decide) (by decide) (by decide)).1,
   (C11_update_of_missing_row pg.DB sample.missingActor sample.missingFilm sample.db
      sample.db sample.db [] sql.ErrNoRows sample.db).2.2.2 (by decide) (by decide)⟩

/-! ## Users -/

theorem pg_CreateUser_existing (s : pg.State) (u : user.User) (u0 : pg.UserRow)
    (htx : s.tx = none)
    (hfind : s.committed.users.find? (fun x => decide (x.login = u.Login)) = some u0) :
    user.PostgresUser.CreateUser pg.DB u s =
      ((some { ID := u0.id, Login := u0.login, Password := "", Role := u0.role },
        some user.ErrorLoginAlreadyExists), s) := by
  obtain ⟨c, tx, seq⟩ := s
  simp only at htx hfind
  subst htx
  simp only [user.PostgresUser.CreateUser, pg.DB, pg.run, pg.statement, pg.otherStatement,
    hfind, Except.bind, user.scanUserExists, if_true]

theorem pg_CreateUser_new (s : pg.State) (u : user.User) (htx : s.tx = none)
    (hnew : ∀ x ∈ s.committed.users, x.login ≠ u.Login) :
    user.PostgresUser.CreateUser pg.DB u s =
      ((some { ID := pg.nextUserId s.committed, Login := u.Login, Password := "",
               Role := u.Role }, none),
        { committed :=
            { actors := s.committed.actors,
              films := s.committed.films,
              users := s.committed.users ++
                [{ id := pg.nextUserId s.committed, login := u.Login,
                   password := u.Password, role := u.Role }],
              film_actor := s.committed.film_actor },
          tx := none,
          films_id_seq := s.films_id_seq }) := by
  obtain ⟨c, tx, seq⟩ := s
  simp only at htx hnew
  subst htx
  have hfind : c.users.find? (fun x => decide (x.login = u.Login)) = none := by
    simp only [List.find?_eq_none, decide_eq_true_eq]
    exact hnew
  simp only [user.PostgresUser.CreateUser, pg.DB, pg.run, pg.statement, pg.otherStatement,
    hfind, Except.bind, user.scanUserExists, Bool.false_eq_true, if_false]

/-- C12: `CreateUser` with a duplicate login.  Over every database handle: when
the statement answers a row marked as existing, the call returns that row's
id, login and role as a non-nil user, with `ErrorLoginAlreadyExists`, after that
one statement.  Over the relational engine, with no transaction open: when a
row with the login exists the call returns its id, login and role with that
error and leaves the engine as it was; and when none exists, a first call
returns the new record with a nil error, a second call with the same login
(whatever its password and role) returns the same record with
`ErrorLoginAlreadyExists`, and one row has that login. -/
theorem C12_CreateUser_duplicate_login {D : Type} (db : sqlx.DB D) (u v : user.User)
    (d d1 : D) (log : List sqlx.Call) (id : types.Id) (login : String) (role : types.Roles)
    (s : pg.State) (u0 : pg.UserRow) :
    (db.QueryRowx .userCreateQuery [.string u.Login, .string u.Password, .string u.Role] d =
        (.ok (.userExists id login role true), d1) →
      user.PostgresUser.CreateUser (sqlx.traced db) u (d, log) =
        ((some { ID := id, Login := login, Password := "", Role := role },
          some user.ErrorLoginAlreadyExists),
         (d1, log ++ [sqlx.Call.QueryRowx .userCreateQuery
           [.string u.Login, .string u.Password, .string u.Role]]))) ∧
    (s.tx = none →
      s.committed.users.find? (fun x => decide (x.login = u.Login)) = some u0 →
      user.PostgresUser.CreateUser pg.DB u s =
        ((some { ID := u0.id, Login := u0.login, Password := "", Role := u0.role },
          some user.ErrorLoginAlreadyExists), s) ∧
      u0.login = u.Login) ∧
    (s.tx = none →
      (∀ x ∈ s.committed.users, x.login ≠ u.Login) →
      v.Login = u.Login →
      (user.PostgresUser.CreateUser pg.DB u s).1 =
        (some { ID := pg.nextUserId s.committed, Login := u.Login, Password := "",
                Role := u.Role }, none) ∧
      user.PostgresUser.CreateUser pg.DB v (user.PostgresUser.CreateUser pg.DB u s).2 =
        ((some { ID := pg.nextUserId s.committed, Login := u.Login, Password := "",
                 Role := u.Role }, some user.ErrorLoginAlreadyExists),
          (user.PostgresUser.CreateUser pg.DB u s).2) ∧
      ((user.PostgresUser.CreateUser pg.DB u s).2.committed.users.filter
        (fun x => decide (x.login = u.Login))).length = 1) := by
  refine ⟨?_, ?_, ?_⟩
  · intro hq
    simp [user.PostgresUser.CreateUser, sqlx.traced, hq, Except.bind, user.scanUserExists]
  · intro htx hfind
    refine ⟨pg_CreateUser_existing s u u0 htx hfind, ?_⟩
    simpa using List.find?_some hfind
  · intro htx hnew hv
    have hnone : s.committed.users.filter (fun x => decide (x.login = u.Login)) = [] := by
      simp only [List.filter_eq_nil_iff, decide_eq_true_eq]
      exact hnew
    have h0 : s.committed.users.find? (fun x => decide (x.login = v.Login)) = none := by
      simp only [List.find?_eq_none, decide_eq_true_eq, hv]
      exact hnew
    have hfind : (s.committed.users ++
        [({ id := pg.nextUserId s.committed, login := u.Login, password := u.Password,
            role := u.Role } : pg.UserRow)]).find? (fun x => decide (x.login = v.Login)) =
        some ({ id := pg.nextUserId s.committed, login := u.Login, password := u.Password,
                role := u.Role } : pg.UserRow) := by
      rw [List.find?_append, h0]
      simp [hv]
    rw [pg_CreateUser_new s u htx hnew]
    refine ⟨rfl, ?_, ?_⟩
    · exact pg_CreateUser_existing
        { committed :=
            { actors := s.committed.actors,
              films := s.committed.films,
              users := s.committed.users ++
                [{ id := pg.nextUserId s.committed, login := u.Login,
                   password := u.Password, role := u.Role }],
              film_actor := s.committed.film_actor },
          tx := none,
          films_id_seq := s.films_id_seq } v _ rfl hfind
    · simp [List.filter_append, hnone]

/-- Witness of C12 on the sample data: the login `admin` exists; the login
`bob` is created, then asked for again with another password and role. -/
theorem C12_CreateUser_duplicate_login_witness :
    user.PostgresUser.CreateUser pg.DB
        { ID := 0, Login := "admin", Password := "hash:pw", Role := "user" } sample.db =
      ((some { ID := 1, Login := "admin", Password := "", Role := "admin" },
        some user.ErrorLoginAlreadyExists), sample.db) ∧
    (user.PostgresUser.CreateUser pg.DB
        { ID := 0, Login := "bob", Password := "hash:other", Role := "admin" }
        (user.PostgresUser.CreateUser pg.DB
          { ID := 0, Login := "bob", Password := "hash:pw", Role := "user" } sample.db).2).1 =
      (some { ID := 2, Login := "bob", Password := "", Role := "user" },
        some user.ErrorLoginAlreadyExists) :=
  ⟨((C12_CreateUser_duplicate_login pg.DB
      { ID := 0, Login := "admin", Password := "hash:pw", Role := "user" }
      { ID := 0, Login := "admin", Password := "hash:pw", Role := "user" }
      sample.db sample.db [] 1 "admin" "admin" sample.db
      { id := 1, login := "admin", password := "hash:secret", role := "admin" }).2.1
      (by decide) (by decide)).1,
   congrArg Prod.fst ((C12_CreateUser_duplicate_login pg.DB
      { ID := 0, Login := "bob", Password := "hash:pw", Role := "user" }
      { ID := 0, Login := "bob", Password := "hash:other", Role := "admin" }
      sample.db sample.db [] 1 "admin" "admin" sample.db
      { id := 1, login := "admin", password := "hash:secret", role := "admin" }).2.2
      (by decide) (by decide) (by decide)).2.1⟩

/-! ## Grouping in `GetActors` -/

theorem IndexMap_get_set (m : IndexMap) (k k1 : types.Id) (v : Nat) :
    IndexMap.get (IndexMap.set m k v) k1 = if k = k1 then v else IndexMap.get m k1 := by
  by_cases h : k = k1
  · simp [IndexMap.get, IndexMap.set, h]
  · simp [IndexMap.get, IndexMap.set, h]

theorem actor_scanActor_recordOfActor (a : actor.Actor) :
    actor.scanActor (actor.recordOfActor a) = .ok a := rfl

theorem actor_scanActorFilm_recordOfActorFilm (p : types.Id × film.Film) :
    actor.scanActorFilm (actor.recordOfActorFilm p) = .ok p := rfl

theorem GetActors_scanActors_spec (as : List actor.Actor) :
    ∀ (acc : List actor.ActorWithFilms) (m : IndexMap) (i : Nat),
      i = acc.length →
      (∀ k b, acc[k]? = some b → IndexMap.get m b.ID = k) →
      (acc.map (fun b => b.ID) ++ as.map (fun a => a.ID)).Nodup →
      ∃ m1,
        actor.GetActors.scanActors (as.map actor.recordOfActor) acc m i =
          .ok (acc ++ as.map (fun a => { toActor := a, Films := some [] }), m1) ∧
        ∀ k b, (acc ++ as.map
            (fun a => ({ toActor := a, Films := some [] } : actor.ActorWithFilms)))[k]? =
              some b → IndexMap.get m1 b.ID = k := by
  induction as with
  | nil =>
    intro acc m i _ hinv _
    exact ⟨m, by simp [actor.GetActors.scanActors], by simpa using hinv⟩
  | cons a as ih =>
    intro acc m i hi hinv hnd
    have hdisj : ∀ b ∈ acc, b.ID ≠ a.ID := by
      intro b hb hba
      have h1 : b.ID ∈ acc.map (fun b => b.ID) := List.mem_map.mpr ⟨b, hb, rfl⟩
      have h2 : b.ID ∈ (a :: as).map (fun a => a.ID) := by simp [hba]
      exact (List.disjoint_of_nodup_append hnd) h1 h2
    obtain ⟨m1, hrun, hinv1⟩ := ih (acc ++ [{ toActor := a, Films := some [] }])
      (IndexMap.set m a.ID i) (i + 1) (by simp [hi])
      (by
        intro k b hk
        rw [IndexMap_get_set]
        rw [List.getElem?_append] at hk
        by_cases hlt : k < acc.length
        · simp only [hlt, if_true] at hk
          have hb : b ∈ acc := List.mem_iff_getElem?.mpr ⟨k, hk⟩
          have hne : ¬ a.ID = b.ID := fun h => hdisj b hb h.symm
          simp only [hne, if_false]
          exact hinv k b hk
        · simp only [hlt, if_false] at hk
          have hk0 : k - acc.length = 0 := by
            by_contra hne
            have : [({ toActor := a, Films := some [] } : actor.ActorWithFilms)][k - acc.length]? =
                none := by
              apply List.getElem?_eq_none
              simp only [List.length_singleton]
              omega
            rw [this] at hk
            exact absurd hk (by simp)
          rw [hk0] at hk
          simp only [List.getElem?_cons_zero, Option.some.injEq] at hk
          subst hk
          simp only [if_true]
          omega)
      (by simpa [List.append_assoc] using hnd)
    refine ⟨m1, ?_, ?_⟩
    · simp only [List.map_cons, actor.GetActors.scanActors, actor_scanActor_recordOfActor]
      rw [hrun]
      simp [List.append_assoc]
    · intro k b hk
      apply hinv1 k b
      simpa [List.append_assoc] using hk

theorem Slice_appendAll_cons {α : Type} (s : Slice α) (x : α) (l : List α) :
    Slice.appendAll s (x :: l) = Slice.appendAll (Slice.append s x) l := rfl

theorem GetActors_groupFilms_spec (pairs : List (types.Id × film.Film)) :
    ∀ (actors : List actor.ActorWithFilms) (m : IndexMap),
      (∀ k b, actors[k]? = some b → IndexMap.get m b.ID = k) →
      (∀ p ∈ pairs, ∃ b ∈ actors, b.ID = p.1) →
      actor.GetActors.groupFilms (pairs.map actor.recordOfActorFilm) actors m =
        .done (actors.map (fun b =>
          { toActor := b.toActor,
            Films := Slice.appendAll b.Films
              ((pairs.filter (fun p => decide (p.1 = b.ID))).map (fun p => p.2)) })) := by
  induction pairs with
  | nil =>
    intro actors m _ _
    simp [actor.GetActors.groupFilms, Slice.appendAll]
  | cons p ps ih =>
    intro actors m hinv hmem
    obtain ⟨b, hb, hbp⟩ := hmem p (List.mem_cons_self p ps)
    obtain ⟨j, hj⟩ := List.mem_iff_getElem?.mp hb
    have hget : IndexMap.get m p.1 = j := by
      rw [← hbp]
      exact hinv j b hj
    have hjlt : j < actors.length := by
      obtain ⟨h, _⟩ := List.getElem?_eq_some.mp hj
      exact h
    have hother : ∀ k c, actors[k]? = some c → k ≠ j → c.ID ≠ p.1 := by
      intro k c hk hkj hc
      have := hinv k c hk
      rw [hc, hget] at this
      exact hkj this.symm
    simp only [List.map_cons, actor.GetActors.groupFilms,
      actor_scanActorFilm_recordOfActorFilm, hget, hj]
    rw [ih]
    · congr 1
      apply List.ext_getElem?
      intro k
      simp only [List.getElem?_map, List.getElem?_set]
      by_cases hkj : j = k
      · subst hkj
        simp only [if_true, hjlt, hj, Option.map_some']
        simp only [List.filter_cons, hbp, decide_True, if_true, List.map_cons,
          Slice_appendAll_cons]
      · simp only [hkj, if_false]
        cases hk : actors[k]? with
        | none => rfl
        | some c =>
          have hne : ¬ p.1 = c.ID := fun h => hother k c hk (fun h1 => hkj h1.symm) h.symm
          simp only [Option.map_some', List.filter_cons, hne, decide_False, Bool.false_eq_true,
            if_false]
    · intro k c hk
      rw [List.getElem?_set] at hk
      by_cases hkj : j = k
      · subst hkj
        simp only [if_true, hjlt, Option.some.injEq] at hk
        subst hk
        exact hinv j b hj
      · simp only [hkj, if_false] at hk
        exact hinv k c hk
    · intro q hq
      obtain ⟨c, hc, hcq⟩ := hmem q (List.mem_cons_of_mem p hq)
      obtain ⟨k, hk⟩ := List.mem_iff_getElem?.mp hc
      by_cases hkj : j = k
      · subst hkj
        rw [hj] at hk
        simp only [Option.some.injEq] at hk
        subst hk
        refine ⟨{ b with Films := Slice.append b.Films p.2 }, ?_, hcq⟩
        apply List.mem_iff_getElem?.mpr
        exact ⟨j, by simp [List.getElem?_set, hjlt]⟩
      · refine ⟨c, ?_, hcq⟩
        apply List.mem_iff_getElem?.mpr
        exact ⟨k, by simp [List.getElem?_set, hkj, hk]⟩

/-- C13: grouping in `GetActors`.  Over every database handle, for every list
of actor rows with distinct ids and every list of (actor id, film) rows whose
actor id is the id of a listed actor, when `Beginx`, both queries, the
iteration over their rows and `Commit` succeed: the call returns a non-nil
slice with one entry per actor row, in the order of the actor listing, whose
films are the films of the pair rows with that actor's id, in the order of the
pair rows; an actor with no pair row has the empty, non-nil film list. -/
theorem C13_GetActors_grouping {D : Type} (db : sqlx.DB D) (d d1 d2 d3 d4 : D)
    (as : List actor.Actor) (pairs : List (types.Id × film.Film))
    (hb : db.Beginx d = (none, d1))
    (hq1 : db.Queryx .actorGetActors [] d1 =
      (.ok { rows := as.map actor.recordOfActor, Err := none }, d2))
    (hq2 : db.Queryx .actorGetActorsFilms [] d2 =
      (.ok { rows := pairs.map actor.recordOfActorFilm, Err := none }, d3))
    (hc : db.Commit d3 = (none, d4))
    (hnd : (as.map (fun a => a.ID)).Nodup)
    (hin : ∀ p ∈ pairs, p.1 ∈ as.map (fun a => a.ID)) :
    actor.PostgresActor.GetActors db d =
      (.ok (some (actor.groupedFilms as pairs), none), d4) ∧
    (actor.groupedFilms as pairs).map (fun b => b.toActor) = as ∧
    (∀ (k : Nat) (a : actor.Actor), as[k]? = some a →
      (actor.groupedFilms as pairs)[k]? =
        some { toActor := a,
               Films := some ((pairs.filter (fun p => decide (p.1 = a.ID))).map
                 (fun p => p.2)) }) ∧
    (∀ a ∈ as, (∀ p ∈ pairs, p.1 ≠ a.ID) →
      ({ toActor := a, Films := some [] } : actor.ActorWithFilms) ∈
        actor.groupedFilms as pairs) := by
  refine ⟨?_, ?_, ?_, ?_⟩
  · obtain ⟨m1, hscan, hinv⟩ := GetActors_scanActors_spec as [] [] 0 rfl
      (by intro k b hk; simp at hk) (by simpa using hnd)
    simp only [List.nil_append] at hscan hinv
    have hmem : ∀ p ∈ pairs, ∃ b ∈ as.map
        (fun a => ({ toActor := a, Films := some [] } : actor.ActorWithFilms)),
        b.ID = p.1 := by
      intro p hp
      obtain ⟨a, ha, hap⟩ := List.mem_map.mp (hin p hp)
      exact ⟨{ toActor := a, Films := some [] }, List.mem_map.mpr ⟨a, ha, rfl⟩, hap⟩
    have hgroup := GetActors_groupFilms_spec pairs _ m1 hinv hmem
    simp only [actor.PostgresActor.GetActors, hb, hq1, hscan, hq2, hgroup, hc]
    simp [actor.groupedFilms, Slice_appendAll_some]
  · simp [actor.groupedFilms, Function.comp_def]
  · intro k a hk
    simp [actor.groupedFilms, hk]
  · intro a ha hno
    have hnil : pairs.filter (fun p => decide (p.1 = a.ID)) = [] := by
      simp only [List.filter_eq_nil_iff, decide_eq_true_eq]
      exact hno
    simp only [actor.groupedFilms, List.mem_map]
    exact ⟨a, ha, by simp [hnil]⟩

/-- Witness of C13 on the sample cast: actor 1 plays in both films, actor 2 in
none, actor 3 in the first. -/
theorem C13_GetActors_grouping_witness :
    actor.PostgresActor.GetActors pg.DB sample.cast =
      (.ok (some
        [{ ID := 1, Name := "Timothee", Sex := "male", Birthday := { Time := 20020212 },
           Films := some [{ ID := 1, Name := "Dune", Description := "sand",
                            DataPublish := { Time := 20210903 }, Rating := 8 },
                          { ID := 2, Name := "Wonka", Description := "chocolate",
                            DataPublish := { Time := 20231215 }, Rating := 7 }] },
         { ID := 2, Name := "Zendaya", Sex := "female", Birthday := { Time := 19960901 },
           Films := some [] },
         { ID := 3, Name := "Rebecca", Sex := "female", Birthday := { Time := 19831019 },
           Films := some [{ ID := 1, Name := "Dune", Description := "sand",
                            DataPublish := { Time := 20210903 }, Rating := 8 }] }], none),
       sample.cast) :=
  (C13_GetActors_grouping pg.DB sample.cast
    { sample.cast with tx := some sample.cast.committed }
    { sample.cast with tx := some sample.cast.committed }
    { sample.cast with tx := some sample.cast.committed }
    sample.cast
    [{ ID := 1, Name := "Timothee", Sex := "male", Birthday := { Time := 20020212 } },
     { ID := 2, Name := "Zendaya", Sex := "female", Birthday := { Time := 19960901 } },
     { ID := 3, Name := "Rebecca", Sex := "female", Birthday := { Time := 19831019 } }]
    [(1, { ID := 1, Name := "Dune", Description := "sand",
           DataPublish := { Time := 20210903 }, Rating := 8 }),
     (1, { ID := 2, Name := "Wonka", Description := "chocolate",
           DataPublish := { Time := 20231215 }, Rating := 7 }),
     (3, { ID := 1, Name := "Dune", Description := "sand",
           DataPublish := { Time := 20210903 }, Rating := 8 })]
    (by decide) (by decide) (by decide) (by decide) (by decide) (by decide)).1

/-! ## Transaction discipline -/

theorem sqlx_recorded_Beginx {D : Type} (db : sqlx.DB D) (d : D)
    (log : List (sqlx.Call × sqlx.Answer)) :
    (sqlx.recorded db).Beginx (d, log) =
      ((db.Beginx d).1, ((db.Beginx d).2, log ++ [(sqlx.Call.Beginx, .error (db.Beginx d).1)])) :=
  rfl

theorem sqlx_recorded_Commit {D : Type} (db : sqlx.DB D) (d : D)
    (log : List (sqlx.Call × sqlx.Answer)) :
    (sqlx.recorded db).Commit (d, log) =
      ((db.Commit d).1, ((db.Commit d).2, log ++ [(sqlx.Call.Commit, .error (db.Commit d).1)])) :=
  rfl

theorem sqlx_recorded_Rollback {D : Type} (db : sqlx.DB D) (d : D)
    (log : List (sqlx.Call × sqlx.Answer)) :
    (sqlx.recorded db).Rollback (d, log) =
      ((db.Rollback d).1,
        ((db.Rollback d).2, log ++ [(sqlx.Call.Rollback, .error (db.Rollback d).1)])) := rfl

theorem sqlx_recorded_QueryRowx {D : Type} (db : sqlx.DB D) (q : sqlx.Query)
    (args : List sqlx.Arg) (d : D) (log : List (sqlx.Call × sqlx.Answer)) :
    (sqlx.recorded db).QueryRowx q args (d, log) =
      ((db.QueryRowx q args d).1,
        ((db.QueryRowx q args d).2,
         log ++ [(sqlx.Call.QueryRowx q args, .row (db.QueryRowx q args d).1)])) := rfl

theorem sqlx_recorded_Queryx {D : Type} (db : sqlx.DB D) (q : sqlx.Query)
    (args : List sqlx.Arg) (d : D) (log : List (sqlx.Call × sqlx.Answer)) :
    (sqlx.recorded db).Queryx q args (d, log) =
      ((db.Queryx q args d).1,
        ((db.Queryx q args d).2,
         log ++ [(sqlx.Call.Queryx q args, .rows (db.Queryx q args d).1)])) := rfl

theorem sqlx_recorded_Exec {D : Type} (db : sqlx.DB D) (q : sqlx.Query)
    (args : List sqlx.Arg) (d : D) (log : List (sqlx.Call × sqlx.Answer)) :
    (sqlx.recorded db).Exec q args (d, log) =
      ((db.Exec q args d).1,
        ((db.Exec q args d).2,
         log ++ [(sqlx.Call.Exec q args, .result (db.Exec q args d).1)])) := rfl

theorem sqlx_scanAll_ok_fits {α : Type} (scan : sqlx.Record → Except GoError α)
    (q : sqlx.Query) (hfit : ∀ r v, scan r = .ok v → sqlx.fits q r = true)
    (rows : List sqlx.Record) :
    ∀ (acc out : Slice α), sqlx.scanAll scan rows acc = .ok out →
      rows.any (fun r => !sqlx.fits q r) = false := by
  induction rows with
  | nil => intro _ _ _; rfl
  | cons r rs ih =>
    intro acc out h
    simp only [sqlx.scanAll] at h
    cases hr : scan r with
    | error e => simp [hr] at h
    | ok v =>
      simp only [hr] at h
      simp only [List.any_cons, hfit r v hr, Bool.not_true, Bool.false_or]
      exact ih _ _ h

theorem actor_scanActor_fits (q : sqlx.Query)
    (hq : q = .actorUpdateActors ∨ q = .actorGetActors) (r : sqlx.Record) (v : actor.Actor)
    (h : actor.scanActor r = .ok v) : sqlx.fits q r = true := by
  cases r <;> simp [actor.scanActor] at h <;> rcases hq with hq | hq <;> subst hq <;> rfl

theorem film_scanFilm_fits (q : sqlx.Query)
    (hq : q = .actorGetActorFilms ∨ q = .filmCreateQuery ∨ q = .filmUpdateFilms ∨
      (∃ f o, q = .filmGetFilmsSearchFilm f o) ∨ (∃ f o, q = .filmGetFilmsSearchActor f o))
    (r : sqlx.Record) (v : film.Film) (h : film.scanFilm r = .ok v) :
    sqlx.fits q r = true := by
  cases r <;> simp [film.scanFilm] at h <;>
    rcases hq with hq | hq | hq | ⟨f, o, hq⟩ | ⟨f, o, hq⟩ <;> subst hq <;> rfl

theorem film_scanActor_fits (r : sqlx.Record) (v : film.Actor)
    (h : film.scanActor r = .ok v) : sqlx.fits .filmGetFilmActors r = true := by
  cases r <;> simp [film.scanActor] at h <;> rfl

theorem UpdateActor_discipline {D : Type} (db : sqlx.DB D) (upd : actor.UpdateActor)
    (d d1 : D) (h : db.Beginx d = (none, d1)) :
    sqlx.Discipline (actor.PostgresActor.UpdateActor (sqlx.recorded db) upd (d, [])).1.2
      (actor.PostgresActor.UpdateActor (sqlx.recorded db) upd (d, [])).2.2 := by
  rcases hq : db.QueryRowx .actorUpdateActors
      [.id upd.ID, .nullString (actor.getNullString upd.Name),
       .nullString (actor.getNullString upd.Sex),
       .nullTime (actor.nullBirthday upd.Birthday)] d1 with ⟨res, d2⟩
  simp only [actor.PostgresActor.UpdateActor, sqlx_recorded_Beginx, sqlx_recorded_QueryRowx,
    sqlx_recorded_Queryx, sqlx_recorded_Rollback, h, hq]
  cases hres : res.bind actor.scanActor with
  | error e =>
    by_cases hnr : errors.Is e .sqlErrNoRows = true <;>
      simp [hnr, sqlx.Discipline, sqlx_recorded_Rollback]
  | ok a =>
    obtain ⟨rec, hrec⟩ : ∃ rec, res = .ok rec := by
      cases res with
      | error e => simp [Except.bind] at hres
      | ok rec => exact ⟨rec, rfl⟩
    subst hrec
    have hfit : sqlx.fits .actorUpdateActors rec = true :=
      actor_scanActor_fits _ (Or.inl rfl) rec a (by simpa [Except.bind] using hres)
    rcases hqx : db.Queryx .actorGetActorFilms [.id upd.ID] d2 with ⟨r, d3⟩
    cases r with
    | error e => simp [sqlx.Discipline, sqlx_recorded_Rollback]
    | ok rows =>
      simp only []
      cases hscan : sqlx.scanAll film.scanFilm rows.rows none with
      | error e => simp [sqlx.Discipline, sqlx_recorded_Rollback]
      | ok films =>
        have hall := sqlx_scanAll_ok_fits film.scanFilm .actorGetActorFilms
          (film_scanFilm_fits _ (Or.inl rfl)) rows.rows none films hscan
        cases herr : rows.Err with
        | some e => simp [sqlx.Discipline, sqlx_recorded_Rollback]
        | none =>
          rcases hc : db.Commit d3 with ⟨ce, d4⟩
          cases ce with
          | none =>
            simp [sqlx.Discipline, sqlx.failed, sqlx_recorded_Commit, hc, hfit, herr, hall]
          | some e =>
            simp [sqlx.Discipline, sqlx.failed, sqlx_recorded_Commit, hc, hfit, herr, hall,
              errors.Wrap]

theorem getActors_recorded {D : Type} (db : sqlx.DB D) (filmId : types.Id) (d0 : D)
    (pre : List (sqlx.Call × sqlx.Answer)) :
    (film.getActors (sqlx.recorded db) filmId (d0, pre)).2 =
        ((db.Queryx .filmGetFilmActors [.id filmId] d0).2,
         pre ++ [(sqlx.Call.Queryx .filmGetFilmActors [.id filmId],
           .rows (db.Queryx .filmGetFilmActors [.id filmId] d0).1)]) ∧
    ((film.getActors (sqlx.recorded db) filmId (d0, pre)).1.2 = none →
      sqlx.failed (sqlx.Call.Queryx .filmGetFilmActors [.id filmId],
        .rows (db.Queryx .filmGetFilmActors [.id filmId] d0).1) = false) := by
  rcases hqx : db.Queryx .filmGetFilmActors [.id filmId] d0 with ⟨r, d1⟩
  simp only [film.getActors, sqlx_recorded_Queryx, hqx]
  cases r with
  | error e => simp
  | ok rows =>
    simp only []
    cases hscan : sqlx.scanAll film.scanActor rows.rows (some []) with
    | error e => simp
    | ok actors =>
      have hall := sqlx_scanAll_ok_fits film.scanActor .filmGetFilmActors
        film_scanActor_fits rows.rows (some []) actors hscan
      cases herr : rows.Err with
      | some e => simp
      | none => simp [sqlx.failed, herr, hall]

theorem CreateFilm_discipline {D : Type} (db : sqlx.DB D) (flm : film.Film)
    (actors : Slice types.Id) (d d1 : D) (h : db.Beginx d = (none, d1)) :
    sqlx.Discipline (film.PostgresFilm.CreateFilm (sqlx.recorded db) flm actors (d, [])).1.2
      (film.PostgresFilm.CreateFilm (sqlx.recorded db) flm actors (d, [])).2.2 := by
  rcases hq : db.QueryRowx .filmCreateQuery
      [.string flm.Name, .string flm.Description, .formattedTime flm.DataPublish,
       .rating flm.Rating] d1 with ⟨res, d2⟩
  simp only [film.PostgresFilm.CreateFilm, sqlx_recorded_Beginx, sqlx_recorded_QueryRowx,
    sqlx_recorded_Rollback, h, hq]
  cases hres : res.bind film.scanFilm with
  | error e => simp [sqlx.Discipline]
  | ok f =>
    obtain ⟨rec, hrec⟩ : ∃ rec, res = .ok rec := by
      cases res with
      | error e => simp [Except.bind] at hres
      | ok rec => exact ⟨rec, rfl⟩
    subst hrec
    have hfit : sqlx.fits .filmCreateQuery rec = true :=
      film_scanFilm_fits _ (Or.inr (Or.inl rfl)) rec f (by simpa [Except.bind] using hres)
    simp only []
    by_cases hlen : Slice.len actors = 0
    · simp only [hlen, ne_eq, not_true_eq_false, if_false]
      rcases hc : db.Commit d2 with ⟨ce, d3⟩
      cases ce with
      | none => simp [sqlx.Discipline, sqlx.failed, sqlx_recorded_Commit, hc, hfit]
      | some e =>
        simp [sqlx.Discipline, sqlx.failed, sqlx_recorded_Commit, hc, hfit, errors.Wrap]
    · simp only [hlen, ne_eq, not_false_eq_true, if_true]
      rcases hadd : db.Exec .filmAddActors [.id f.ID, .idArray actors] d2 with ⟨r, d3⟩
      simp only [sqlx_recorded_Exec, hadd]
      cases r with
      | error e => simp [sqlx.Discipline, sqlx_recorded_Rollback]
      | ok r1 =>
        simp only []
        have hrec := getActors_recorded db f.ID d3
          [(sqlx.Call.Beginx, sqlx.Answer.error none),
           (sqlx.Call.QueryRowx .filmCreateQuery
             [.string flm.Name, .string flm.Description, .formattedTime flm.DataPublish,
              .rating flm.Rating], sqlx.Answer.row (Except.ok rec)),
           (sqlx.Call.Exec .filmAddActors [.id f.ID, .idArray actors],
             sqlx.Answer.result (Except.ok r1))]
        simp only [List.nil_append, List.cons_append] at hrec ⊢
        split
        · rename_i fa err d5 heq
          rw [heq] at hrec
          obtain ⟨hst, _⟩ := hrec
          simp only at hst
          subst hst
          simp [sqlx.Discipline, sqlx_recorded_Rollback]
        · rename_i fa d5 heq
          rw [heq] at hrec
          obtain ⟨hst, hok⟩ := hrec
          simp only at hst
          subst hst
          have hok1 := hok rfl
          rcases hc : db.Commit (db.Queryx .filmGetFilmActors [.id f.ID] d3).2 with ⟨ce, d6⟩
          cases ce with
          | none =>
            simp [sqlx.Discipline, sqlx.failed, sqlx_recorded_Commit, hc, hfit] at hok1 ⊢
            exact hok1
          | some e =>
            simp [sqlx.Discipline, sqlx.failed, sqlx_recorded_Commit, hc, hfit,
              errors.Wrap] at hok1 ⊢
            exact hok1

theorem Discipline_rollback (e : GoError) (pre : List (sqlx.Call × sqlx.Answer))
    (a : sqlx.Answer) (hC : sqlx.Call.Commit ∉ pre.map Prod.fst) :
    sqlx.Discipline (some e) (pre ++ [(sqlx.Call.Rollback, a)]) := by
  simp only [List.mem_map, not_exists, not_and] at hC
  refine ⟨fun _ => ⟨by simp, by simp, ?_⟩, ?_, ?_⟩
  · simp only [List.map_append, List.mem_append, List.mem_map, not_or, not_exists, not_and]
    exact ⟨fun c hc => hC c hc, by simp⟩
  · simp only [List.map_append, List.mem_append, List.mem_map, not_and]
    intro hcm
    rcases hcm with ⟨c, hc, hcc⟩ | hcm
    · exact absurd hcc (hC c hc)
    · simp at hcm
  · intro e1 he
    simp only [List.mem_append, List.mem_singleton, Prod.mk.injEq] at he
    rcases he with he | he
    · exact absurd rfl (hC _ he)
    · simp at he

theorem Discipline_commit (err : Option GoError) (ce : Option GoError)
    (pre : List (sqlx.Call × sqlx.Answer))
    (hC : sqlx.Call.Commit ∉ pre.map Prod.fst) (hR : sqlx.Call.Rollback ∉ pre.map Prod.fst)
    (hF : ∀ c ∈ pre, sqlx.failed c = false)
    (herr : ∀ e, ce = some e → ∃ msg, err = some (errors.Wrap e msg)) :
    sqlx.Discipline err (pre ++ [(sqlx.Call.Commit, sqlx.Answer.error ce)]) := by
  simp only [List.mem_map, not_exists, not_and] at hC hR
  refine ⟨fun ⟨c, hcm, hcf⟩ => ?_, fun hboth => ?_, ?_⟩
  · simp only [List.mem_append, List.mem_singleton] at hcm
    rcases hcm with hcm | hcm
    · rw [hF c hcm] at hcf
      exact absurd hcf (by decide)
    · rw [hcm] at hcf
      simp [sqlx.failed] at hcf
  · have hr := hboth.2
    simp only [List.map_append, List.mem_append, List.mem_map] at hr
    rcases hr with ⟨c, hc, hcc⟩ | hr
    · exact absurd hcc (hR c hc)
    · simp at hr
  · intro e he
    simp only [List.mem_append, List.mem_singleton, Prod.mk.injEq] at he
    rcases he with he | he
    · exact absurd rfl (hC _ he)
    · simp only [true_and, sqlx.Answer.error.injEq] at he
      exact herr e he.symm

theorem UpdateFilm_discipline {D : Type} (db : sqlx.DB D) (upd : film.UpdateFilm)
    (d d1 : D) (h : db.Beginx d = (none, d1)) :
    sqlx.Discipline (film.PostgresFilm.UpdateFilm (sqlx.recorded db) upd (d, [])).1.2
      (film.PostgresFilm.UpdateFilm (sqlx.recorded db) upd (d, [])).2.2 := by
  rcases hq : db.QueryRowx .filmUpdateFilms
      [.id upd.ID, .nullOfString (film.getNull upd.Name),
       .nullOfString (film.getNull upd.Description),
       .nullTime (film.nullPublishDate upd.DataPublish),
       .nullInt64 (film.nullRating upd.Rating)] d1 with ⟨res, d2⟩
  simp only [film.PostgresFilm.UpdateFilm, sqlx_recorded_Beginx, sqlx_recorded_QueryRowx, h, hq]
  cases hres : res.bind film.scanFilm with
  | error e =>
    by_cases hnr : errors.Is e .sqlErrNoRows = true <;>
      simp [hnr, sqlx.Discipline, sqlx_recorded_Rollback]
  | ok f =>
    obtain ⟨rec, hrec⟩ : ∃ rec, res = .ok rec := by
      cases res with
      | error e => simp [Except.bind] at hres
      | ok rec => exact ⟨rec, rfl⟩
    subst hrec
    have hfit : sqlx.fits .filmUpdateFilms rec = true :=
      film_scanFilm_fits _ (Or.inr (Or.inr (Or.inl rfl))) rec f
        (by simpa [Except.bind] using hres)
    simp only []
    by_cases hu : upd.UpdateActors = true
    · simp only [hu, if_true]
      rcases hdel : db.Exec .filmDeleteActors [.id f.ID] d2 with ⟨r, d3⟩
      simp only [sqlx_recorded_Exec, hdel]
      cases r with
      | error e => simp [sqlx.Discipline, sqlx_recorded_Rollback]
      | ok r1 =>
        simp only []
        by_cases hlen : Slice.len upd.Actors = 0
        · simp only [hlen, ne_eq, not_true_eq_false, if_false]
          have hrec := getActors_recorded db f.ID d3
            ([] ++ [(sqlx.Call.Beginx, sqlx.Answer.error none)] ++ [(sqlx.Call.QueryRowx .filmUpdateFilms
                [.id upd.ID, .nullOfString (film.getNull upd.Name),
                 .nullOfString (film.getNull upd.Description),
                 .nullTime (film.nullPublishDate upd.DataPublish),
                 .nullInt64 (film.nullRating upd.Rating)], sqlx.Answer.row (Except.ok rec))] ++ [(sqlx.Call.Exec .filmDeleteActors [.id f.ID], sqlx.Answer.result (Except.ok r1))])
          split
          · rename_i fa err d5 heq
            rw [heq] at hrec
            obtain ⟨hst, _⟩ := hrec
            simp only at hst
            subst hst
            simp only [sqlx_recorded_Rollback]
            exact Discipline_rollback _ _ _ (by simp)
          · rename_i fa d5 heq
            rw [heq] at hrec
            obtain ⟨hst, hok⟩ := hrec
            simp only at hst
            subst hst
            have hok1 := hok rfl
            rcases hc : db.Commit (db.Queryx .filmGetFilmActors [.id f.ID] d3).2 with ⟨ce, d6⟩
            simp only [sqlx_recorded_Commit, hc]
            have hF : ∀ c ∈ ([] ++ [(sqlx.Call.Beginx, sqlx.Answer.error none)] ++ [(sqlx.Call.QueryRowx .filmUpdateFilms
                [.id upd.ID, .nullOfString (film.getNull upd.Name),
                 .nullOfString (film.getNull upd.Description),
                 .nullTime (film.nullPublishDate upd.DataPublish),
                 .nullInt64 (film.nullRating upd.Rating)], sqlx.Answer.row (Except.ok rec))] ++ [(sqlx.Call.Exec .filmDeleteActors [.id f.ID], sqlx.Answer.result (Except.ok r1))]) ++
                [(sqlx.Call.Queryx .filmGetFilmActors [.id f.ID],
                  sqlx.Answer.rows (db.Queryx .filmGetFilmActors [.id f.ID] d3).1)],
                sqlx.failed c = false :=
              List.forall_mem_append.mpr ⟨by simp [sqlx.failed, hfit], by simpa using hok1⟩
            cases ce with
            | none => exact Discipline_commit _ _ _ (by simp) (by simp) hF (by simp)
            | some e => exact Discipline_commit _ _ _ (by simp) (by simp) hF (fun e1 he => ⟨_, by cases he; rfl⟩)
        · simp only [hlen, ne_eq, not_false_eq_true, if_true]
          rcases hadd : db.Exec .filmAddActors [.id f.ID, .idArray upd.Actors] d3 with ⟨r, d4⟩
          simp only [sqlx_recorded_Exec, hadd]
          cases r with
          | error e => simp [sqlx.Discipline, sqlx_recorded_Rollback]
          | ok r2 =>
            simp only []
            have hrec := getActors_recorded db f.ID d4
              ([] ++ [(sqlx.Call.Beginx, sqlx.Answer.error none)] ++ [(sqlx.Call.QueryRowx .filmUpdateFilms
                  [.id upd.ID, .nullOfString (film.getNull upd.Name),
                   .nullOfString (film.getNull upd.Description),
                   .nullTime (film.nullPublishDate upd.DataPublish),
                   .nullInt64 (film.nullRating upd.Rating)], sqlx.Answer.row (Except.ok rec))] ++ [(sqlx.Call.Exec .filmDeleteActors [.id f.ID], sqlx.Answer.result (Except.ok r1))] ++ [(sqlx.Call.Exec .filmAddActors [.id f.ID, .idArray upd.Actors], sqlx.Answer.result (Except.ok r2))])
            split
            · rename_i fa err d5 heq
              rw [heq] at hrec
              obtain ⟨hst, _⟩ := hrec
              simp only at hst
              subst hst
              simp only [sqlx_recorded_Rollback]
              exact Discipline_rollback _ _ _ (by simp)
            · rename_i fa d5 heq
              rw [heq] at hrec
              obtain ⟨hst, hok⟩ := hrec
              simp only at hst
              subst hst
              have hok1 := hok rfl
              rcases hc : db.Commit (db.Queryx .filmGetFilmActors [.id f.ID] d4).2 with ⟨ce, d6⟩
              simp only [sqlx_recorded_Commit, hc]
              have hF : ∀ c ∈ ([] ++ [(sqlx.Call.Beginx, sqlx.Answer.error none)] ++ [(sqlx.Call.QueryRowx .filmUpdateFilms
                  [.id upd.ID, .nullOfString (film.getNull upd.Name),
                   .nullOfString (film.getNull upd.Description),
                   .nullTime (film.nullPublishDate upd.DataPublish),
                   .nullInt64 (film.nullRating upd.Rating)], sqlx.Answer.row (Except.ok rec))] ++ [(sqlx.Call.Exec .filmDeleteActors [.id f.ID], sqlx.Answer.result (Except.ok r1))] ++ [(sqlx.Call.Exec .filmAddActors [.id f.ID, .idArray upd.Actors], sqlx.Answer.result (Except.ok r2))]) ++
                  [(sqlx.Call.Queryx .filmGetFilmActors [.id f.ID],
                    sqlx.Answer.rows (db.Queryx .filmGetFilmActors [.id f.ID] d4).1)],
                  sqlx.failed c = false :=
                List.forall_mem_append.mpr ⟨by simp [sqlx.failed, hfit], by simpa using hok1⟩
              cases ce with
              | none => exact Discipline_commit _ _ _ (by simp) (by simp) hF (by simp)
              | some e => exact Discipline_commit _ _ _ (by simp) (by simp) hF (fun e1 he => ⟨_, by cases he; rfl⟩)
    · have hu2 : upd.UpdateActors = false := by simpa using hu
      simp only [hu2, Bool.false_eq_true, if_false]
      have hrec := getActors_recorded db f.ID d2
        ([] ++ [(sqlx.Call.Beginx, sqlx.Answer.error none)] ++ [(sqlx.Call.QueryRowx .filmUpdateFilms
            [.id upd.ID, .nullOfString (film.getNull upd.Name),
             .nullOfString (film.getNull upd.Description),
             .nullTime (film.nullPublishDate upd.DataPublish),
             .nullInt64 (film.nullRating upd.Rating)], sqlx.Answer.row (Except.ok rec))])
      split
      · rename_i fa err d5 heq
        rw [heq] at hrec
        obtain ⟨hst, _⟩ := hrec
        simp only at hst
        subst hst
        simp only [sqlx_recorded_Rollback]
        exact Discipline_rollback _ _ _ (by simp)
      · rename_i fa d5 heq
        rw [heq] at hrec
        obtain ⟨hst, hok⟩ := hrec
        simp only at hst
        subst hst
        have hok1 := hok rfl
        rcases hc : db.Commit (db.Queryx .filmGetFilmActors [.id f.ID] d2).2 with ⟨ce, d6⟩
        simp only [sqlx_recorded_Commit, hc]
        have hF : ∀ c ∈ ([] ++ [(sqlx.Call.Beginx, sqlx.Answer.error none)] ++ [(sqlx.Call.QueryRowx .filmUpdateFilms
            [.id upd.ID, .nullOfString (film.getNull upd.Name),
             .nullOfString (film.getNull upd.Description),
             .nullTime (film.nullPublishDate upd.DataPublish),
             .nullInt64 (film.nullRating upd.Rating)], sqlx.Answer.row (Except.ok rec))]) ++
            [(sqlx.Call.Queryx .filmGetFilmActors [.id f.ID],
              sqlx.Answer.rows (db.Queryx .filmGetFilmActors [.id f.ID] d2).1)],
            sqlx.failed c = false :=
          List.forall_mem_append.mpr ⟨by simp [sqlx.failed, hfit], by simpa using hok1⟩
        cases ce with
        | none => exact Discipline_commit _ _ _ (by simp) (by simp) hF (by simp)
        | some e => exact Discipline_commit _ _ _ (by simp) (by simp) hF (fun e1 he => ⟨_, by cases he; rfl⟩)

theorem actor_scanActorFilm_fits (r : sqlx.Record) (v : types.Id × film.Film)
    (h : actor.scanActorFilm r = .ok v) : sqlx.fits .actorGetActorsFilms r = true := by
  cases r <;> simp [actor.scanActorFilm] at h <;> rfl

theorem film_scanFilmActor_fits (n : Nat) (r : sqlx.Record) (v : types.Id × film.Actor)
    (h : film.scanFilmActor r = .ok v) : sqlx.fits (.filmGetFilmsActorsIn n) r = true := by
  cases r <;> simp [film.scanFilmActor] at h <;> rfl

theorem GetActors_scanActors_fits (rows : List sqlx.Record) :
    ∀ (actors : List actor.ActorWithFilms) (ids : IndexMap) (i : Nat)
      (out : List actor.ActorWithFilms × IndexMap),
      actor.GetActors.scanActors rows actors ids i = .ok out →
      rows.any (fun r => !sqlx.fits .actorGetActors r) = false := by
  induction rows with
  | nil => intro _ _ _ _ _; rfl
  | cons r rs ih =>
    intro actors ids i out h
    simp only [actor.GetActors.scanActors] at h
    cases hr : actor.scanActor r with
    | error e => simp [hr] at h
    | ok v =>
      simp only [hr] at h
      simp only [List.any_cons, actor_scanActor_fits _ (Or.inr rfl) r v hr, Bool.not_true,
        Bool.false_or]
      exact ih _ _ _ _ h

theorem GetActors_groupFilms_fits (rows : List sqlx.Record) :
    ∀ (actors : List actor.ActorWithFilms) (ids : IndexMap)
      (out : List actor.ActorWithFilms),
      actor.GetActors.groupFilms rows actors ids = .done out →
      rows.any (fun r => !sqlx.fits .actorGetActorsFilms r) = false := by
  induction rows with
  | nil => intro _ _ _ _; rfl
  | cons r rs ih =>
    intro actors ids out h
    simp only [actor.GetActors.groupFilms] at h
    cases hr : actor.scanActorFilm r with
    | error e => simp [hr] at h
    | ok v =>
      obtain ⟨actorId, flm⟩ := v
      simp only [hr] at h
      cases hidx : actors[IndexMap.get ids actorId]? with
      | none => simp [hidx] at h
      | some a =>
        simp only [hidx] at h
        simp only [List.any_cons, actor_scanActorFilm_fits r _ hr, Bool.not_true,
          Bool.false_or]
        exact ih _ _ _ h

theorem GetFilms_scanFilms_fits (q : sqlx.Query)
    (hq : (∃ f o, q = .filmGetFilmsSearchFilm f o) ∨ (∃ f o, q = .filmGetFilmsSearchActor f o))
    (rows : List sqlx.Record) :
    ∀ (films : List film.FilmWithActors) (idx : IndexMap) (ids : List types.Id) (i : Nat)
      (out : List film.FilmWithActors × IndexMap × List types.Id),
      film.GetFilms.scanFilms rows films idx ids i = .ok out →
      rows.any (fun r => !sqlx.fits q r) = false := by
  induction rows with
  | nil => intro _ _ _ _ _ _; rfl
  | cons r rs ih =>
    intro films idx ids i out h
    simp only [film.GetFilms.scanFilms] at h
    cases hr : film.scanFilm r with
    | error e => simp [hr] at h
    | ok v =>
      simp only [hr] at h
      simp only [List.any_cons,
        film_scanFilm_fits q (Or.inr (Or.inr (Or.inr hq))) r v hr, Bool.not_true,
        Bool.false_or]
      exact ih _ _ _ _ _ h

theorem GetFilms_groupActors_fits (n : Nat) (rows : List sqlx.Record) :
    ∀ (films : List film.FilmWithActors) (idx : IndexMap) (out : List film.FilmWithActors),
      film.GetFilms.groupActors rows films idx = .done out →
      rows.any (fun r => !sqlx.fits (.filmGetFilmsActorsIn n) r) = false := by
  induction rows with
  | nil => intro _ _ _ _; rfl
  | cons r rs ih =>
    intro films idx out h
    simp only [film.GetFilms.groupActors] at h
    cases hr : film.scanFilmActor r with
    | error e => simp [hr] at h
    | ok v =>
      obtain ⟨filmId, act⟩ := v
      simp only [hr] at h
      cases hidx : films[IndexMap.get idx filmId]? with
      | none => simp [hidx] at h
      | some a =>
        simp only [hidx] at h
        simp only [List.any_cons, film_scanFilmActor_fits n r _ hr, Bool.not_true,
          Bool.false_or]
        exact ih _ _ _ h

theorem GetFilms_preparedQuery_cases (params : film.Params) :
    (∃ f o, film.GetFilms.preparedQuery params = .filmGetFilmsSearchFilm f o) ∨
      (∃ f o, film.GetFilms.preparedQuery params = .filmGetFilmsSearchActor f o) := by
  unfold film.GetFilms.preparedQuery
  split
  · exact Or.inr ⟨_, _, rfl⟩
  · exact Or.inl ⟨_, _, rfl⟩

theorem sqlx_In_filmGetFilmsActors (ids : List types.Id) (q : sqlx.Query)
    (args : List sqlx.Arg) (h : sqlx.In .filmGetFilmsActors ids = .ok (q, args)) :
    q = .filmGetFilmsActorsIn ids.length := by
  simp only [sqlx.In] at h
  split at h
  · simp at h
  · simp only [Except.ok.injEq, Prod.mk.injEq] at h
    exact h.1.symm

theorem GetActors_discipline {D : Type} (db : sqlx.DB D) (d d1 : D)
    (h : db.Beginx d = (none, d1)) :
    sqlx.DisciplineOf (actor.PostgresActor.GetActors (sqlx.recorded db) (d, [])).1
      (actor.PostgresActor.GetActors (sqlx.recorded db) (d, [])).2.2 := by
  rcases hq1 : db.Queryx .actorGetActors [] d1 with ⟨r1, d2⟩
  simp only [actor.PostgresActor.GetActors, sqlx_recorded_Beginx, sqlx_recorded_Queryx, h, hq1]
  cases r1 with
  | error e => simp [sqlx.DisciplineOf, sqlx.Discipline, sqlx_recorded_Rollback]
  | ok rows =>
    simp only []
    cases hs : actor.GetActors.scanActors rows.rows [] [] 0 with
    | error e => simp [sqlx.DisciplineOf, sqlx.Discipline, sqlx_recorded_Rollback]
    | ok out =>
      obtain ⟨actors, ids⟩ := out
      have hall1 := GetActors_scanActors_fits rows.rows _ _ _ _ hs
      simp only []
      cases herr : rows.Err with
      | some e => simp [sqlx.DisciplineOf, sqlx.Discipline, sqlx_recorded_Rollback]
      | none =>
        simp only []
        rcases hq2 : db.Queryx .actorGetActorsFilms [] d2 with ⟨r2, d3⟩
        simp only [List.nil_append, List.cons_append, sqlx_recorded_Queryx, hq2]
        cases r2 with
        | error e => simp [sqlx.DisciplineOf, sqlx.Discipline, sqlx_recorded_Rollback]
        | ok rows2 =>
          simp only []
          cases hg : actor.GetActors.groupFilms rows2.rows actors ids with
          | panic p => simp [sqlx.DisciplineOf]
          | fail e => simp [sqlx.DisciplineOf, sqlx.Discipline, sqlx_recorded_Rollback]
          | done grouped =>
            have hall2 := GetActors_groupFilms_fits rows2.rows _ _ _ hg
            simp only []
            cases herr2 : rows2.Err with
            | some e => simp [sqlx.DisciplineOf, sqlx.Discipline, sqlx_recorded_Rollback]
            | none =>
              simp only []
              rcases hc : db.Commit d3 with ⟨ce, d4⟩
              simp only [sqlx_recorded_Commit, hc]
              cases ce with
              | none =>
                simp only [sqlx.DisciplineOf]
                exact Discipline_commit _ _ _ (by simp) (by simp)
                  (by simp [sqlx.failed, herr, herr2, hall1, hall2]) (by simp)
              | some e =>
                simp only [sqlx.DisciplineOf]
                exact Discipline_commit _ _ _ (by simp) (by simp)
                  (by simp [sqlx.failed, herr, herr2, hall1, hall2])
                  (fun e1 he => ⟨_, by cases he; rfl⟩)

theorem GetFilms_discipline {D : Type} (db : sqlx.DB D) (params : film.Params) (d d1 : D)
    (h : db.Beginx d = (none, d1)) :
    sqlx.DisciplineOf (film.PostgresFilm.GetFilms (sqlx.recorded db) params (d, [])).1
      (film.PostgresFilm.GetFilms (sqlx.recorded db) params (d, [])).2.2 := by
  rcases hq1 : db.Queryx (film.GetFilms.preparedQuery params)
      [.string (film.GetFilms.searchString params)] d1 with ⟨r1, d2⟩
  simp only [film.PostgresFilm.GetFilms, sqlx_recorded_Beginx, sqlx_recorded_Queryx, h, hq1]
  cases r1 with
  | error e => simp [sqlx.DisciplineOf, sqlx.Discipline, sqlx_recorded_Rollback]
  | ok rows =>
    simp only []
    cases hs : film.GetFilms.scanFilms rows.rows [] [] [] 0 with
    | error e => simp [sqlx.DisciplineOf, sqlx.Discipline, sqlx_recorded_Rollback]
    | ok out =>
      obtain ⟨films, idx, ids⟩ := out
      have hall1 := GetFilms_scanFilms_fits _ (GetFilms_preparedQuery_cases params)
        rows.rows _ _ _ _ _ hs
      simp only []
      cases herr : rows.Err with
      | some e => simp [sqlx.DisciplineOf, sqlx.Discipline, sqlx_recorded_Rollback]
      | none =>
        simp only []
        by_cases hlen : films.length = 0
        · simp only [hlen, if_true]
          rcases hc : db.Commit d2 with ⟨ce, d3⟩
          simp only [sqlx_recorded_Commit, hc]
          cases ce with
          | none =>
            simp only [sqlx.DisciplineOf]
            exact Discipline_commit _ _ _ (by simp) (by simp)
              (by simp [sqlx.failed, herr, hall1]) (by simp)
          | some e =>
            simp only [sqlx.DisciplineOf]
            exact Discipline_commit _ _ _ (by simp) (by simp)
              (by simp [sqlx.failed, herr, hall1])
              (fun e1 he => ⟨_, by cases he; rfl⟩)
        · simp only [hlen, if_false]
          cases hin : sqlx.In .filmGetFilmsActors ids with
          | error e => simp [sqlx.DisciplineOf, sqlx.Discipline, sqlx_recorded_Rollback]
          | ok qa =>
            obtain ⟨q, args⟩ := qa
            have hqe := sqlx_In_filmGetFilmsActors ids q args hin
            subst hqe
            simp only []
            rcases hq2 : db.Queryx (sqlx.Rebind (.filmGetFilmsActorsIn ids.length)) args d2
              with ⟨r2, d3⟩
            simp only [List.nil_append, List.cons_append, sqlx_recorded_Queryx, hq2]
            cases r2 with
            | error e => simp [sqlx.DisciplineOf, sqlx.Discipline, sqlx_recorded_Rollback]
            | ok rows2 =>
              simp only []
              cases hg : film.GetFilms.groupActors rows2.rows films idx with
              | panic p => simp [sqlx.DisciplineOf]
              | fail e => simp [sqlx.DisciplineOf, sqlx.Discipline, sqlx_recorded_Rollback]
              | done grouped =>
                have hall2 := GetFilms_groupActors_fits ids.length rows2.rows _ _ _ hg
                simp only []
                cases herr2 : rows2.Err with
                | some e => simp [sqlx.DisciplineOf, sqlx.Discipline, sqlx_recorded_Rollback]
                | none =>
                  simp only []
                  rcases hc : db.Commit d3 with ⟨ce, d4⟩
                  simp only [sqlx_recorded_Commit, hc]
                  cases ce with
                  | none =>
                    simp only [sqlx.DisciplineOf]
                    exact Discipline_commit _ _ _ (by simp) (by simp)
                      (by simp [sqlx.failed, sqlx.Rebind, herr, herr2, hall1, hall2]) (by simp)
                  | some e =>
                    simp only [sqlx.DisciplineOf]
                    exact Discipline_commit _ _ _ (by simp) (by simp)
                      (by simp [sqlx.failed, sqlx.Rebind, herr, herr2, hall1, hall2])
                      (fun e1 he => ⟨_, by cases he; rfl⟩)

/-- C15: after `Begin` succeeded, each of `UpdateActor`, `GetActors`,
`CreateFilm`, `UpdateFilm` and `GetFilms`, on every handle and every input,
keeps the transaction discipline on the log of its calls and their answers: if
a statement answered an error, a row did not scan or the iteration over rows
ended with an error, the call returns an error, its last call on the handle is
`Rollback` and `Commit` is not issued; `Commit` and `Rollback` are never both
issued; and when `Commit` answers an error `e` the call returns an error
wrapping `e`.  A run of `GetActors` or `GetFilms` that panics returns nothing
and issues neither. -/
theorem C15_rollback_discipline {D : Type} (db : sqlx.DB D) (d d1 : D)
    (h : db.Beginx d = (none, d1)) :
    (∀ upd : actor.UpdateActor,
      sqlx.Discipline (actor.PostgresActor.UpdateActor (sqlx.recorded db) upd (d, [])).1.2
        (actor.PostgresActor.UpdateActor (sqlx.recorded db) upd (d, [])).2.2) ∧
    sqlx.DisciplineOf (actor.PostgresActor.GetActors (sqlx.recorded db) (d, [])).1
      (actor.PostgresActor.GetActors (sqlx.recorded db) (d, [])).2.2 ∧
    (∀ (flm : film.Film) (actors : Slice types.Id),
      sqlx.Discipline (film.PostgresFilm.CreateFilm (sqlx.recorded db) flm actors (d, [])).1.2
        (film.PostgresFilm.CreateFilm (sqlx.recorded db) flm actors (d, [])).2.2) ∧
    (∀ upd : film.UpdateFilm,
      sqlx.Discipline (film.PostgresFilm.UpdateFilm (sqlx.recorded db) upd (d, [])).1.2
        (film.PostgresFilm.UpdateFilm (sqlx.recorded db) upd (d, [])).2.2) ∧
    (∀ params : film.Params,
      sqlx.DisciplineOf (film.PostgresFilm.GetFilms (sqlx.recorded db) params (d, [])).1
        (film.PostgresFilm.GetFilms (sqlx.recorded db) params (d, [])).2.2) :=
  ⟨fun upd => UpdateActor_discipline db upd d d1 h,
   GetActors_discipline db d d1 h,
   fun flm actors => CreateFilm_discipline db flm actors d d1 h,
   fun upd => UpdateFilm_discipline db upd d d1 h,
   fun params => GetFilms_discipline db params d d1 h⟩

/-- Witness of C15 on the sample data: `CreateFilm` with actors 1 and 9, where
actor 9 has no row in `actors`, so that the insert of the associations fails:
the call returns an error, its last call is `Rollback` and it issues no
`Commit`. -/
theorem C15_rollback_discipline_witness :
    pg.DB.Beginx sample.db =
      (none, { committed := sample.tables, tx := some sample.tables, films_id_seq := 1 }) ∧
    (∃ c ∈ (film.PostgresFilm.CreateFilm (sqlx.recorded pg.DB) sample.arrival (some [1, 9])
        (sample.db, [])).2.2, sqlx.failed c = true) ∧
    (film.PostgresFilm.CreateFilm (sqlx.recorded pg.DB) sample.arrival (some [1, 9])
        (sample.db, [])).1.2 ≠ none ∧
    ((film.PostgresFilm.CreateFilm (sqlx.recorded pg.DB) sample.arrival (some [1, 9])
        (sample.db, [])).2.2.getLast?.map Prod.fst = some sqlx.Call.Rollback) ∧
    sqlx.Call.Commit ∉ ((film.PostgresFilm.CreateFilm (sqlx.recorded pg.DB) sample.arrival
        (some [1, 9]) (sample.db, [])).2.2.map Prod.fst) :=
  ⟨by decide, by decide,
   ((C15_rollback_discipline pg.DB sample.db
      { committed := sample.tables, tx := some sample.tables, films_id_seq := 1 }
      (by decide)).2.2.1 sample.arrival (some [1, 9])).1 (by decide)⟩

/-! ## Grouping of `GetFilms` -/

/-- C14 fails on the sample data, where film 1 has the actors 1 and 2: for a
search by actor the first query, the join `getFilmsSearchActor`, answers the
row of film 1 once per actor, the second query answers the pair rows
`(1, actor 1)` and `(1, actor 2)`, every step succeeds, and `GetFilms` returns
film 1 twice, the first time with an empty actor list although both pair rows
carry its id. -/
theorem C14_GetFilms_repeated_film_row :
    film.PostgresFilm.GetFilms (sqlx.recorded pg.DB) sample.byActor (sample.db, []) =
      (.ok (some [{ ID := 1, Name := "Dune", Description := "sand",
                    DataPublish := { Time := 20210903 }, Rating := 8, Actors := some [] },
                  { ID := 1, Name := "Dune", Description := "sand",
                    DataPublish := { Time := 20210903 }, Rating := 8,
                    Actors := some
                      [{ ID := 1, Name := "Timothee", Sex := "male",
                         Birthday := { Time := 20020212 } },
                       { ID := 2, Name := "Zendaya", Sex := "female",
                         Birthday := { Time := 19960901 } }] }], none),
        (sample.db,
         [(sqlx.Call.Beginx, sqlx.Answer.error none),
          (sqlx.Call.Queryx (.filmGetFilmsSearchActor "rating" "DESC") [.string ""],
            sqlx.Answer.rows (.ok
              { rows := [.film 1 "Dune" "sand" 20210903 8, .film 1 "Dune" "sand" 20210903 8],
                Err := none })),
          (sqlx.Call.Queryx (.filmGetFilmsActorsIn 2) [.id 1, .id 1],
            sqlx.Answer.rows (.ok
              { rows := [.filmActor 1 1 "Timothee" "male" 20020212,
                         .filmActor 1 2 "Zendaya" "female" 19960901],
                Err := none })),
          (sqlx.Call.Commit, sqlx.Answer.error none)])) := by
  decide

/-! ## The Redis session repository -/

theorem redis_find_elapse_none (token : String) (dt : time.Duration) (s : List redis.Entry)
    (h : ∀ e ∈ s, e.key = token → e.ttl ≤ dt) :
    (redis.elapse dt s).find? (fun e => e.key = token) = none := by
  simp only [redis.elapse, List.find?_eq_none, List.mem_map, List.mem_filter,
    decide_eq_true_eq]
  rintro x ⟨e, ⟨he, hlt⟩, rfl⟩ hk
  exact absurd (h e he hk) (not_le.mpr hlt)

/-- C16: `RedisSession.GetUserId(token, ttl)` over every client, with the
commands it sends logged.  If `Get` answers an error that is `redis.Nil` (the key
is absent), the call returns id 0 and `ErrorNoSession` wrapped, an error that is
`ErrorNoSession`, and sends no `Expire`.  If `Get` answers the user id `u`, the
call sends `Expire(token, ttl)`; when that succeeds it returns `u` and a nil
error, and when that fails with `e` it returns id 0 and `e` wrapped.  On the
key-value engine: a token without entry fails with `ErrorNoSession` and leaves
the store as it is; a token with an entry returns its user id and leaves every
entry of the token with `ttl` to live; and after a time that uses up the time
left of every entry of the token, the call fails with `ErrorNoSession`. -/
theorem C16_RedisSession_GetUserId {R : Type} (client : redis.Client R) (token : String)
    (ttl : time.Duration) (r : R) :
    (∀ (v : Nat) (e : GoError) (r1 : R), client.GetUint64 token r = ((v, some e), r1) →
      errors.Is e .redisNil = true →
      session.RedisSession.GetUserId (redis.traced client) token ttl (r, []) =
        ((0, some (errors.Wrap session.ErrorNoSession
          ("error when try found session with sessionId: " ++ token))),
         (r1, [redis.Call.Get token])) ∧
      errors.Is (errors.Wrap session.ErrorNoSession
        ("error when try found session with sessionId: " ++ token)) .noSession = true) ∧
    (∀ (u : Nat) (r1 r2 : R), client.GetUint64 token r = ((u, none), r1) →
      client.Expire token ttl r1 = (none, r2) →
      session.RedisSession.GetUserId (redis.traced client) token ttl (r, []) =
        ((u, none), (r2, [redis.Call.Get token, redis.Call.Expire token ttl]))) ∧
    (∀ (u : Nat) (e : GoError) (r1 r2 : R), client.GetUint64 token r = ((u, none), r1) →
      client.Expire token ttl r1 = (some e, r2) →
      session.RedisSession.GetUserId (redis.traced client) token ttl (r, []) =
        ((0, some (errors.Wrap e
          ("error when try update expired time with sessionId: " ++ token))),
         (r2, [redis.Call.Get token, redis.Call.Expire token ttl]))) ∧
    (∀ s : List redis.Entry, s.find? (fun x => x.key = token) = none →
      session.RedisSession.GetUserId redis.memClient token ttl s =
        ((0, some (errors.Wrap session.ErrorNoSession
          ("error when try found session with sessionId: " ++ token))), s)) ∧
    (∀ (s : List redis.Entry) (ent : redis.Entry),
      s.find? (fun x => x.key = token) = some ent →
      session.RedisSession.GetUserId redis.memClient token ttl s =
        ((ent.value, none),
         s.map (fun x => if x.key = token then { x with ttl := ttl } else x)) ∧
      ∀ x ∈ (session.RedisSession.GetUserId redis.memClient token ttl s).2,
        x.key = token → x.ttl = ttl) ∧
    (∀ (s : List redis.Entry) (dt : time.Duration),
      (∀ x ∈ s, x.key = token → x.ttl ≤ dt) →
      session.RedisSession.GetUserId redis.memClient token ttl (redis.elapse dt s) =
        ((0, some (errors.Wrap session.ErrorNoSession
          ("error when try found session with sessionId: " ++ token))),
         redis.elapse dt s)) := by
  refine ⟨?_, ?_, ?_, ?_, ?_, ?_⟩
  · intro v e r1 hget hnil
    refine ⟨?_, rfl⟩
    simp [session.RedisSession.GetUserId, redis.traced, hget, hnil]
  · intro u r1 r2 hget hexp
    simp [session.RedisSession.GetUserId, redis.traced, hget, hexp]
  · intro u e r1 r2 hget hexp
    simp [session.RedisSession.GetUserId, redis.traced, hget, hexp]
  · intro s hnone
    simp only [session.RedisSession.GetUserId, redis.memClient, hnone]
    rfl
  · intro s ent hsome
    have heq : session.RedisSession.GetUserId redis.memClient token ttl s =
        ((ent.value, none),
         s.map (fun x => if x.key = token then { x with ttl := ttl } else x)) := by
      simp only [session.RedisSession.GetUserId, redis.memClient, hsome]
    refine ⟨heq, ?_⟩
    rw [heq]
    intro x hx hk
    simp only [List.mem_map] at hx
    obtain ⟨y, _, hy⟩ := hx
    by_cases hyk : y.key = token
    · simp only [hyk, if_true] at hy
      rw [← hy]
    · simp only [hyk, if_false] at hy
      rw [hy] at hyk
      exact absurd hk hyk
  · intro s dt hall
    simp only [session.RedisSession.GetUserId, redis.memClient,
      redis_find_elapse_none token dt s hall]
    rfl

/-- Witness of C16 on the sample store: token `t1` maps to user 1, token `t0`
has no entry, and after 48 hours the entry of `t1` is expired. -/
theorem C16_RedisSession_GetUserId_witness :
    session.RedisSession.GetUserId redis.memClient "t1" (2 * time.Hour) sample.store =
      ((1, none),
       [{ key := "t1", value := 1, ttl := 2 * time.Hour },
        { key := "t7", value := 7, ttl := auth.ExpiredSessionTime }]) ∧
    session.RedisSession.GetUserId redis.memClient "t1" (2 * time.Hour)
        (redis.elapse auth.ExpiredSessionTime sample.store) =
      ((0, some (errors.Wrap session.ErrorNoSession
        "error when try found session with sessionId: t1")), []) :=
  ⟨((C16_RedisSession_GetUserId redis.memClient "t1" (2 * time.Hour)
      sample.store).2.2.2.2.1 sample.store
      { key := "t1", value := 1, ttl := auth.ExpiredSessionTime } (by decide)).1,
   (C16_RedisSession_GetUserId redis.memClient "t1" (2 * time.Hour)
      sample.store).2.2.2.2.2 sample.store auth.ExpiredSessionTime (by decide)⟩

/-! ## Propagation of failures by the session manager -/

theorem errors_mem_chain_Wrap (e : GoError) (msg : String) :
    e ∈ errors.chain (errors.Wrap e msg) := by
  cases e <;> simp [errors.Wrap, errors.chain]

/-- C17: `SessionManager.GetUserId` over every user repository and session
store, with their calls logged.  If the session lookup fails with `e`, the call
returns a nil user and `e` wrapped: `e` is in the chain of the returned error,
which is every leaf error `e` is (so `ErrorNoSession` stays recognisable), and
the user repository is not called.  If the session lookup answers a user id and
the user lookup fails with an `e` that is not `ErrorUserNotFound`, the call
returns a nil user and `e` wrapped: `e` is in the chain of the returned error,
which is not the value `ErrorNoSession` and is `ErrorNoSession` for `errors.Is`
only if `e` is; the only call on the session store is the lookup, the session
is not deleted. -/
theorem C17_GetUserId_propagation {U S : Type} (users : user.Repository U)
    (sessions : session.Repository S) (cmp : String → String → Option GoError)
    (t : String) (us : U) (ss : S) :
    (∀ (v : types.Id) (e : GoError) (s1 : S),
      sessions.GetUserId t auth.ExpiredSessionTime ss = ((v, some e), s1) →
      auth.SessionManager.GetUserId ⟨user.traced users, session.traced sessions, cmp⟩ t
          ((us, []), (ss, [])) =
        ((none, some (errors.Wrap e ("try get session " ++ t))),
         ((us, []), (s1, [session.Call.GetUserId t auth.ExpiredSessionTime]))) ∧
      e ∈ errors.chain (errors.Wrap e ("try get session " ++ t)) ∧
      ∀ target, errors.Is (errors.Wrap e ("try get session " ++ t)) target =
        errors.Is e target) ∧
    (∀ (uid : types.Id) (s1 : S) (usr : Option user.User) (e : GoError) (u1 : U),
      sessions.GetUserId t auth.ExpiredSessionTime ss = ((uid, none), s1) →
      users.GetUserById uid us = ((usr, some e), u1) →
      errors.Is e .userNotFound = false →
      auth.SessionManager.GetUserId ⟨user.traced users, session.traced sessions, cmp⟩ t
          ((us, []), (ss, [])) =
        ((none, some (errors.Wrap e ("try get user by id " ++ toString uid ++
          " in session " ++ t))),
         ((u1, [user.Call.GetUserById uid]),
          (s1, [session.Call.GetUserId t auth.ExpiredSessionTime]))) ∧
      e ∈ errors.chain (errors.Wrap e ("try get user by id " ++ toString uid ++
          " in session " ++ t)) ∧
      errors.Wrap e ("try get user by id " ++ toString uid ++ " in session " ++ t) ≠
        session.ErrorNoSession ∧
      (errors.Is e .noSession = false →
        errors.Is (errors.Wrap e ("try get user by id " ++ toString uid ++
          " in session " ++ t)) .noSession = false)) := by
  refine ⟨?_, ?_⟩
  · intro v e s1 hget
    refine ⟨?_, errors_mem_chain_Wrap _ _, fun _ => rfl⟩
    simp [auth.SessionManager.GetUserId, session.traced, hget]
  · intro uid s1 usr e u1 hget huser hnf
    refine ⟨?_, errors_mem_chain_Wrap _ _, ?_, fun h => h⟩
    · simp [auth.SessionManager.GetUserId, session.traced, user.traced, hget, huser, hnf]
    · simp [errors.Wrap, session.ErrorNoSession]

/-- Witness of C17: on the sample store token `t0` has no session, and the
lookup of the user of token `t1` fails on a database that is down. -/
theorem C17_GetUserId_propagation_witness :
    auth.SessionManager.GetUserId
        ⟨user.traced (user.PostgresUser sample.downDB),
         session.traced (session.RedisSession redis.memClient),
         sample.CompareHashAndPassword⟩ "t0" (((), []), (sample.store, [])) =
      ((none, some (errors.Wrap (errors.Wrap session.ErrorNoSession
          "error when try found session with sessionId: t0") ("try get session " ++ "t0"))),
       (((), []), (sample.store, [session.Call.GetUserId "t0" auth.ExpiredSessionTime]))) ∧
    auth.SessionManager.GetUserId
        ⟨user.traced (user.PostgresUser sample.downDB),
         session.traced (session.RedisSession redis.memClient),
         sample.CompareHashAndPassword⟩ "t1" (((), []), (sample.store, [])) =
      ((none, some (errors.Wrap (errors.Wrap sample.down "can't found user by id 1")
          ("try get user by id " ++ toString (1 : types.Id) ++ " in session " ++ "t1"))),
       (((), [user.Call.GetUserById 1]),
        (sample.store, [session.Call.GetUserId "t1" auth.ExpiredSessionTime]))) :=
  ⟨((C17_GetUserId_propagation (user.PostgresUser sample.downDB)
      (session.RedisSession redis.memClient) sample.CompareHashAndPassword "t0" ()
      sample.store).1 0
      (errors.Wrap session.ErrorNoSession "error when try found session with sessionId: t0")
      sample.store (by decide)).1,
   ((C17_GetUserId_propagation (user.PostgresUser sample.downDB)
      (session.RedisSession redis.memClient) sample.CompareHashAndPassword "t1" ()
      sample.store).2 1 sample.store none
      (errors.Wrap sample.down "can't found user by id 1") () (by decide) (by decide)
      (by decide)).1⟩

/-! ## Logout -/

/-- C18: `SessionManager.Logout(token)` over every session store, with its
calls logged: the only call on the store is one `Del(token)`; the call returns
nil exactly when `Del` returns nil; and when `Del` fails with `e` it returns
`e` wrapped: `e` is in the chain of the returned error, which is every leaf
error `e` is.  The user repository is left as it is. -/
theorem C18_Logout {U S : Type} (users : user.Repository U)
    (sessions : session.Repository S) (cmp : String → String → Option GoError)
    (t : String) (us : U) (ss : S) :
    (auth.SessionManager.Logout ⟨users, session.traced sessions, cmp⟩ t (us, (ss, []))).2 =
      (us, ((sessions.Del t ss).2, [session.Call.Del t])) ∧
    ((auth.SessionManager.Logout ⟨users, session.traced sessions, cmp⟩ t (us, (ss, []))).1 =
        none ↔ (sessions.Del t ss).1 = none) ∧
    (∀ e : GoError, (sessions.Del t ss).1 = some e →
      (auth.SessionManager.Logout ⟨users, session.traced sessions, cmp⟩ t (us, (ss, []))).1 =
        some (errors.Wrap e ("try delete session " ++ t)) ∧
      e ∈ errors.chain (errors.Wrap e ("try delete session " ++ t)) ∧
      ∀ target, errors.Is (errors.Wrap e ("try delete session " ++ t)) target =
        errors.Is e target) := by
  rcases hdel : sessions.Del t ss with ⟨r, s1⟩
  cases r with
  | none => simp [auth.SessionManager.Logout, session.traced, hdel]
  | some e0 =>
    refine ⟨?_, ?_, ?_⟩
    · simp [auth.SessionManager.Logout, session.traced, hdel]
    · simp [auth.SessionManager.Logout, session.traced, hdel]
    · intro e he
      simp only [Option.some.injEq] at he
      subst he
      refine ⟨?_, errors_mem_chain_Wrap _ _, fun _ => rfl⟩
      simp [auth.SessionManager.Logout, session.traced, hdel]

/-- Witness of C18: on a session store that is down, `Logout` returns the
failure of `Del` wrapped, after one `Del`. -/
theorem C18_Logout_witness :
    auth.SessionManager.Logout
        ⟨user.PostgresUser pg.DB, session.traced (session.RedisSession sample.downClient),
         sample.CompareHashAndPassword⟩ "t1" (sample.db, ((), [])) =
      (some (errors.Wrap (errors.Wrap sample.down
          "error when try delete session with sessionId: t1") ("try delete session " ++ "t1")),
       (sample.db, ((), [session.Call.Del "t1"]))) :=
  Prod.ext
    ((C18_Logout (user.PostgresUser pg.DB) (session.RedisSession sample.downClient)
      sample.CompareHashAndPassword "t1" sample.db ()).2.2
      (errors.Wrap sample.down "error when try delete session with sessionId: t1")
      (by decide)).1
    (by decide)

/-! ## The user repository: statements that yield no row -/

/-- C19: `UpdateUserRole`, `GetPasswordByLogin` and `GetUserById` over every
database handle and state.  With `res` the answer of the query of the call and
of its `Scan`: if it is an error that is `sql.ErrNoRows`, the call returns a
nil result and `ErrorUserNotFound`; if it is another error `e`, the call
returns a nil result and `e` wrapped, with `e` in the chain of the returned
error; and if it is a row that scans into `v`, the call returns `v` and a nil
error. -/
theorem C19_user_no_row_mapping {D : Type} (db : sqlx.DB D) (d : D) :
    (∀ (usr : user.User) (res : Except GoError sqlx.Record) (d1 : D),
      db.QueryRowx .userUpdateUser [.id usr.ID, .string usr.Role] d = (res, d1) →
      (∀ e, res.bind user.scanUser = .error e → errors.Is e .sqlErrNoRows = true →
        user.PostgresUser.UpdateUserRole db usr d = ((none, some user.ErrorUserNotFound), d1)) ∧
      (∀ e, res.bind user.scanUser = .error e → errors.Is e .sqlErrNoRows = false →
        user.PostgresUser.UpdateUserRole db usr d =
          ((none, some (errors.Wrap e ("can't update user with id " ++ toString usr.ID))), d1) ∧
        e ∈ errors.chain (errors.Wrap e ("can't update user with id " ++ toString usr.ID))) ∧
      (∀ v, res.bind user.scanUser = .ok v →
        user.PostgresUser.UpdateUserRole db usr d = ((some v, none), d1))) ∧
    (∀ (login : String) (res : Except GoError sqlx.Record) (d1 : D),
      db.QueryRowx .userGetPasswordByLogin [.string login] d = (res, d1) →
      (∀ e, res.bind user.scanLoginUser = .error e → errors.Is e .sqlErrNoRows = true →
        user.PostgresUser.GetPasswordByLogin db login d =
          ((none, some user.ErrorUserNotFound), d1)) ∧
      (∀ e, res.bind user.scanLoginUser = .error e → errors.Is e .sqlErrNoRows = false →
        user.PostgresUser.GetPasswordByLogin db login d =
          ((none, some (errors.Wrap e ("can't found user by login " ++ login))), d1) ∧
        e ∈ errors.chain (errors.Wrap e ("can't found user by login " ++ login))) ∧
      (∀ v, res.bind user.scanLoginUser = .ok v →
        user.PostgresUser.GetPasswordByLogin db login d = ((some v, none), d1))) ∧
    (∀ (id : types.Id) (res : Except GoError sqlx.Record) (d1 : D),
      db.QueryRowx .userGetUserById [.id id] d = (res, d1) →
      (∀ e, res.bind user.scanUser = .error e → errors.Is e .sqlErrNoRows = true →
        user.PostgresUser.GetUserById db id d = ((none, some user.ErrorUserNotFound), d1)) ∧
      (∀ e, res.bind user.scanUser = .error e → errors.Is e .sqlErrNoRows = false →
        user.PostgresUser.GetUserById db id d =
          ((none, some (errors.Wrap e ("can't found user by id " ++ toString id))), d1) ∧
        e ∈ errors.chain (errors.Wrap e ("can't found user by id " ++ toString id))) ∧
      (∀ v, res.bind user.scanUser = .ok v →
        user.PostgresUser.GetUserById db id d = ((some v, none), d1))) := by
  refine ⟨?_, ?_, ?_⟩
  · intro usr res d1 hq
    refine ⟨fun e he hnr => ?_, fun e he hnr => ⟨?_, errors_mem_chain_Wrap _ _⟩,
      fun v hv => ?_⟩
    · simp [user.PostgresUser.UpdateUserRole, hq, he, hnr]
    · simp [user.PostgresUser.UpdateUserRole, hq, he, hnr]
    · simp [user.PostgresUser.UpdateUserRole, hq, hv]
  · intro login res d1 hq
    refine ⟨fun e he hnr => ?_, fun e he hnr => ⟨?_, errors_mem_chain_Wrap _ _⟩,
      fun v hv => ?_⟩
    · simp [user.PostgresUser.GetPasswordByLogin, hq, he, hnr]
    · simp [user.PostgresUser.GetPasswordByLogin, hq, he, hnr]
    · simp [user.PostgresUser.GetPasswordByLogin, hq, hv]
  · intro id res d1 hq
    refine ⟨fun e he hnr => ?_, fun e he hnr => ⟨?_, errors_mem_chain_Wrap _ _⟩,
      fun v hv => ?_⟩
    · simp [user.PostgresUser.GetUserById, hq, he, hnr]
    · simp [user.PostgresUser.GetUserById, hq, he, hnr]
    · simp [user.PostgresUser.GetUserById, hq, hv]

/-- Witness of C19: on the sample data user 9 has no row and user 1 has one;
on a database that is down the failure is wrapped. -/
theorem C19_user_no_row_mapping_witness :
    user.PostgresUser.GetUserById pg.DB 9 sample.db =
      ((none, some user.ErrorUserNotFound), sample.db) ∧
    user.PostgresUser.GetUserById pg.DB 1 sample.db =
      ((some { ID := 1, Login := "admin", Password := "", Role := "admin" }, none),
        sample.db) ∧
    user.PostgresUser.GetPasswordByLogin sample.downDB "admin" () =
      ((none, some (errors.Wrap sample.down ("can't found user by login " ++ "admin"))), ()) :=
  ⟨((C19_user_no_row_mapping pg.DB sample.db).2.2 9 (.error sql.ErrNoRows) sample.db
      (by decide)).1 sql.ErrNoRows rfl (by decide),
   ((C19_user_no_row_mapping pg.DB sample.db).2.2 1 (.ok (.user 1 "admin" "admin")) sample.db
      (by decide)).2.2 { ID := 1, Login := "admin", Password := "", Role := "admin" } rfl,
   (((C19_user_no_row_mapping sample.downDB ()).2.1 "admin" (.error sample.down) ()
      rfl).2.1 sample.down rfl (by decide)).1⟩

/-! ## The affected-row checks of the three deletes -/

/-- The three deletes by the affected-row count: over every database handle,
when `Exec` of the delete statement succeeds and `RowsAffected` reports `n`
rows, `DeleteActor` fails with `ErrorActorNotFound` exactly when `n < 1`, and
`DeleteFilm` fails with `ErrorFilmNotFound` and `DeleteUser` with
`ErrorUserNotFound` exactly when `n` is not 1; each returns nil otherwise. -/
theorem delete_checks_by_count {D : Type} (db : sqlx.DB D) (id : types.Id) (d dA dF dU : D)
    (n : Int)
    (hA : db.Exec .actorDeleteActor [.id id] d = (.ok { RowsAffected := (n, none) }, dA))
    (hF : db.Exec .filmDeleteFilm [.id id] d = (.ok { RowsAffected := (n, none) }, dF))
    (hU : db.Exec .userDeleteUser [.id id] d = (.ok { RowsAffected := (n, none) }, dU)) :
    actor.PostgresActor.DeleteActor db id d =
      (if n < 1 then some (errors.Wrap actor.ErrorActorNotFound ("with id " ++ toString id))
        else none, dA) ∧
    film.PostgresFilm.DeleteFilm db id d =
      (if n ≠ 1 then some (errors.Wrap film.ErrorFilmNotFound ("with id " ++ toString id))
        else none, dF) ∧
    user.PostgresUser.DeleteUser db id d =
      (if n ≠ 1 then some (errors.Wrap user.ErrorUserNotFound ("with id " ++ toString id))
        else none, dU) := by
  refine ⟨?_, ?_, ?_⟩
  · simp only [actor.PostgresActor.DeleteActor, hA]
    split <;> rfl
  · simp only [film.PostgresFilm.DeleteFilm, hF]
    split <;> rfl
  · simp only [user.PostgresUser.DeleteUser, hU]
    split <;> rfl

/-- In a list whose keys are pairwise distinct at most one element has the key
`k`. -/
theorem filter_key_length_le_one {α : Type} (f : α → types.Id) (k : types.Id) (l : List α)
    (h : (l.map f).Nodup) : (l.filter (fun a => f a = k)).length ≤ 1 := by
  induction l with
  | nil => simp
  | cons a l ih =>
    rw [List.map_cons, List.nodup_cons] at h
    by_cases hk : f a = k
    · have hnone : l.filter (fun a => f a = k) = [] := by
        rw [List.filter_eq_nil_iff]
        intro b hb hbk
        apply h.1
        rw [List.mem_map]
        exact ⟨b, hb, by rw [hk]; simpa using hbk⟩
      simp [List.filter_cons, hk, hnone]
    · simp only [List.filter_cons, hk, decide_False, Bool.false_eq_true, if_false]
      exact ih h.2

/-- C20: the affected-row checks of the three deletes agree on every count a
delete by id reports.  Over every database handle, when `Exec` of the delete
statement succeeds and `RowsAffected` reports `n` rows, `n` being 0 or 1:
`DeleteFilm` fails with `ErrorFilmNotFound` if and only if `DeleteActor` fails
with `ErrorActorNotFound`, `DeleteUser` fails with `ErrorUserNotFound` if and
only if `DeleteActor` fails with `ErrorActorNotFound`, and `DeleteActor` fails
so exactly when `n` is 0.  The counts 0 and 1 are all that the statements
`DELETE FROM ... WHERE id = $1` report: on the relational engine, in every
state whose tables have unique ids, each of the three statements succeeds and
reports 0 or 1 rows. -/
theorem C20_delete_checks {D : Type} (db : sqlx.DB D) (id : types.Id) (d dA dF dU : D)
    (n : Int) (hn : n = 0 ∨ n = 1)
    (hA : db.Exec .actorDeleteActor [.id id] d = (.ok { RowsAffected := (n, none) }, dA))
    (hF : db.Exec .filmDeleteFilm [.id id] d = (.ok { RowsAffected := (n, none) }, dF))
    (hU : db.Exec .userDeleteUser [.id id] d = (.ok { RowsAffected := (n, none) }, dU)) :
    ((film.PostgresFilm.DeleteFilm db id d).1 =
        some (errors.Wrap film.ErrorFilmNotFound ("with id " ++ toString id)) ↔
      (actor.PostgresActor.DeleteActor db id d).1 =
        some (errors.Wrap actor.ErrorActorNotFound ("with id " ++ toString id))) ∧
    ((user.PostgresUser.DeleteUser db id d).1 =
        some (errors.Wrap user.ErrorUserNotFound ("with id " ++ toString id)) ↔
      (actor.PostgresActor.DeleteActor db id d).1 =
        some (errors.Wrap actor.ErrorActorNotFound ("with id " ++ toString id))) ∧
    ((actor.PostgresActor.DeleteActor db id d).1 =
        some (errors.Wrap actor.ErrorActorNotFound ("with id " ++ toString id)) ↔ n = 0) ∧
    (n = 1 →
      (actor.PostgresActor.DeleteActor db id d).1 = none ∧
      (film.PostgresFilm.DeleteFilm db id d).1 = none ∧
      (user.PostgresUser.DeleteUser db id d).1 = none) ∧
    (∀ (s : pg.State) (i : types.Id), pg.uniqueIds s.committed →
      (∀ t, s.tx = some t → pg.uniqueIds t) →
      (∃ m s1, pg.DB.Exec .actorDeleteActor [.id i] s = (.ok { RowsAffected := (m, none) }, s1) ∧
        (m = 0 ∨ m = 1)) ∧
      (∃ m s1, pg.DB.Exec .filmDeleteFilm [.id i] s = (.ok { RowsAffected := (m, none) }, s1) ∧
        (m = 0 ∨ m = 1)) ∧
      (∃ m s1, pg.DB.Exec .userDeleteUser [.id i] s = (.ok { RowsAffected := (m, none) }, s1) ∧
        (m = 0 ∨ m = 1))) := by
  obtain ⟨hAeq, hFeq, hUeq⟩ := delete_checks_by_count db id d dA dF dU n hA hF hU
  have hcount : ∀ k : Nat, k ≤ 1 → ((k : Int) = 0 ∨ (k : Int) = 1) := by
    intro k hk
    omega
  refine ⟨?_, ?_, ?_, ?_, ?_⟩
  · rw [hAeq, hFeq]
    rcases hn with h | h <;> subst h <;> simp
  · rw [hAeq, hUeq]
    rcases hn with h | h <;> subst h <;> simp
  · rw [hAeq]
    rcases hn with h | h <;> subst h <;> simp
  · intro h
    subst h
    rw [hAeq, hFeq, hUeq]
    simp
  · intro s i hc ht
    cases htx : s.tx with
    | none =>
      refine ⟨⟨_, _, by simp only [pg.DB, pg.run, pg.statement, htx]; rfl,
          hcount _ (filter_key_length_le_one (fun a : pg.ActorRow => a.id) i _ hc.1)⟩,
        ⟨_, _, by simp only [pg.DB, pg.run, pg.statement, htx]; rfl,
          hcount _ (filter_key_length_le_one (fun a : pg.FilmRow => a.id) i _ hc.2.1)⟩,
        ⟨_, _, by simp only [pg.DB, pg.run, pg.statement, htx]; rfl,
          hcount _ (filter_key_length_le_one (fun a : pg.UserRow => a.id) i _ hc.2.2)⟩⟩
    | some t =>
      have hu := ht t htx
      refine ⟨⟨_, _, by simp only [pg.DB, pg.run, pg.statement, htx]; rfl,
          hcount _ (filter_key_length_le_one (fun a : pg.ActorRow => a.id) i _ hu.1)⟩,
        ⟨_, _, by simp only [pg.DB, pg.run, pg.statement, htx]; rfl,
          hcount _ (filter_key_length_le_one (fun a : pg.FilmRow => a.id) i _ hu.2.1)⟩,
        ⟨_, _, by simp only [pg.DB, pg.run, pg.statement, htx]; rfl,
          hcount _ (filter_key_length_le_one (fun a : pg.UserRow => a.id) i _ hu.2.2)⟩⟩

/-- Witness of C20 on the sample data, whose tables have unique ids: there is
no actor, film or user 9, each delete reports zero rows, and `DeleteFilm` fails
with `ErrorFilmNotFound` as `DeleteActor` fails with `ErrorActorNotFound`. -/
theorem C20_delete_checks_witness :
    pg.uniqueIds sample.db.committed ∧
    pg.DB.Exec .actorDeleteActor [.id 9] sample.db =
      (.ok { RowsAffected := (0, none) }, sample.db) ∧
    pg.DB.Exec .filmDeleteFilm [.id 9] sample.db =
      (.ok { RowsAffected := (0, none) }, sample.db) ∧
    pg.DB.Exec .userDeleteUser [.id 9] sample.db =
      (.ok { RowsAffected := (0, none) }, sample.db) ∧
    ((film.PostgresFilm.DeleteFilm pg.DB 9 sample.db).1 =
        some (errors.Wrap film.ErrorFilmNotFound ("with id " ++ toString (9 : types.Id))) ↔
      (actor.PostgresActor.DeleteActor pg.DB 9 sample.db).1 =
        some (errors.Wrap actor.ErrorActorNotFound
          ("with id " ++ toString (9 : types.Id)))) ∧
    (actor.PostgresActor.DeleteActor pg.DB 9 sample.db).1 =
      some (errors.Wrap actor.ErrorActorNotFound ("with id " ++ toString (9 : types.Id))) :=
  ⟨by decide, by decide, by decide, by decide,
   (C20_delete_checks pg.DB 9 sample.db sample.db sample.db sample.db 0 (Or.inl rfl)
      (by decide) (by decide) (by decide)).1,
   (C20_delete_checks pg.DB 9 sample.db sample.db sample.db sample.db 0 (Or.inl rfl)
      (by decide) (by decide) (by decide)).2.2.1.mpr rfl⟩

/-! ## `GetFilms`: the empty listing and the query it prepares -/

/-- C21: `GetFilms` over every database handle, calls logged.  When `Beginx`
succeeds and the first query succeeds and yields no row, the calls on the
handle are `Beginx`, that query and `Commit`: the query of the pairs is not
issued.  If `Commit` succeeds the call returns the empty, non-nil slice and a
nil error; if `Commit` fails with `e` it returns a nil slice and `e` wrapped. -/
theorem C21_GetFilms_empty_short_circuit {D : Type} (db : sqlx.DB D) (params : film.Params)
    (d d1 d2 : D) (hb : db.Beginx d = (none, d1))
    (hq : db.Queryx (film.GetFilms.preparedQuery params)
        [.string (film.GetFilms.searchString params)] d1 =
      (.ok { rows := [], Err := none }, d2)) :
    (∀ d3, db.Commit d2 = (none, d3) →
      film.PostgresFilm.GetFilms (sqlx.traced db) params (d, []) =
        (.ok (some [], none),
         (d3, [sqlx.Call.Beginx,
               sqlx.Call.Queryx (film.GetFilms.preparedQuery params)
                 [.string (film.GetFilms.searchString params)],
               sqlx.Call.Commit]))) ∧
    (∀ e d3, db.Commit d2 = (some e, d3) →
      film.PostgresFilm.GetFilms (sqlx.traced db) params (d, []) =
        (.ok (none, some (errors.Wrap e "can't commit transaction for get films")),
         (d3, [sqlx.Call.Beginx,
               sqlx.Call.Queryx (film.GetFilms.preparedQuery params)
                 [.string (film.GetFilms.searchString params)],
               sqlx.Call.Commit])) ∧
      e ∈ errors.chain (errors.Wrap e "can't commit transaction for get films")) := by
  refine ⟨fun d3 hc => ?_, fun e d3 hc => ⟨?_, errors_mem_chain_Wrap _ _⟩⟩
  · simp [film.PostgresFilm.GetFilms, sqlx_traced_Beginx, sqlx_traced_Queryx,
      sqlx_traced_Commit, hb, hq, hc, film.GetFilms.scanFilms]
  · simp [film.PostgresFilm.GetFilms, sqlx_traced_Beginx, sqlx_traced_Queryx,
      sqlx_traced_Commit, hb, hq, hc, film.GetFilms.scanFilms]

/-- Witness of C21 on the sample data: no film is named `Arrival`. -/
theorem C21_GetFilms_empty_short_circuit_witness :
    film.PostgresFilm.GetFilms (sqlx.traced pg.DB) sample.noMatch (sample.db, []) =
      (.ok (some [], none),
       (sample.db,
        [sqlx.Call.Beginx,
         sqlx.Call.Queryx (film.GetFilms.preparedQuery sample.noMatch)
           [.string (film.GetFilms.searchString sample.noMatch)],
         sqlx.Call.Commit])) :=
  (C21_GetFilms_empty_short_circuit pg.DB sample.noMatch sample.db
    { committed := sample.tables, tx := some sample.tables, films_id_seq := 1 }
    { committed := sample.tables, tx := some sample.tables, films_id_seq := 1 }
    (by decide) (by decide)).1 sample.db (by decide)

theorem GetFilms_traced_first_calls {D : Type} (db : sqlx.DB D) (params : film.Params)
    (d d1 : D) (hb : db.Beginx d = (none, d1)) :
    (film.PostgresFilm.GetFilms (sqlx.traced db) params (d, [])).2.2.take 2 =
      [sqlx.Call.Beginx,
       sqlx.Call.Queryx (film.GetFilms.preparedQuery params)
         [.string (film.GetFilms.searchString params)]] := by
  rcases hq1 : db.Queryx (film.GetFilms.preparedQuery params)
      [.string (film.GetFilms.searchString params)] d1 with ⟨r1, d2⟩
  simp only [film.PostgresFilm.GetFilms, sqlx_traced_Beginx, sqlx_traced_Queryx, hb, hq1]
  cases r1 with
  | error e => simp [sqlx_traced_Rollback]
  | ok rows =>
    simp only []
    cases hs : film.GetFilms.scanFilms rows.rows [] [] [] 0 with
    | error e => simp [sqlx_traced_Rollback]
    | ok out =>
      obtain ⟨films, idx, ids⟩ := out
      simp only []
      cases herr : rows.Err with
      | some e => simp [sqlx_traced_Rollback]
      | none =>
        simp only []
        by_cases hlen : films.length = 0
        · simp only [hlen, if_true]
          rcases hc : db.Commit d2 with ⟨ce, d3⟩
          cases ce <;> simp [sqlx_traced_Commit, hc]
        · simp only [hlen, if_false]
          cases hin : sqlx.In .filmGetFilmsActors ids with
          | error e => simp [sqlx_traced_Rollback]
          | ok qa =>
            obtain ⟨q, args⟩ := qa
            simp only []
            rcases hq2 : db.Queryx (sqlx.Rebind q) args d2 with ⟨r2, d3⟩
            simp only [List.nil_append, List.cons_append, sqlx_traced_Queryx, hq2]
            cases r2 with
            | error e => simp [sqlx_traced_Rollback]
            | ok rows2 =>
              simp only []
              cases hg : film.GetFilms.groupActors rows2.rows films idx with
              | panic p => simp
              | fail e => simp [sqlx_traced_Rollback]
              | done grouped =>
                simp only []
                cases herr2 : rows2.Err with
                | some e => simp [sqlx_traced_Rollback]
                | none =>
                  simp only []
                  rcases hc : db.Commit d3 with ⟨ce, d4⟩
                  cases ce <;> simp [sqlx_traced_Commit, hc]

/-- C22: the query `GetFilms` prepares, for every `Params` value.  On every
database handle on which `Beginx` succeeds, the first statement of the call is
the prepared query with one bound argument, the search string.  The bound
search string is empty when `SearchString` is `*` and `SearchString` otherwise.
The prepared query is `getFilmsSearchActor` exactly when `SearchField` is
`actor` and `getFilmsSearchFilm` for every other value, and its text ends with
`ORDER BY`, the column `OrderField`, a blank and the direction `Order`. -/
theorem C22_GetFilms_query_construction {D : Type} (db : sqlx.DB D) (params : film.Params)
    (d d1 : D) (hb : db.Beginx d = (none, d1)) :
    (film.PostgresFilm.GetFilms (sqlx.traced db) params (d, [])).2.2.take 2 =
      [sqlx.Call.Beginx,
       sqlx.Call.Queryx (film.GetFilms.preparedQuery params)
         [.string (film.GetFilms.searchString params)]] ∧
    (params.SearchString = "*" → film.GetFilms.searchString params = "") ∧
    (params.SearchString ≠ "*" → film.GetFilms.searchString params = params.SearchString) ∧
    (params.SearchField = types.ActorField →
      film.GetFilms.preparedQuery params =
        .filmGetFilmsSearchActor params.OrderField params.Order ∧
      film.preparedText (film.GetFilms.preparedQuery params) =
        some ("\n\t\tSELECT films.id, films.name, films.description, films.publish_date, " ++
          "films.rating FROM films \n" ++
          "\t\tJOIN film_actor on (films.id = film_actor.film_id)\n" ++
          "\t\t\tJOIN actors on (actors.id = film_actor.actor_id)\n" ++
          "\t\tWHERE actors.name LIKE '%' || $1 || '%'\n" ++
          "\t\tORDER BY films." ++ params.OrderField ++ " " ++ params.Order ++ "\n\t")) ∧
    (params.SearchField ≠ types.ActorField →
      film.GetFilms.preparedQuery params =
        .filmGetFilmsSearchFilm params.OrderField params.Order ∧
      film.preparedText (film.GetFilms.preparedQuery params) =
        some ("\n\t\tSELECT id, name, description, publish_date, rating FROM films \n" ++
          "\t\tWHERE name LIKE '%' || $1 || '%'\n" ++
          "\t\tORDER BY " ++ params.OrderField ++ " " ++ params.Order ++ "\n\t")) := by
  refine ⟨GetFilms_traced_first_calls db params d d1 hb, ?_, ?_, ?_, ?_⟩
  · intro h
    simp [film.GetFilms.searchString, h]
  · intro h
    simp [film.GetFilms.searchString, h]
  · intro h
    have hq : film.GetFilms.preparedQuery params =
        .filmGetFilmsSearchActor params.OrderField params.Order := by
      simp [film.GetFilms.preparedQuery, h]
    refine ⟨hq, ?_⟩
    rw [hq]
    rfl
  · intro h
    have hq : film.GetFilms.preparedQuery params =
        .filmGetFilmsSearchFilm params.OrderField params.Order := by
      simp [film.GetFilms.preparedQuery, h]
    refine ⟨hq, ?_⟩
    rw [hq]
    rfl

/-- Witness of C22 on the sample data, for the listing by actor with the
search string `*`. -/
theorem C22_GetFilms_query_construction_witness :
    (film.PostgresFilm.GetFilms (sqlx.traced pg.DB) sample.byActor (sample.db, [])).2.2.take 2 =
      [sqlx.Call.Beginx,
       sqlx.Call.Queryx (film.GetFilms.preparedQuery sample.byActor)
         [.string (film.GetFilms.searchString sample.byActor)]] ∧
    film.GetFilms.searchString sample.byActor = "" ∧
    film.GetFilms.preparedQuery sample.byActor = .filmGetFilmsSearchActor "rating" "DESC" :=
  ⟨(C22_GetFilms_query_construction pg.DB sample.byActor sample.db
      { committed := sample.tables, tx := some sample.tables, films_id_seq := 1 }
      (by decide)).1,
   (C22_GetFilms_query_construction pg.DB sample.byActor sample.db
      { committed := sample.tables, tx := some sample.tables, films_id_seq := 1 }
      (by decide)).2.1 (by decide),
   ((C22_GetFilms_query_construction pg.DB sample.byActor sample.db
      { committed := sample.tables, tx := some sample.tables, films_id_seq := 1 }
      (by decide)).2.2.2.1 (by decide)).1⟩

/-! ## The translation of the foreign-key violation -/

/-- C27: `checkActorConflictError(err)`, for every error.  If the first driver
error in the chain of `err` has the code `23503` and the constraint
`film_actor_actor_id_fkey`, the result is `ErrorActorNotFound`; for every other
error, one without a driver error in its chain or whose driver error differs in
the code or in the constraint, the result is `err` unchanged.  So the result
is `ErrorActorNotFound` exactly for the errors of the first kind and for
`ErrorActorNotFound` itself, returned unchanged. -/
theorem C27_checkActorConflictError (err : GoError) :
    (errors.AsPq err = some ("23503", "film_actor_actor_id_fkey") →
      film.checkActorConflictError err = film.ErrorActorNotFound) ∧
    (errors.AsPq err ≠ some ("23503", "film_actor_actor_id_fkey") →
      film.checkActorConflictError err = err) ∧
    (∀ code constraint, errors.AsPq err = some (code, constraint) →
      code ≠ "23503" ∨ constraint ≠ "film_actor_actor_id_fkey" →
      film.checkActorConflictError err = err) ∧
    (film.checkActorConflictError err = film.ErrorActorNotFound ↔
      errors.AsPq err = some ("23503", "film_actor_actor_id_fkey") ∨
        err = film.ErrorActorNotFound) := by
  have h1 : errors.AsPq err = some ("23503", "film_actor_actor_id_fkey") →
      film.checkActorConflictError err = film.ErrorActorNotFound := by
    intro h
    simp [film.checkActorConflictError, h, film.actorIdConflictCode,
      film.actorIdConstraintName]
  have h2 : errors.AsPq err ≠ some ("23503", "film_actor_actor_id_fkey") →
      film.checkActorConflictError err = err := by
    intro h
    unfold film.checkActorConflictError
    cases hp : errors.AsPq err with
    | none => rfl
    | some p =>
      obtain ⟨code, constraint⟩ := p
      have hne : ¬ (code = film.actorIdConflictCode ∧
          constraint = film.actorIdConstraintName) := by
        rintro ⟨hc, hk⟩
        apply h
        rw [hp, hc, hk]
        rfl
      simp only [hne, if_false]
  refine ⟨h1, h2, ?_, ?_⟩
  · intro code constraint hp hne
    apply h2
    rw [hp]
    intro heq
    simp only [Option.some.injEq, Prod.mk.injEq] at heq
    rcases hne with hne | hne
    · exact hne heq.1
    · exact hne heq.2
  · constructor
    · intro h
      by_cases hm : errors.AsPq err = some ("23503", "film_actor_actor_id_fkey")
      · exact Or.inl hm
      · right
        rw [← h2 hm]
        exact h
    · rintro (h | h)
      · exact h1 h
      · rw [h]
        rfl

/-- Witness of C27: the violation of the foreign key, wrapped, is translated;
a driver error with only the code or only the constraint, and an error that is
no driver error, are returned unchanged. -/
theorem C27_checkActorConflictError_witness :
    film.checkActorConflictError
        (errors.Wrap (.pq "23503" "film_actor_actor_id_fkey") "exec") =
      film.ErrorActorNotFound ∧
    film.checkActorConflictError (.pq "23503" "film_actor_film_id_fkey") =
      .pq "23503" "film_actor_film_id_fkey" ∧
    film.checkActorConflictError (.pq "23505" "film_actor_actor_id_fkey") =
      .pq "23505" "film_actor_actor_id_fkey" ∧
    film.checkActorConflictError sample.down = sample.down :=
  ⟨(C27_checkActorConflictError
      (errors.Wrap (.pq "23503" "film_actor_actor_id_fkey") "exec")).1 rfl,
   (C27_checkActorConflictError (.pq "23503" "film_actor_film_id_fkey")).2.2.1
      "23503" "film_actor_film_id_fkey" rfl (Or.inr (by decide)),
   (C27_checkActorConflictError (.pq "23505" "film_actor_actor_id_fkey")).2.2.1
      "23505" "film_actor_actor_id_fkey" rfl (Or.inl (by decide)),
   (C27_checkActorConflictError sample.down).2.1 (by decide)⟩

/-! ## Grouping of `GetActors` on pair rows of listed actors -/

theorem Slice_toList_append {α : Type} (s : Slice α) (x : α) :
    Slice.toList (Slice.append s x) = Slice.toList s ++ [x] := by
  cases s <;> rfl

theorem sqlx_scanAll_forall {α : Type} (scan : sqlx.Record → Except GoError α)
    (P : α → Prop) (hscan : ∀ r v, scan r = .ok v → P v) (rows : List sqlx.Record) :
    ∀ (acc out : Slice α), (∀ v ∈ Slice.toList acc, P v) →
      sqlx.scanAll scan rows acc = .ok out → ∀ v ∈ Slice.toList out, P v := by
  induction rows with
  | nil =>
    intro acc out hacc h
    simp only [sqlx.scanAll, Except.ok.injEq] at h
    subst h
    exact hacc
  | cons r rs ih =>
    intro acc out hacc h
    simp only [sqlx.scanAll] at h
    cases hr : scan r with
    | error e => simp [hr] at h
    | ok v =>
      simp only [hr] at h
      refine ih _ _ ?_ h
      intro w hw
      simp only [Slice_toList_append, List.mem_append, List.mem_singleton] at hw
      rcases hw with hw | hw
      · exact hacc w hw
      · rw [hw]
        exact hscan r v hr

theorem user_scanUser_Password (r : sqlx.Record) (u : user.User)
    (h : user.scanUser r = .ok u) : u.Password = "" := by
  cases r <;> simp [user.scanUser] at h
  rw [← h]

theorem user_scanUserExists_Password (r : sqlx.Record) (p : user.User × Bool)
    (h : user.scanUserExists r = .ok p) : p.1.Password = "" := by
  cases r <;> simp [user.scanUserExists] at h
  rw [← h]

/-- C30: over every database handle and state, whatever it stores, and for
every argument, whatever password it carries: every `User` that `CreateUser`,
`UpdateUserRole` or `GetUserById` returns, with or without an error, and every
`User` in the slice `GetUsers` returns, has the empty `Password`. -/
theorem C30_password_not_returned {D : Type} (db : sqlx.DB D) (d : D) :
    (∀ (usr u : user.User) (e : Option GoError) (d1 : D),
      user.PostgresUser.CreateUser db usr d = ((some u, e), d1) → u.Password = "") ∧
    (∀ (usr u : user.User) (e : Option GoError) (d1 : D),
      user.PostgresUser.UpdateUserRole db usr d = ((some u, e), d1) → u.Password = "") ∧
    (∀ (id : types.Id) (u : user.User) (e : Option GoError) (d1 : D),
      user.PostgresUser.GetUserById db id d = ((some u, e), d1) → u.Password = "") ∧
    (∀ (us : Slice user.User) (e : Option GoError) (d1 : D),
      user.PostgresUser.GetUsers db d = ((us, e), d1) →
      ∀ u ∈ Slice.toList us, u.Password = "") := by
  refine ⟨?_, ?_, ?_, ?_⟩
  · intro usr u e d1 h
    rcases hq : db.QueryRowx .userCreateQuery
        [.string usr.Login, .string usr.Password, .string usr.Role] d with ⟨res, d2⟩
    simp only [user.PostgresUser.CreateUser, hq] at h
    cases hres : res.bind user.scanUserExists with
    | error err => simp [hres] at h
    | ok p =>
      obtain ⟨newUser, found⟩ := p
      obtain ⟨rec, hrec⟩ : ∃ rec, res = .ok rec := by
        cases res with
        | error err => simp [Except.bind] at hres
        | ok rec => exact ⟨rec, rfl⟩
      subst hrec
      have hpw := user_scanUserExists_Password rec (newUser, found)
        (by simpa [Except.bind] using hres)
      simp only [hres] at h
      cases found <;> simp at h <;> rw [← h.1.1] <;> exact hpw
  · intro usr u e d1 h
    rcases hq : db.QueryRowx .userUpdateUser [.id usr.ID, .string usr.Role] d with ⟨res, d2⟩
    simp only [user.PostgresUser.UpdateUserRole, hq] at h
    cases hres : res.bind user.scanUser with
    | error err =>
      simp only [hres] at h
      split at h <;> simp at h
    | ok v =>
      obtain ⟨rec, hrec⟩ : ∃ rec, res = .ok rec := by
        cases res with
        | error err => simp [Except.bind] at hres
        | ok rec => exact ⟨rec, rfl⟩
      subst hrec
      have hpw := user_scanUser_Password rec v (by simpa [Except.bind] using hres)
      simp only [hres, Prod.mk.injEq, Option.some.injEq] at h
      rw [← h.1.1]
      exact hpw
  · intro id u e d1 h
    rcases hq : db.QueryRowx .userGetUserById [.id id] d with ⟨res, d2⟩
    simp only [user.PostgresUser.GetUserById, hq] at h
    cases hres : res.bind user.scanUser with
    | error err =>
      simp only [hres] at h
      split at h <;> simp at h
    | ok v =>
      obtain ⟨rec, hrec⟩ : ∃ rec, res = .ok rec := by
        cases res with
        | error err => simp [Except.bind] at hres
        | ok rec => exact ⟨rec, rfl⟩
      subst hrec
      have hpw := user_scanUser_Password rec v (by simpa [Except.bind] using hres)
      simp only [hres, Prod.mk.injEq, Option.some.injEq] at h
      rw [← h.1.1]
      exact hpw
  · intro us e d1 h
    rcases hq : db.Queryx .userGetUsers [] d with ⟨res, d2⟩
    simp only [user.PostgresUser.GetUsers, hq] at h
    cases res with
    | error err =>
      simp only [Prod.mk.injEq] at h
      rw [← h.1.1]
      intro u hu
      simp [Slice.toList] at hu
    | ok rows =>
      simp only [] at h
      cases hs : sqlx.scanAll user.scanUser rows.rows (some []) with
      | error err =>
        simp only [hs, Prod.mk.injEq] at h
        rw [← h.1.1]
        intro u hu
        simp [Slice.toList] at hu
      | ok users =>
        have hall := sqlx_scanAll_forall user.scanUser (fun u => u.Password = "")
          user_scanUser_Password rows.rows (some []) users
          (by intro v hv; simp [Slice.toList] at hv) hs
        simp only [hs] at h
        cases herr : rows.Err with
        | some err =>
          simp only [herr, Prod.mk.injEq] at h
          rw [← h.1.1]
          intro u hu
          simp [Slice.toList] at hu
        | none =>
          simp only [herr, Prod.mk.injEq] at h
          rw [← h.1.1]
          exact hall

/-- Witness of C30 on the sample data, where the stored password of the one
user is `hash:secret`: the users `GetUsers` lists and the user `CreateUser`
returns for the login that exists carry the empty password. -/
theorem C30_password_not_returned_witness :
    sample.db.committed.users.map (fun u => u.password) = ["hash:secret"] ∧
    user.PostgresUser.GetUsers pg.DB sample.db =
      ((some [{ ID := 1, Login := "admin", Password := "", Role := "admin" }], none),
        sample.db) ∧
    (∀ u ∈ Slice.toList (user.PostgresUser.GetUsers pg.DB sample.db).1.1, u.Password = "") ∧
    (∀ u, (user.PostgresUser.CreateUser pg.DB
        { ID := 0, Login := "admin", Password := "hash:other", Role := "user" }
        sample.db).1.1 = some u → u.Password = "") :=
  ⟨by decide, by decide,
   (C30_password_not_returned pg.DB sample.db).2.2.2
     (user.PostgresUser.GetUsers pg.DB sample.db).1.1
     (user.PostgresUser.GetUsers pg.DB sample.db).1.2
     (user.PostgresUser.GetUsers pg.DB sample.db).2 rfl,
   fun u hu => (C30_password_not_returned pg.DB sample.db).1
     { ID := 0, Login := "admin", Password := "hash:other", Role := "user" } u
     (user.PostgresUser.CreateUser pg.DB
        { ID := 0, Login := "admin", Password := "hash:other", Role := "user" }
        sample.db).1.2
     (user.PostgresUser.CreateUser pg.DB
        { ID := 0, Login := "admin", Password := "hash:other", Role := "user" }
        sample.db).2
     (by rw [← hu])⟩

/-! ## The session middleware -/

/-- C23: `CheckSession` over every session manager, wrapped handler, request
and exchange whose response is not yet started.  Without a session cookie the
status is 401 and neither the manager nor the handler is called.  With the
session cookie `c`: if `GetUserId(c.Value)` fails with an error that is
`ErrorNoSession`, the status is 401 and the cookie is sent back expired, one
day before now; if it fails with another error the status is 500; in both
cases the exchange left does not depend on the handler, which is not called.
If it returns the user `usr` and a nil error, the result is that of the handler,
called once with the request whose context holds `usr` and `c.Value`, after the
cookie was sent back refreshed.  For the handler that answers 200, the status
is 200 exactly when the request has a session cookie for whose value
`GetUserId` returns a user and a nil error. -/
theorem C23_CheckSession {R : Type} (mgr : auth.Manager R) (handle : mux.ExtendedHandleFunc R)
    (r : http.Request) (params : mux.Params) (s : http.Exchange R)
    (hfresh : s.w.Code = none) :
    (r.Cookies.find? (fun c => c.Name = middleware.SessionField) = none →
      middleware.CheckSession mgr handle r params s =
        (none, { s with l := s.l.write .Warn (.text "in parsing cookie: %s"),
                        w := { s.w with Code := some 401, Sent := s.w.Header } })) ∧
    (∀ c : http.Cookie, r.Cookies.find? (fun c => c.Name = middleware.SessionField) = some c →
      (∀ (usr : Option user.User) (e : GoError) (repo1 : R),
        mgr.GetUserId c.Value s.repo = ((usr, some e), repo1) →
        errors.Is e .noSession = true →
        middleware.CheckSession mgr handle r params s =
          (none, { s with repo := repo1,
                          l := s.l.write .Debug (.text "no session by id %s"),
                          w := { s.w with
                            Header := s.w.Header ++
                              [{ c with Expires := s.now - 24 * time.Hour, Path := "/",
                                        HttpOnly := true }],
                            Code := some 401,
                            Sent := s.w.Header ++
                              [{ c with Expires := s.now - 24 * time.Hour, Path := "/",
                                        HttpOnly := true }] } }) ∧
        s.now - 24 * time.Hour < s.now) ∧
      (∀ (usr : Option user.User) (e : GoError) (repo1 : R),
        mgr.GetUserId c.Value s.repo = ((usr, some e), repo1) →
        errors.Is e .noSession = false →
        middleware.CheckSession mgr handle r params s =
          (none, { s with repo := repo1,
                          l := s.l.write .Error (.error (errors.Wrap e
                            ("error with session id " ++ c.Value))),
                          w := { s.w with Code := some 500, Sent := s.w.Header } })) ∧
      (∀ (usr : user.User) (repo1 : R),
        mgr.GetUserId c.Value s.repo = ((some usr, none), repo1) →
        middleware.CheckSession mgr handle r params s =
          handle { r with ctx := { user_info := some usr, session_id := some c.Value } }
            params
            { s with repo := repo1,
                     l := s.l.write .Debug (.text "get session for user: %d"),
                     w := { s.w with Header := s.w.Header ++
                       [{ c with Expires := s.now + auth.ExpiredSessionTime, Path := "/",
                                 HttpOnly := true }] } })) ∧
    ((middleware.CheckSession mgr sample.respondOK r params s).2.w.Code = some 200 ↔
      ∃ (c : http.Cookie) (usr : user.User) (repo1 : R),
        r.Cookies.find? (fun c => c.Name = middleware.SessionField) = some c ∧
        mgr.GetUserId c.Value s.repo = ((some usr, none), repo1)) := by
  refine ⟨?_, ?_, ?_⟩
  · intro hno
    simp [middleware.CheckSession, http.Request.Cookie, hno, http.ResponseWriter.WriteHeader,
      hfresh, http.StatusUnauthorized]
  · intro c hc
    refine ⟨?_, ?_, ?_⟩
    · intro usr e repo1 hget hns
      refine ⟨?_, by simp [time.Hour]⟩
      simp [middleware.CheckSession, http.Request.Cookie, hc, hget, hns,
        http.ResponseWriter.WriteHeader, hfresh, http.StatusUnauthorized,
        middleware.clearCookie, http.SetCookie, time.AddDays]
      ring
    · intro usr e repo1 hget hns
      simp [middleware.CheckSession, http.Request.Cookie, hc, hget, hns,
        http.ResponseWriter.WriteHeader, hfresh, http.StatusInternalServerError]
    · intro usr repo1 hget
      simp [middleware.CheckSession, http.Request.Cookie, hc, hget,
        middleware.updateCookie, http.SetCookie, time.Add]
  · cases hfind : r.Cookies.find? (fun c => c.Name = middleware.SessionField) with
    | none =>
      simp [middleware.CheckSession, http.Request.Cookie, hfind,
        http.ResponseWriter.WriteHeader, hfresh, http.StatusUnauthorized]
    | some c =>
      rcases hget : mgr.GetUserId c.Value s.repo with ⟨⟨usr, err⟩, repo1⟩
      cases err with
      | some e =>
        by_cases hns : errors.Is e .noSession = true
        · simp [middleware.CheckSession, http.Request.Cookie, hfind, hget, hns,
            http.ResponseWriter.WriteHeader, hfresh, http.StatusUnauthorized,
            middleware.clearCookie, http.SetCookie]
        · simp [middleware.CheckSession, http.Request.Cookie, hfind, hget, hns,
            http.ResponseWriter.WriteHeader, hfresh, http.StatusInternalServerError]
      | none =>
        cases usr with
        | none =>
          simp [middleware.CheckSession, http.Request.Cookie, hfind, hget, hfresh]
        | some u =>
          simp [middleware.CheckSession, http.Request.Cookie, hfind, hget, hfresh,
            sample.respondOK, http.ResponseWriter.WriteHeader, middleware.updateCookie,
            http.SetCookie, http.StatusOK]

/-- Witness of C23 with the scripted session manager: the session `t1` reaches
the handler, the session `t0` does not exist, for the session `t9` the store
is down, and a request without cookie. -/
theorem C23_CheckSession_witness :
    (middleware.CheckSession sample.sessions sample.respondOK
        { sample.bare with Cookies := [sample.sessionCookie "t1"] }
        { req := sample.bare } (sample.fresh 0)).2.w.Code = some 200 ∧
    (middleware.CheckSession sample.sessions sample.respondOK
        { sample.bare with Cookies := [sample.sessionCookie "t0"] }
        { req := sample.bare } (sample.fresh 0)).2.w =
      { Header := [{ Name := "session_id", Value := "t0", Path := "/",
                     Expires := 976 * time.Hour, HttpOnly := true }],
        Code := some 401,
        Sent := [{ Name := "session_id", Value := "t0", Path := "/",
                   Expires := 976 * time.Hour, HttpOnly := true }],
        Body := [] } ∧
    (middleware.CheckSession sample.sessions sample.respondOK
        { sample.bare with Cookies := [sample.sessionCookie "t9"] }
        { req := sample.bare } (sample.fresh 0)).2.w.Code = some 500 ∧
    (middleware.CheckSession sample.sessions sample.respondOK sample.bare
        { req := sample.bare } (sample.fresh 0)).2.w.Code = some 401 :=
  ⟨(C23_CheckSession sample.sessions sample.respondOK
      { sample.bare with Cookies := [sample.sessionCookie "t1"] } { req := sample.bare }
      (sample.fresh 0) rfl).2.2.mpr
      ⟨sample.sessionCookie "t1", sample.admin, 1, by decide, by decide⟩,
   (congrArg (fun x => x.2.w)
     (((C23_CheckSession sample.sessions sample.respondOK
      { sample.bare with Cookies := [sample.sessionCookie "t0"] } { req := sample.bare }
      (sample.fresh 0) rfl).2.1 (sample.sessionCookie "t0") (by decide)).1 none
      (errors.Wrap session.ErrorNoSession "try get session t0") 1 (by decide)
      (by decide)).1).trans (by decide),
   (congrArg (fun x => x.2.w.Code)
     (((C23_CheckSession sample.sessions sample.respondOK
      { sample.bare with Cookies := [sample.sessionCookie "t9"] } { req := sample.bare }
      (sample.fresh 0) rfl).2.1 (sample.sessionCookie "t9") (by decide)).2.1 none
      (errors.Wrap sample.down "try get session") 1 (by decide) (by decide))).trans rfl,
   (congrArg (fun x => x.2.w.Code)
     ((C23_CheckSession sample.sessions sample.respondOK sample.bare { req := sample.bare }
      (sample.fresh 0) rfl).1 (by decide))).trans rfl⟩

/-! ## The handler of the film listing -/

theorem FilmHandlers_GetFilms_rejected {R : Type} (fh : handlers.FilmHandlers R)
    (r : http.Request) (params : mux.Params) (s : http.Exchange R)
    (hfresh : s.w.Code = none)
    (hbad : (r.Query.Has "search_by" = true ∧ r.Query.Get "search_by" ≠ "film" ∧
        r.Query.Get "search_by" ≠ "actor") ∨
      (r.Query.Has "sort_order" = true ∧ r.Query.Get "sort_order" ≠ "DESC" ∧
        r.Query.Get "sort_order" ≠ "ASC") ∨
      (r.Query.Has "sort_by" = true ∧ r.Query.Get "sort_by" ≠ "rating" ∧
        r.Query.Get "sort_by" ≠ "name" ∧ r.Query.Get "sort_by" ≠ "publish_date")) :
    (fh.GetFilms r params s).2.w.Code = some 400 ∧ (fh.GetFilms r params s).2.repo = s.repo := by
  have hrej : ∀ key field, (handlers.FilmHandlers.GetFilms.reject s key field).2.w.Code =
      some 400 ∧ (handlers.FilmHandlers.GetFilms.reject s key field).2.repo = s.repo := by
    intro key field
    simp [handlers.FilmHandlers.GetFilms.reject, operate.SendError,
      http.ResponseWriter.Write, http.ResponseWriter.WriteHeader, hfresh,
      http.StatusBadRequest]
  simp only [handlers.FilmHandlers.GetFilms, handlers.SearchFieldKey, handlers.OrderKey,
    handlers.OrderFieldKey, types.FilmField, types.ActorField, types.DESC, types.ASC,
    types.RatingField, types.NameField, types.DataPublishField]
  by_cases h1 : r.Query.Has "search_by" = true ∧ r.Query.Get "search_by" ≠ "film" ∧
      r.Query.Get "search_by" ≠ "actor"
  · rw [if_pos h1]
    exact hrej _ _
  · rw [if_neg h1]
    by_cases h2 : r.Query.Has "sort_order" = true ∧ r.Query.Get "sort_order" ≠ "DESC" ∧
        r.Query.Get "sort_order" ≠ "ASC"
    · rw [if_pos h2]
      exact hrej _ _
    · rw [if_neg h2]
      by_cases h3 : r.Query.Has "sort_by" = true ∧ r.Query.Get "sort_by" ≠ "rating" ∧
          r.Query.Get "sort_by" ≠ "name" ∧ r.Query.Get "sort_by" ≠ "publish_date"
      · rw [if_pos h3]
        exact hrej _ _
      · rcases hbad with h | h | h
        · exact absurd h h1
        · exact absurd h h2
        · exact absurd h h3

theorem FilmHandlers_GetFilms_passed {R : Type} (fh : handlers.FilmHandlers R)
    (r : http.Request) (params : mux.Params) (s : http.Exchange R)
    (h1 : ¬ (r.Query.Has "search_by" = true ∧ r.Query.Get "search_by" ≠ "film" ∧
        r.Query.Get "search_by" ≠ "actor"))
    (h2 : ¬ (r.Query.Has "sort_order" = true ∧ r.Query.Get "sort_order" ≠ "DESC" ∧
        r.Query.Get "sort_order" ≠ "ASC"))
    (h3 : ¬ (r.Query.Has "sort_by" = true ∧ r.Query.Get "sort_by" ≠ "rating" ∧
        r.Query.Get "sort_by" ≠ "name" ∧ r.Query.Get "sort_by" ≠ "publish_date")) :
    (fh.GetFilms r params s).2.repo =
      (fh.repository.GetFilms (handlers.requestedParams r.Query) s.repo).2 := by
  have hp : ∀ p, p = handlers.requestedParams r.Query →
      (match fh.repository.GetFilms p s.repo with
        | ((_, some err), repo1) =>
          ((none : Option Panic),
            { (operate.SendError { s with repo := repo1 } handlers.ErrorUnknownError
                http.StatusInternalServerError) with
              l := (operate.SendError { s with repo := repo1 } handlers.ErrorUnknownError
                http.StatusInternalServerError).l.write .Error
                  (.error (errors.Wrap err "can't create film")) })
        | ((films, none), repo1) =>
          (none, operate.SendStatus { s with repo := repo1 } http.StatusOK
            (some (.films (response.FromRepositoryFilmsWithActor films))))).2.repo =
      (fh.repository.GetFilms (handlers.requestedParams r.Query) s.repo).2 := by
    intro p hp
    subst hp
    rcases hg : fh.repository.GetFilms (handlers.requestedParams r.Query) s.repo with
      ⟨⟨films, err⟩, repo1⟩
    cases err <;> simp [operate.SendError, operate.SendStatus]
  simp only [handlers.FilmHandlers.GetFilms, handlers.SearchFieldKey, handlers.OrderKey,
    handlers.OrderFieldKey, handlers.SearchStringKey, types.FilmField, types.ActorField,
    types.DESC, types.ASC, types.RatingField, types.NameField, types.DataPublishField]
  rw [if_neg h1, if_neg h2, if_neg h3]
  apply hp
  simp only [handlers.requestedParams]
  by_cases a : r.Query.Has "search_string" = true <;>
    by_cases b : r.Query.Has "search_by" = true <;>
    by_cases c : r.Query.Has "sort_order" = true <;>
    by_cases e : r.Query.Has "sort_by" = true <;>
    simp [a, b, c, e]

theorem handlers_allowed_requestedParams (values : url.Values)
    (h1 : ¬ (values.Has "search_by" = true ∧ values.Get "search_by" ≠ "film" ∧
        values.Get "search_by" ≠ "actor"))
    (h2 : ¬ (values.Has "sort_order" = true ∧ values.Get "sort_order" ≠ "DESC" ∧
        values.Get "sort_order" ≠ "ASC"))
    (h3 : ¬ (values.Has "sort_by" = true ∧ values.Get "sort_by" ≠ "rating" ∧
        values.Get "sort_by" ≠ "name" ∧ values.Get "sort_by" ≠ "publish_date")) :
    handlers.allowed (handlers.requestedParams values) := by
  simp only [handlers.allowed, handlers.requestedParams]
  refine ⟨?_, ?_, ?_⟩
  · by_cases e : values.Has "sort_by" = true
    · simp only [e, if_true]
      by_contra hne
      apply h3
      simp only [not_or] at hne
      exact ⟨e, hne.1, hne.2.1, hne.2.2⟩
    · simp [e]
  · by_cases c : values.Has "sort_order" = true
    · simp only [c, if_true]
      by_contra hne
      apply h2
      simp only [not_or] at hne
      exact ⟨c, hne.2, hne.1⟩
    · simp [c]
  · by_cases b : values.Has "search_by" = true
    · simp only [b, if_true]
      by_contra hne
      apply h1
      simp only [not_or] at hne
      exact ⟨b, hne.1, hne.2⟩
    · simp [b]

/-- C24: the handler `GetFilms` over every film repository, with its calls
logged, every request and every exchange whose response is not yet started.
Every call the handler makes on the repository is a `GetFilms` whose order
field is `rating`, `name` or `publish_date`, whose order is `ASC` or `DESC` and
whose search field is `film` or `actor`.  If `search_by`, `sort_order` or
`sort_by` is present in the query with another value, the status is 400 and the
repository is not called.  Otherwise the one call is `GetFilms` with, for each
parameter, the value of its key when present and else its default: `rating`,
`DESC`, `film` and the search string `*`. -/
theorem C24_GetFilms_allow_list {R : Type} (repo : film.Repository R)
    (cf : handlers.Codec request.CreateFilm) (cu : handlers.Codec request.UpdateFilm)
    (r : http.Request) (params : mux.Params) (s : http.Exchange (R × List film.Call))
    (hfresh : s.w.Code = none) (hlog : s.repo.2 = []) :
    (∀ c ∈ (handlers.FilmHandlers.GetFilms ⟨film.traced repo, cf, cu⟩ r params s).2.repo.2,
      ∃ p, c = film.Call.GetFilms p ∧ handlers.allowed p) ∧
    ((r.Query.Has "search_by" = true ∧ r.Query.Get "search_by" ≠ "film" ∧
        r.Query.Get "search_by" ≠ "actor") ∨
      (r.Query.Has "sort_order" = true ∧ r.Query.Get "sort_order" ≠ "DESC" ∧
        r.Query.Get "sort_order" ≠ "ASC") ∨
      (r.Query.Has "sort_by" = true ∧ r.Query.Get "sort_by" ≠ "rating" ∧
        r.Query.Get "sort_by" ≠ "name" ∧ r.Query.Get "sort_by" ≠ "publish_date") →
      (handlers.FilmHandlers.GetFilms ⟨film.traced repo, cf, cu⟩ r params s).2.w.Code =
        some 400 ∧
      (handlers.FilmHandlers.GetFilms ⟨film.traced repo, cf, cu⟩ r params s).2.repo.2 = []) ∧
    (¬ (r.Query.Has "search_by" = true ∧ r.Query.Get "search_by" ≠ "film" ∧
        r.Query.Get "search_by" ≠ "actor") →
      ¬ (r.Query.Has "sort_order" = true ∧ r.Query.Get "sort_order" ≠ "DESC" ∧
        r.Query.Get "sort_order" ≠ "ASC") →
      ¬ (r.Query.Has "sort_by" = true ∧ r.Query.Get "sort_by" ≠ "rating" ∧
        r.Query.Get "sort_by" ≠ "name" ∧ r.Query.Get "sort_by" ≠ "publish_date") →
      (handlers.FilmHandlers.GetFilms ⟨film.traced repo, cf, cu⟩ r params s).2.repo.2 =
        [film.Call.GetFilms (handlers.requestedParams r.Query)]) ∧
    handlers.requestedParams [] =
      { OrderField := "rating", Order := "DESC", SearchField := "film", SearchString := "*" } := by
  have hpass : ¬ (r.Query.Has "search_by" = true ∧ r.Query.Get "search_by" ≠ "film" ∧
        r.Query.Get "search_by" ≠ "actor") →
      ¬ (r.Query.Has "sort_order" = true ∧ r.Query.Get "sort_order" ≠ "DESC" ∧
        r.Query.Get "sort_order" ≠ "ASC") →
      ¬ (r.Query.Has "sort_by" = true ∧ r.Query.Get "sort_by" ≠ "rating" ∧
        r.Query.Get "sort_by" ≠ "name" ∧ r.Query.Get "sort_by" ≠ "publish_date") →
      (handlers.FilmHandlers.GetFilms ⟨film.traced repo, cf, cu⟩ r params s).2.repo.2 =
        [film.Call.GetFilms (handlers.requestedParams r.Query)] := by
    intro h1 h2 h3
    rw [FilmHandlers_GetFilms_passed ⟨film.traced repo, cf, cu⟩ r params s h1 h2 h3]
    simp [film.traced, hlog]
  have hrej : (r.Query.Has "search_by" = true ∧ r.Query.Get "search_by" ≠ "film" ∧
        r.Query.Get "search_by" ≠ "actor") ∨
      (r.Query.Has "sort_order" = true ∧ r.Query.Get "sort_order" ≠ "DESC" ∧
        r.Query.Get "sort_order" ≠ "ASC") ∨
      (r.Query.Has "sort_by" = true ∧ r.Query.Get "sort_by" ≠ "rating" ∧
        r.Query.Get "sort_by" ≠ "name" ∧ r.Query.Get "sort_by" ≠ "publish_date") →
      (handlers.FilmHandlers.GetFilms ⟨film.traced repo, cf, cu⟩ r params s).2.w.Code =
        some 400 ∧
      (handlers.FilmHandlers.GetFilms ⟨film.traced repo, cf, cu⟩ r params s).2.repo.2 = [] := by
    intro hbad
    obtain ⟨hcode, hrepo⟩ :=
      FilmHandlers_GetFilms_rejected ⟨film.traced repo, cf, cu⟩ r params s hfresh hbad
    exact ⟨hcode, by rw [hrepo, hlog]⟩
  refine ⟨?_, hrej, hpass, rfl⟩
  intro c hc
  by_cases h1 : r.Query.Has "search_by" = true ∧ r.Query.Get "search_by" ≠ "film" ∧
      r.Query.Get "search_by" ≠ "actor"
  · rw [(hrej (Or.inl h1)).2] at hc
    simp at hc
  · by_cases h2 : r.Query.Has "sort_order" = true ∧ r.Query.Get "sort_order" ≠ "DESC" ∧
        r.Query.Get "sort_order" ≠ "ASC"
    · rw [(hrej (Or.inr (Or.inl h2))).2] at hc
      simp at hc
    · by_cases h3 : r.Query.Has "sort_by" = true ∧ r.Query.Get "sort_by" ≠ "rating" ∧
          r.Query.Get "sort_by" ≠ "name" ∧ r.Query.Get "sort_by" ≠ "publish_date"
      · rw [(hrej (Or.inr (Or.inr h3))).2] at hc
        simp at hc
      · rw [hpass h1 h2 h3] at hc
        simp only [List.mem_singleton] at hc
        exact ⟨_, hc, handlers_allowed_requestedParams r.Query h1 h2 h3⟩

/-- Witness of C24: a query whose `sort_by` is not on the list is answered
with 400 without a call on the repository; the query `sort_by=name` and
`search_by=actor` reaches the repository with the defaults for the rest. -/
theorem C24_GetFilms_allow_list_witness :
    ((handlers.FilmHandlers.GetFilms ⟨film.traced sample.noFilms, sample.noJson, sample.noJson⟩
        { sample.bare with Query := [("sort_by", ["rating; DROP TABLE films"])] }
        { req := sample.bare } (sample.fresh ((), []))).2.w.Code = some 400 ∧
      (handlers.FilmHandlers.GetFilms ⟨film.traced sample.noFilms, sample.noJson, sample.noJson⟩
        { sample.bare with Query := [("sort_by", ["rating; DROP TABLE films"])] }
        { req := sample.bare } (sample.fresh ((), []))).2.repo.2 = []) ∧
    (handlers.FilmHandlers.GetFilms ⟨film.traced sample.noFilms, sample.noJson, sample.noJson⟩
        { sample.bare with Query := [("sort_by", ["name"]), ("search_by", ["actor"])] }
        { req := sample.bare } (sample.fresh ((), []))).2.repo.2 =
      [film.Call.GetFilms (handlers.requestedParams
        [("sort_by", ["name"]), ("search_by", ["actor"])])] ∧
    handlers.requestedParams [("sort_by", ["name"]), ("search_by", ["actor"])] =
      { OrderField := "name", Order := "DESC", SearchField := "actor", SearchString := "*" } :=
  ⟨(C24_GetFilms_allow_list sample.noFilms sample.noJson sample.noJson
      { sample.bare with Query := [("sort_by", ["rating; DROP TABLE films"])] }
      { req := sample.bare } (sample.fresh ((), [])) rfl rfl).2.1
      (Or.inr (Or.inr (by decide))),
   (C24_GetFilms_allow_list sample.noFilms sample.noJson sample.noJson
      { sample.bare with Query := [("sort_by", ["name"]), ("search_by", ["actor"])] }
      { req := sample.bare } (sample.fresh ((), [])) rfl rfl).2.2.1
      (by decide) (by decide) (by decide),
   by decide⟩

/-! ## The handlers of login and logout -/

theorem UserHandlers_Login_bad_credentials {R : Type} (uh : handlers.UserHandlers R)
    (r : http.Request) (params : mux.Params) (s : http.Exchange R) (body : String)
    (login : request.Login) (sessionId : String) (e : GoError) (repo1 : R)
    (hfresh : s.w.Code = none) (hbody : r.Body = .ok body)
    (hval : uh.login.validation body = none) (hun : uh.login.Unmarshal body = .ok login)
    (hlogin : uh.auth.Login login.Login login.Password s.repo = ((sessionId, some e), repo1))
    (he : errors.Is e .incorrectPassword = true ∨ errors.Is e .userNotFound = true) :
    (uh.Login r params s).2.w =
      { Header := s.w.Header, Code := some 409, Sent := s.w.Header,
        Body := s.w.Body ++
          [.modelError (.sentinel (.handlers "incorrect login or password"))] } := by
  simp [handlers.UserHandlers.Login, handlers.parseRequestBody, hbody, hval, hun, hlogin, he,
    operate.SendError, http.ResponseWriter.Write, http.ResponseWriter.WriteHeader, hfresh,
    http.StatusConflict, handlers.ErrorIncorrectLoginOrPassword]

/-- C25: the handler `Login`, for every request whose body is read, passes the
validation and unmarshals into a login request, and every exchange whose
response is not yet started.  When `SessionManager.Login` fails with an error
that is `ErrorIncorrectPassword` or one that is `ErrorUserNotFound`, the
response has the status 409, the body of the error `incorrect login or
password` and the header as it was: no cookie is set.  So the response of a
run that fails with `ErrorIncorrectPassword` and of a run, on any other session
manager and state, that fails with `ErrorUserNotFound` are the same. -/
theorem C25_Login_collapses_credential_errors {R : Type} (uh1 uh2 : handlers.UserHandlers R)
    (r : http.Request) (params : mux.Params) (s1 s2 : http.Exchange R) (body : String)
    (login1 login2 : request.Login) (sid1 sid2 : String) (e1 e2 : GoError) (repo1 repo2 : R)
    (hw : s1.w = s2.w) (hfresh : s1.w.Code = none) (hbody : r.Body = .ok body)
    (hval1 : uh1.login.validation body = none) (hun1 : uh1.login.Unmarshal body = .ok login1)
    (hval2 : uh2.login.validation body = none) (hun2 : uh2.login.Unmarshal body = .ok login2)
    (hlogin1 : uh1.auth.Login login1.Login login1.Password s1.repo = ((sid1, some e1), repo1))
    (hlogin2 : uh2.auth.Login login2.Login login2.Password s2.repo = ((sid2, some e2), repo2))
    (he1 : errors.Is e1 .incorrectPassword = true)
    (he2 : errors.Is e2 .userNotFound = true) :
    (uh1.Login r params s1).2.w = (uh2.Login r params s2).2.w ∧
    (uh1.Login r params s1).2.w =
      { Header := s1.w.Header, Code := some 409, Sent := s1.w.Header,
        Body := s1.w.Body ++ [.modelError handlers.ErrorIncorrectLoginOrPassword] } ∧
    handlers.ErrorIncorrectLoginOrPassword =
      .sentinel (.handlers "incorrect login or password") := by
  have h1 := UserHandlers_Login_bad_credentials uh1 r params s1 body login1 sid1 e1 repo1
    hfresh hbody hval1 hun1 hlogin1 (Or.inl he1)
  have h2 := UserHandlers_Login_bad_credentials uh2 r params s2 body login2 sid2 e2 repo2
    (by rw [← hw]; exact hfresh) hbody hval2 hun2 hlogin2 (Or.inr he2)
  refine ⟨?_, h1, rfl⟩
  rw [h1, h2, hw]

/-- Witness of C25: a wrong password for `admin` and the unknown login `eve`
get the same response, with the status 409. -/
theorem C25_Login_collapses_credential_errors_witness :
    ((sample.userHandlers { Login := "admin", Password := "wrong" }).Login sample.bare
        { req := sample.bare } (sample.fresh 0)).2.w =
      ((sample.userHandlers { Login := "eve", Password := "secret" }).Login sample.bare
        { req := sample.bare } (sample.fresh 0)).2.w ∧
    ((sample.userHandlers { Login := "admin", Password := "wrong" }).Login sample.bare
        { req := sample.bare } (sample.fresh 0)).2.w =
      { Header := [], Code := some 409, Sent := [],
        Body := [.modelError (.sentinel (.handlers "incorrect login or password"))] } :=
  ⟨(C25_Login_collapses_credential_errors
      (sample.userHandlers { Login := "admin", Password := "wrong" })
      (sample.userHandlers { Login := "eve", Password := "secret" })
      sample.bare { req := sample.bare } (sample.fresh 0) (sample.fresh 0) ""
      { Login := "admin", Password := "wrong" } { Login := "eve", Password := "secret" }
      "" "" auth.ErrorIncorrectPassword user.ErrorUserNotFound 1 1
      rfl rfl rfl rfl rfl rfl rfl (by decide) (by decide) (by decide) (by decide)).1,
   (C25_Login_collapses_credential_errors
      (sample.userHandlers { Login := "admin", Password := "wrong" })
      (sample.userHandlers { Login := "eve", Password := "secret" })
      sample.bare { req := sample.bare } (sample.fresh 0) (sample.fresh 0) ""
      { Login := "admin", Password := "wrong" } { Login := "eve", Password := "secret" }
      "" "" auth.ErrorIncorrectPassword user.ErrorUserNotFound 1 1
      rfl rfl rfl rfl rfl rfl rfl (by decide) (by decide) (by decide) (by decide)).2.1⟩

/-- C28 fails on the request of the handler tests, whose context carries the
session id `t1`: `Logout` calls the session manager once, sets the expired
session cookie with the empty value and answers 200, and then makes the
panic-level call `no session was found in logout`, because the block for a
session id does not return.  On a logger whose `Panic` panics the handler ends
with that panic, after the response. -/
theorem C28_Logout_reaches_panic_call :
    (sample.userHandlers { Login := "admin", Password := "secret" }).Logout
        { sample.bare with ctx := { user_info := some sample.admin, session_id := some "t1" } }
        { req := sample.bare } (sample.fresh 0) =
      (none,
       { w := { Header := [{ Name := "session_id", Value := "", Path := "/",
                             Expires := 976 * time.Hour, HttpOnly := true }],
                Code := some 200,
                Sent := [{ Name := "session_id", Value := "", Path := "/",
                           Expires := 976 * time.Hour, HttpOnly := true }],
                Body := [] },
         l := { Panics := false,
                Calls := [{ level := .Info, message := .text "logged out" },
                          { level := .Info,
                            message := .text "was sent response with status code %d" },
                          { level := .Panic,
                            message := .text "no session was found in logout" }] },
         now := 1000 * time.Hour,
         repo := 1 }) ∧
    ((sample.userHandlers { Login := "admin", Password := "secret" }).Logout
        { sample.bare with ctx := { user_info := some sample.admin, session_id := some "t1" } }
        { req := sample.bare }
        { sample.fresh 0 with l := { Panics := true, Calls := [] } }).1 =
      some (Panic.logged "no session was found in logout") := by
  decide

/-! ## The access check of the handlers that change data -/

/-- C26: the nine handlers that change data, over every repository, request,
path parameters and body.  When the context of the request carries no user, or
a user whose role is not `admin`, each handler leaves the exchange that
`SendError` leaves for `ErrorUserNotPermitted` and the status 403: on an
exchange whose response is not yet started the status is 403, and the state
behind the repository is the one before the call, whatever the repository is,
so that no call is made on it. -/
theorem C26_admin_gate {A F U : Type} (ah : handlers.ActorHandlers A)
    (fh : handlers.FilmHandlers F) (uh : handlers.UserHandlers U) (r : http.Request)
    (params : mux.Params)
    (hgate : middleware.GetUser r = none ∨
      ∃ usr, middleware.GetUser r = some usr ∧ usr.Role ≠ types.ADMIN) :
    (∀ s : http.Exchange A,
      ah.CreateActor r params s =
        (none, operate.SendError s handlers.ErrorUserNotPermitted http.StatusForbidden) ∧
      ah.UpdateActor r params s =
        (none, operate.SendError s handlers.ErrorUserNotPermitted http.StatusForbidden) ∧
      ah.DeleteActor r params s =
        (none, operate.SendError s handlers.ErrorUserNotPermitted http.StatusForbidden)) ∧
    (∀ s : http.Exchange F,
      fh.CreateFilm r params s =
        (none, operate.SendError s handlers.ErrorUserNotPermitted http.StatusForbidden) ∧
      fh.UpdateFilm r params s =
        (none, operate.SendError s handlers.ErrorUserNotPermitted http.StatusForbidden) ∧
      fh.DeleteFilm r params s =
        (none, operate.SendError s handlers.ErrorUserNotPermitted http.StatusForbidden)) ∧
    (∀ s : http.Exchange U,
      uh.CreateUser r params s =
        (none, operate.SendError s handlers.ErrorUserNotPermitted http.StatusForbidden) ∧
      uh.UpdateUserRole r params s =
        (none, operate.SendError s handlers.ErrorUserNotPermitted http.StatusForbidden) ∧
      uh.DeleteUser r params s =
        (none, operate.SendError s handlers.ErrorUserNotPermitted http.StatusForbidden)) ∧
    (∀ (R : Type) (s : http.Exchange R), s.w.Code = none →
      (operate.SendError s handlers.ErrorUserNotPermitted http.StatusForbidden).w.Code =
        some 403 ∧
      (operate.SendError s handlers.ErrorUserNotPermitted http.StatusForbidden).repo =
        s.repo) := by
  have hnp : handlers.notPermitted r = true := by
    rcases hgate with h | ⟨usr, h, hrole⟩
    · simp [handlers.notPermitted, h]
    · simp [handlers.notPermitted, h, hrole]
  refine ⟨fun s => ⟨?_, ?_, ?_⟩, fun s => ⟨?_, ?_, ?_⟩, fun s => ⟨?_, ?_, ?_⟩, ?_⟩
  · simp [handlers.ActorHandlers.CreateActor, hnp]
  · simp [handlers.ActorHandlers.UpdateActor, hnp]
  · simp [handlers.ActorHandlers.DeleteActor, hnp]
  · simp [handlers.FilmHandlers.CreateFilm, hnp]
  · simp [handlers.FilmHandlers.UpdateFilm, hnp]
  · simp [handlers.FilmHandlers.DeleteFilm, hnp]
  · simp [handlers.UserHandlers.CreateUser, hnp]
  · simp [handlers.UserHandlers.UpdateUserRole, hnp]
  · simp [handlers.UserHandlers.DeleteUser, hnp]
  · intro R s hfresh
    simp [operate.SendError, http.ResponseWriter.Write, http.ResponseWriter.WriteHeader,
      hfresh, http.StatusForbidden]

/-- Witness of C26: the request of a user with the role `user` to update film 1
is answered with 403 and the repository, which logs its calls, has logged none;
the request without user to delete user 1 leaves the count of calls at 0. -/
theorem C26_admin_gate_witness :
    (handlers.FilmHandlers.UpdateFilm
        ⟨film.traced sample.noFilms, sample.noJson,
          sample.reads { Name := some "Z", Description := none, DataPublish := none,
                         Rating := none, Actors := none }⟩
        (sample.changeFilm (some { sample.admin with Role := types.USER }))
        { req := sample.changeFilm (some { sample.admin with Role := types.USER }) }
        (sample.fresh ((), []))).2.w.Code = some 403 ∧
    (handlers.FilmHandlers.UpdateFilm
        ⟨film.traced sample.noFilms, sample.noJson,
          sample.reads { Name := some "Z", Description := none, DataPublish := none,
                         Rating := none, Actors := none }⟩
        (sample.changeFilm (some { sample.admin with Role := types.USER }))
        { req := sample.changeFilm (some { sample.admin with Role := types.USER }) }
        (sample.fresh ((), []))).2.repo = ((), []) ∧
    ((sample.userHandlers { Login := "admin", Password := "secret" }).DeleteUser
        (sample.changeFilm none) { req := sample.changeFilm none }
        (sample.fresh 0)).2.repo = 0 :=
  ⟨(congrArg (fun x => x.2.w.Code)
      ((C26_admin_gate ⟨actor.traced sample.noActors, sample.noJson, sample.noJson⟩
        ⟨film.traced sample.noFilms, sample.noJson,
          sample.reads { Name := some "Z", Description := none, DataPublish := none,
                         Rating := none, Actors := none }⟩
        (sample.userHandlers { Login := "admin", Password := "secret" })
        (sample.changeFilm (some { sample.admin with Role := types.USER }))
        { req := sample.changeFilm (some { sample.admin with Role := types.USER }) }
        (Or.inr ⟨{ sample.admin with Role := types.USER }, rfl, by decide⟩)).2.1
        (sample.fresh ((), []))).2.1).trans (by decide),
   (congrArg (fun x => x.2.repo)
      ((C26_admin_gate ⟨actor.traced sample.noActors, sample.noJson, sample.noJson⟩
        ⟨film.traced sample.noFilms, sample.noJson,
          sample.reads { Name := some "Z", Description := none, DataPublish := none,
                         Rating := none, Actors := none }⟩
        (sample.userHandlers { Login := "admin", Password := "secret" })
        (sample.changeFilm (some { sample.admin with Role := types.USER }))
        { req := sample.changeFilm (some { sample.admin with Role := types.USER }) }
        (Or.inr ⟨{ sample.admin with Role := types.USER }, rfl, by decide⟩)).2.1
        (sample.fresh ((), []))).2.1).trans rfl,
   (congrArg (fun x => x.2.repo)
      ((C26_admin_gate ⟨actor.traced sample.noActors, sample.noJson, sample.noJson⟩
        ⟨film.traced sample.noFilms, sample.noJson, sample.noJson⟩
        (sample.userHandlers { Login := "admin", Password := "secret" })
        (sample.changeFilm none) { req := sample.changeFilm none }
        (Or.inl rfl)).2.2.1 (sample.fresh 0)).2.2).trans rfl⟩
